import Mathlib

/-!
# Operand deployment lifecycle manager: operator reconciliation

A shallow embedding of `controllers/operator/manager.go` and
`controllers/operandrequest/reconcile_operator.go`, followed by the properties proved of it.

* Kubernetes objects are records holding the fields the two files read or write.
* The object store behind `client.Client` is a `Cluster` (one list per kind, an object is
  addressed by the namespace and name it carries); a `World` adds the sequence of client
  calls issued so far. `Get` returns the stored object or `NotFound`, `Create` refuses an
  existing key with `AlreadyExists`, `Update` and `Delete` need an existing key.
* A client call may fail: `Env.fault` decides, from the number of calls issued so far and
  the call itself, whether the call fails and with which API error.
* Go functions returning `error` return a `Result` or an optional error; a nil-pointer
  dereference is the outcome `Result.nilDereference`.
* The `*OperandRequest` pointer that the reconciler mutates is threaded through as a value;
  a successful `Patch` decodes the answer of the server into it, so that the value is from
  then on the stored Request as patched.
* A `golang-set` set is a duplicate-free list iterated in insertion order.
* Logging and the event recorder are left out.
-/

set_option autoImplicit false

namespace ODLM

/-! ## Constants -/

/-- Modelled from the spec: the `private` scope value of `api/v1alpha1`. -/
def ScopePrivate : String := "private"

/-- Modelled from the spec: the `public` scope value of `api/v1alpha1`. -/
def ScopePublic : String := "public"

/-- Modelled from the spec: the `cluster` install mode of `api/v1alpha1`. -/
def InstallModeCluster : String := "cluster"

/-- Modelled from the spec: the `namespace` install mode of `api/v1alpha1`. -/
def InstallModeNamespace : String := "namespace"

/-- Modelled from the spec: the `automatic` approval policy (`olmv1alpha1.ApprovalAutomatic`). -/
def ApprovalAutomatic : String := "Automatic"

/-- Modelled from the spec: the terminal-success install plan phase. -/
def InstallPlanPhaseComplete : String := "Complete"

/-- Modelled from the spec: the terminal-failed install plan phase. -/
def InstallPlanPhaseFailed : String := "Failed"

/-- Modelled from the spec: the sentinel ownership label (`constant.OpreqLabel`). -/
def OpreqLabel : String := "operator.ibm.com/opreq-control"

/-- Modelled from the spec: the do-not-uninstall label (`constant.NotUninstallLabel`); the
name is the one `deleteSubscription` logs. -/
def NotUninstallLabel : String := "operator.ibm.com/opreq-do-not-uninstall"

/-- Modelled from the spec: the cluster-wide sentinel namespace
(`constant.ClusterOperatorNamespace`); the value is the one `generateClusterObjects`
documents. -/
def ClusterOperatorNamespace : String := "openshift-operators"

/-- Modelled from the spec: the marker annotation recording whether the Registry was last
seen missing (`constant.FindOperandRegistry`). -/
def FindOperandRegistry : String := "operator.ibm.com/find-operandregistry"

/-- Modelled from the spec: member phase `Installing`. -/
def OperatorInstalling : String := "Installing"

/-- Modelled from the spec: member phase `Updating`. -/
def OperatorUpdating : String := "Updating"

/-- Modelled from the spec: member phase `Failed`. -/
def OperatorFailed : String := "Failed"

/-! ## Data model -/

/-- The `types.NamespacedName` key. -/
structure NamespacedName where
  Namespace : String
  Name : String
deriving DecidableEq, Repr

/-- The `types.NamespacedName.String` rendering, `namespace/name`. -/
def NamespacedName.String (n : NamespacedName) : String :=
  n.Namespace ++ "/" ++ n.Name

/-- A Go `map[string]string`. -/
abbrev Labels := List (String × String)

/-- The comma-ok test `_, ok := m[k]`. -/
def Labels.has (m : Labels) (k : String) : Bool := (m.lookup k).isSome

/-- The value read `m[k]`, the empty string when the key is absent. -/
def Labels.value (m : Labels) (k : String) : String := (m.lookup k).getD ""

/-- The `Operator` definition record of a Registry. -/
structure Operator where
  Name : String
  Namespace : String
  Channel : String
  PackageName : String
  Scope : String
  InstallMode : String
  SourceName : String
  SourceNamespace : String
  TargetNamespaces : Option (List String)
  InstallPlanApproval : String
deriving DecidableEq, Repr

/-- The `OperandRegistry` object; `Operators` is `Spec.Operators`. -/
structure OperandRegistry where
  Name : String
  Namespace : String
  Operators : List Operator
deriving DecidableEq, Repr

/-- The `OperandConfig` object; only its identity is used here. -/
structure OperandConfig where
  Name : String
  Namespace : String
deriving DecidableEq, Repr

/-- One requested operand of a Request entry. -/
structure Operand where
  Name : String
deriving DecidableEq, Repr

/-- One entry of `OperandRequest.Spec.Requests`. -/
structure Request where
  Registry : String
  RegistryNamespace : String
  Operands : List Operand
deriving DecidableEq, Repr

/-- The kind of resource a condition is about. -/
inductive ResourceType where
  | ResourceTypeOperandRegistry
  | ResourceTypeSub
  | ResourceTypeCsv
deriving DecidableEq, Repr

/-- The kind of a status condition. -/
inductive ConditionType where
  | ConditionCreating
  | ConditionUpdating
  | ConditionDeleting
  | ConditionNotFound
  | ConditionOutofScope
deriving DecidableEq, Repr

/-- A status condition of a Request. -/
structure Condition where
  CondType : ConditionType
  Name : String
  Resource : ResourceType
  Status : Bool
deriving DecidableEq, Repr

/-- One `MemberStatus`; `Phase` is the operator phase. -/
structure MemberStatus where
  Name : String
  Phase : String
deriving DecidableEq, Repr

/-- The `OperandRequestStatus` sub-entity. -/
structure OperandRequestStatus where
  Conditions : List Condition
  Members : List MemberStatus
  Phase : String
deriving DecidableEq, Repr

/-- The `OperandRequest` object; `Requests` is `Spec.Requests`, `DeletionTimestamp` is the
metadata pointer (`none` is nil). -/
structure OperandRequest where
  Name : String
  Namespace : String
  DeletionTimestamp : Option Nat
  Annotations : Labels
  Requests : List Request
  Status : OperandRequestStatus
deriving DecidableEq, Repr

/-- The `SubscriptionSpec` fields the reconciler manages. -/
structure SubscriptionSpec where
  CatalogSource : String
  CatalogSourceNamespace : String
  Package : String
  Channel : String
  InstallPlanApproval : String
deriving DecidableEq, Repr

/-- The `SubscriptionStatus` fields read by `GetClusterServiceVersion`: `Install` is the
pointer `Status.Install` (only its presence is read), `InstallPlanRef` is the pointer
`Status.InstallPlanRef` with the `Name` it carries. -/
structure SubscriptionStatus where
  CurrentCSV : String
  Install : Option Unit
  InstallPlanRef : Option String
deriving DecidableEq, Repr

/-- The OLM `Subscription` object. -/
structure Subscription where
  Name : String
  Namespace : String
  Labels : Labels
  Spec : SubscriptionSpec
  Status : SubscriptionStatus
deriving DecidableEq, Repr

/-- The OLM `OperatorGroup` object. -/
structure OperatorGroup where
  Name : String
  Namespace : String
  Labels : Labels
  TargetNamespaces : List String
deriving DecidableEq, Repr

/-- The core `Namespace` object. -/
structure Namespace where
  Name : String
  Labels : Labels
deriving DecidableEq, Repr

/-- The OLM `InstallPlan` object; `Phase` is `Status.Phase`. -/
structure InstallPlan where
  Name : String
  Namespace : String
  Phase : String
deriving DecidableEq, Repr

/-- The OLM `ClusterServiceVersion` object. -/
structure ClusterServiceVersion where
  Name : String
  Namespace : String
deriving DecidableEq, Repr

/-- The bundle `clusterObjects` built by `generateClusterObjects`. -/
structure clusterObjects where
  namespace_ : Namespace
  operatorGroup : OperatorGroup
  subscription : Subscription
deriving DecidableEq, Repr

/-! ## Errors and results -/

/-- The API failures the code distinguishes. -/
inductive ApiError where
  | NotFound
  | AlreadyExists
  | Conflict
  | Internal
deriving DecidableEq, Repr

/-- A single Go error: an API error, bare or wrapped with a message by `errors.Wrap`. -/
inductive OpError where
  | api (e : ApiError)
  | wrap (e : ApiError) (msg : String)
deriving DecidableEq, Repr

/-- A Go `error` value: one failure, or the `util.MultiErr` collection. -/
inductive GoError where
  | single (e : OpError)
  | multi (errs : List OpError)
deriving DecidableEq, Repr

/-- The outcome of a Go call: a value, an error, or a nil-pointer dereference. -/
inductive Result (α : Type) where
  | ok (a : α)
  | error (e : GoError)
  | nilDereference
deriving DecidableEq, Repr

/-- The test `apierrors.IsNotFound(err)` on a possibly nil error. -/
def IsNotFound : Option GoError → Bool
  | some (.single (.api .NotFound)) => true
  | _ => false

/-- The test `apierrors.IsAlreadyExists(err)` on an API error. -/
def IsAlreadyExists : ApiError → Bool
  | .AlreadyExists => true
  | _ => false

/-! ## The object store -/

/-- The verb of a client call. -/
inductive Verb where
  | get | list | create | update | delete | patch | sweep
deriving DecidableEq, Repr

/-- The kind a client call addresses. -/
inductive Kind where
  | OperandRegistry | OperandConfig | OperandRequest | Subscription | OperatorGroup
  | Namespace | InstallPlan | ClusterServiceVersion | CustomResource
deriving DecidableEq, Repr

/-- One call issued to the object store. -/
structure Call where
  verb : Verb
  kind : Kind
  key : NamespacedName
deriving DecidableEq, Repr

/-- The contents of the object store. -/
structure Cluster where
  registries : List OperandRegistry
  configs : List OperandConfig
  requests : List OperandRequest
  subscriptions : List Subscription
  operatorGroups : List OperatorGroup
  namespaces : List Namespace
  installPlans : List InstallPlan
  csvs : List ClusterServiceVersion
deriving DecidableEq, Repr

/-- The store together with the calls issued so far. -/
structure World where
  cluster : Cluster
  calls : List Call
deriving DecidableEq, Repr

/-- What the code takes from its surroundings: `fault n c` is the failure, if any, of call
`c` issued after `n` earlier calls; `operatorNamespace` is `util.GetOperatorNamespace()`;
`clusterPhase` is the aggregation done by `UpdateClusterPhase`. -/
structure Env where
  fault : Nat → Call → Option ApiError
  operatorNamespace : String
  clusterPhase : List MemberStatus → String

/-- An environment in which no call fails. -/
def Env.reliable : Env :=
  { fault := fun _ _ => none, operatorNamespace := "ibm-common-services",
    clusterPhase := fun _ => "" }

/-- Record a call in the sequence of calls issued. -/
def World.record (w : World) (c : Call) : World :=
  { w with calls := w.calls ++ [c] }

/-- The failure, if any, of call `c` when issued in world `w`. -/
def Env.failure (env : Env) (w : World) (c : Call) : Option ApiError :=
  env.fault w.calls.length c

/-- The key of a Subscription. -/
def Subscription.key (s : Subscription) : NamespacedName := ⟨s.Namespace, s.Name⟩

/-- The key of a Registry. -/
def OperandRegistry.key (r : OperandRegistry) : NamespacedName := ⟨r.Namespace, r.Name⟩

/-- The key of a Config. -/
def OperandConfig.key (r : OperandConfig) : NamespacedName := ⟨r.Namespace, r.Name⟩

/-- The key of a Request. -/
def OperandRequest.key (r : OperandRequest) : NamespacedName := ⟨r.Namespace, r.Name⟩

/-- The key of an install plan. -/
def InstallPlan.key (r : InstallPlan) : NamespacedName := ⟨r.Namespace, r.Name⟩

/-- The key of a CSV. -/
def ClusterServiceVersion.key (r : ClusterServiceVersion) : NamespacedName :=
  ⟨r.Namespace, r.Name⟩

/-- The key of an operator group. -/
def OperatorGroup.key (r : OperatorGroup) : NamespacedName := ⟨r.Namespace, r.Name⟩

/-- The key of a namespace object (cluster scoped). -/
def Namespace.key (r : Namespace) : NamespacedName := ⟨"", r.Name⟩

/-- The Subscription stored under a key. -/
def Cluster.subscriptionAt (c : Cluster) (k : NamespacedName) : Option Subscription :=
  c.subscriptions.find? (fun s => s.key = k)

/-- The CSV stored under a key. -/
def Cluster.csvAt (c : Cluster) (k : NamespacedName) : Option ClusterServiceVersion :=
  c.csvs.find? (fun s => s.key = k)

/-- `Client.Get`: the object of the given kind stored under `key`, `NotFound` when there is
none, or the injected failure. The call is recorded. -/
def clientGet {α : Type} (env : Env) (w : World) (kind : Kind) (objs : List α)
    (keyOf : α → NamespacedName) (key : NamespacedName) : Except ApiError α × World :=
  match env.failure w ⟨.get, kind, key⟩ with
  | some e => (.error e, w.record ⟨.get, kind, key⟩)
  | none =>
    match objs.find? (fun o => keyOf o = key) with
    | some o => (.ok o, w.record ⟨.get, kind, key⟩)
    | none => (.error .NotFound, w.record ⟨.get, kind, key⟩)

/-- `Client.Create` of a Subscription: stored unless one exists under its key. -/
def createSubscriptionObj (env : Env) (w : World) (sub : Subscription) :
    Option ApiError × World :=
  match env.failure w ⟨.create, .Subscription, sub.key⟩ with
  | some e => (some e, w.record ⟨.create, .Subscription, sub.key⟩)
  | none =>
    match w.cluster.subscriptionAt sub.key with
    | some _ => (some .AlreadyExists, w.record ⟨.create, .Subscription, sub.key⟩)
    | none =>
      (none, { cluster := { w.cluster with subscriptions := w.cluster.subscriptions ++ [sub] },
               calls := w.calls ++ [⟨.create, .Subscription, sub.key⟩] })

/-- `Client.Update` of a Subscription: replaces the one stored under its key. -/
def updateSubscriptionObj (env : Env) (w : World) (sub : Subscription) :
    Option ApiError × World :=
  match env.failure w ⟨.update, .Subscription, sub.key⟩ with
  | some e => (some e, w.record ⟨.update, .Subscription, sub.key⟩)
  | none =>
    match w.cluster.subscriptionAt sub.key with
    | none => (some .NotFound, w.record ⟨.update, .Subscription, sub.key⟩)
    | some _ =>
      (none, { cluster := { w.cluster with
                 subscriptions := w.cluster.subscriptions.map
                   (fun s => if s.key = sub.key then sub else s) },
               calls := w.calls ++ [⟨.update, .Subscription, sub.key⟩] })

/-- `Client.Delete` of a Subscription: removes the one stored under its key. -/
def deleteSubscriptionObj (env : Env) (w : World) (sub : Subscription) :
    Option ApiError × World :=
  match env.failure w ⟨.delete, .Subscription, sub.key⟩ with
  | some e => (some e, w.record ⟨.delete, .Subscription, sub.key⟩)
  | none =>
    match w.cluster.subscriptionAt sub.key with
    | none => (some .NotFound, w.record ⟨.delete, .Subscription, sub.key⟩)
    | some _ =>
      (none, { cluster := { w.cluster with
                 subscriptions := w.cluster.subscriptions.filter (fun s => s.key ≠ sub.key) },
               calls := w.calls ++ [⟨.delete, .Subscription, sub.key⟩] })

/-- `Client.Delete` of a CSV: removes the one stored under its key. -/
def deleteCsvObj (env : Env) (w : World) (csv : ClusterServiceVersion) :
    Option ApiError × World :=
  match env.failure w ⟨.delete, .ClusterServiceVersion, csv.key⟩ with
  | some e => (some e, w.record ⟨.delete, .ClusterServiceVersion, csv.key⟩)
  | none =>
    match w.cluster.csvAt csv.key with
    | none => (some .NotFound, w.record ⟨.delete, .ClusterServiceVersion, csv.key⟩)
    | some _ =>
      (none, { cluster := { w.cluster with
                 csvs := w.cluster.csvs.filter (fun s => s.key ≠ csv.key) },
               calls := w.calls ++ [⟨.delete, .ClusterServiceVersion, csv.key⟩] })

/-- `Client.Create` of a Namespace object. -/
def createNamespaceObj (env : Env) (w : World) (ns : Namespace) : Option ApiError × World :=
  match env.failure w ⟨.create, .Namespace, ns.key⟩ with
  | some e => (some e, w.record ⟨.create, .Namespace, ns.key⟩)
  | none =>
    match w.cluster.namespaces.find? (fun s => s.key = ns.key) with
    | some _ => (some .AlreadyExists, w.record ⟨.create, .Namespace, ns.key⟩)
    | none =>
      (none, { cluster := { w.cluster with namespaces := w.cluster.namespaces ++ [ns] },
               calls := w.calls ++ [⟨.create, .Namespace, ns.key⟩] })

/-- `Client.Create` of an OperatorGroup. -/
def createOperatorGroupObj (env : Env) (w : World) (og : OperatorGroup) :
    Option ApiError × World :=
  match env.failure w ⟨.create, .OperatorGroup, og.key⟩ with
  | some e => (some e, w.record ⟨.create, .OperatorGroup, og.key⟩)
  | none =>
    match w.cluster.operatorGroups.find? (fun s => s.key = og.key) with
    | some _ => (some .AlreadyExists, w.record ⟨.create, .OperatorGroup, og.key⟩)
    | none =>
      (none, { cluster := { w.cluster with operatorGroups := w.cluster.operatorGroups ++ [og] },
               calls := w.calls ++ [⟨.create, .OperatorGroup, og.key⟩] })

/-- `Client.List` of the OperatorGroups of one namespace. -/
def listOperatorGroups (env : Env) (w : World) (ns : String) :
    Except ApiError (List OperatorGroup) × World :=
  match env.failure w ⟨.list, .OperatorGroup, ⟨ns, ""⟩⟩ with
  | some e => (.error e, w.record ⟨.list, .OperatorGroup, ⟨ns, ""⟩⟩)
  | none => (.ok (w.cluster.operatorGroups.filter (fun g => g.Namespace = ns)),
             w.record ⟨.list, .OperatorGroup, ⟨ns, ""⟩⟩)

/-- `Client.List` of every OperandRequest of the cluster. -/
def listOperandRequests (env : Env) (w : World) :
    Except ApiError (List OperandRequest) × World :=
  match env.failure w ⟨.list, .OperandRequest, ⟨"", ""⟩⟩ with
  | some e => (.error e, w.record ⟨.list, .OperandRequest, ⟨"", ""⟩⟩)
  | none => (.ok w.cluster.requests, w.record ⟨.list, .OperandRequest, ⟨"", ""⟩⟩)

/-- Set one key of a Go map. -/
def Labels.set (m : Labels) (k v : String) : Labels :=
  (k, v) :: m.filter (fun p => p.1 ≠ k)

/-- `Client.Patch` of a Request with a merge patch setting one annotation: the stored
Request gets the annotation, and the call returns the object the server answers with, the
stored Request as patched; the outcome is otherwise the injected failure, or `NotFound`
when the Request is not stored. -/
def clientPatch (env : Env) (w : World) (key : NamespacedName) (k v : String) :
    Except ApiError OperandRequest × World :=
  match env.failure w ⟨.patch, .OperandRequest, key⟩ with
  | some e => (.error e, w.record ⟨.patch, .OperandRequest, key⟩)
  | none =>
    match w.cluster.requests.find? (fun r => r.key = key) with
    | none => (.error .NotFound, w.record ⟨.patch, .OperandRequest, key⟩)
    | some stored =>
      (.ok { stored with Annotations := stored.Annotations.set k v },
       { cluster := { w.cluster with
           requests := w.cluster.requests.map
             (fun r => if r.key = key then { r with Annotations := r.Annotations.set k v }
                       else r) },
         calls := w.calls ++ [⟨.patch, .OperandRequest, key⟩] })

/-! ## `controllers/operator/manager.go` -/

/-- The defaulting applied to one operator definition by the loop of `GetOperandRegistry`
(and of `ListOperandRegistry`). -/
def defaultOperator (o : Operator) : Operator :=
  let o1 := if o.Scope = "" then { o with Scope := ScopePrivate } else o
  let o2 := if o.InstallMode = "" then { o1 with InstallMode := InstallModeNamespace } else o1
  if o.InstallPlanApproval = "" then { o2 with InstallPlanApproval := ApprovalAutomatic }
  else o2

/-- `GetOperandRegistry`: fetch the Registry under `key` and default every definition. -/
def GetOperandRegistry (env : Env) (w : World) (key : NamespacedName) :
    Except ApiError OperandRegistry × World :=
  match clientGet env w .OperandRegistry w.cluster.registries OperandRegistry.key key with
  | (.error e, w1) => (.error e, w1)
  | (.ok reg, w1) => (.ok { reg with Operators := reg.Operators.map defaultOperator }, w1)

/-- `GetOperandConfig`: fetch the Config under `key`. -/
def GetOperandConfig (env : Env) (w : World) (key : NamespacedName) :
    Except ApiError OperandConfig × World :=
  clientGet env w .OperandConfig w.cluster.configs OperandConfig.key key

/-- The inner loop of `ListOperandRequestsByRegistry`: `item` is appended once for each of
its entries that names the Registry `key`, an empty namespace standing for the item's own. -/
def appendMatches (item : OperandRequest) (key : NamespacedName) :
    List Request → List OperandRequest
  | [] => []
  | r :: rs =>
    let regNs := if r.RegistryNamespace = "" then item.Namespace else r.RegistryNamespace
    if r.Registry = key.Name ∧ regNs = key.Namespace then item :: appendMatches item key rs
    else appendMatches item key rs

/-- `ListOperandRequestsByRegistry`: the Requests using the Registry `key`. -/
def ListOperandRequestsByRegistry (env : Env) (w : World) (key : NamespacedName) :
    Except ApiError (List OperandRequest) × World :=
  match listOperandRequests env w with
  | (.error e, w1) => (.error e, w1)
  | (.ok items, w1) => (.ok (items.flatMap (fun item => appendMatches item key item.Requests)), w1)

/-- The zero value `&olmv1alpha1.Subscription{}`. -/
def emptySubscription : Subscription :=
  { Name := "", Namespace := "", Labels := [], Spec := ⟨"", "", "", "", ""⟩,
    Status := ⟨"", none, none⟩ }

/-- `GetSubscription`: the Go pair `(sub, err)`. Lookup by name; on `NotFound` lookup by
package name, whose error is returned together with the (unfilled) object. -/
def GetSubscription (env : Env) (w : World) (name ns packageName : String) :
    (Option Subscription × Option GoError) × World :=
  match clientGet env w .Subscription w.cluster.subscriptions Subscription.key ⟨ns, name⟩ with
  | (.ok sub, w1) => ((some sub, none), w1)
  | (.error e, w1) =>
    if !IsNotFound (some (.single (.api e))) then ((none, some (.single (.api e))), w1)
    else
      match clientGet env w1 .Subscription w1.cluster.subscriptions Subscription.key
          ⟨ns, packageName⟩ with
      | (.ok sub, w2) => ((some sub, none), w2)
      | (.error e2, w2) => ((some emptySubscription, some (.single (.api e2))), w2)

/-- The tail of `GetClusterServiceVersion`: fetch the CSV `csvName` of `csvNamespace`. -/
def fetchClusterServiceVersion (env : Env) (w : World) (csvNamespace csvName : String) :
    Result (Option ClusterServiceVersion) × World :=
  match clientGet env w .ClusterServiceVersion w.cluster.csvs ClusterServiceVersion.key
      ⟨csvNamespace, csvName⟩ with
  | (.error e, w1) =>
    if IsNotFound (some (.single (.api e))) then (.ok none, w1)
    else (.error (.single (.wrap e
            ("failed to get ClusterServiceVersion " ++ csvNamespace ++ "/" ++ csvName))), w1)
  | (.ok csv, w1) => (.ok (some csv), w1)

/-- `GetClusterServiceVersion`: the CSV of a Subscription; `ok none` is the Go `(nil, nil)`. -/
def GetClusterServiceVersion (env : Env) (w : World) (sub : Subscription) :
    Result (Option ClusterServiceVersion) × World :=
  if sub.Status.CurrentCSV = "" then (.ok none, w)
  else
    match sub.Status.Install with
    | none => (.ok none, w)
    | some _ =>
      match sub.Status.InstallPlanRef with
      | none => (.nilDereference, w)
      | some ipName =>
        if ipName = "" then (.ok none, w)
        else
          match clientGet env w .InstallPlan w.cluster.installPlans InstallPlan.key
              ⟨sub.Namespace, ipName⟩ with
          | (.error e, w1) =>
            if !IsNotFound (some (.single (.api e))) then
              (.error (.single (.wrap e "failed to get Installplan")), w1)
            else fetchClusterServiceVersion env w1 sub.Namespace sub.Status.CurrentCSV
          | (.ok ip, w1) =>
            if ip.Phase = InstallPlanPhaseFailed then
              fetchClusterServiceVersion env w1 sub.Namespace sub.Status.CurrentCSV
            else if ip.Phase ≠ InstallPlanPhaseComplete then (.ok none, w1)
            else fetchClusterServiceVersion env w1 sub.Namespace sub.Status.CurrentCSV

/-- `GetOperatorNamespace`: the namespace of the Subscription of an operator. -/
def GetOperatorNamespace (installMode ns : String) : String :=
  if installMode = InstallModeCluster then ClusterOperatorNamespace else ns

/-! ## Methods of `api/v1alpha1` used by the reconciler -/

/-- Modelled from the spec: `OperandRequest.GetRegistryKey` of `api/v1alpha1`, the Registry
an entry names "by name + namespace, namespace defaulted to the Request's own namespace". -/
def OperandRequest.GetRegistryKey (r : OperandRequest) (req : Request) : NamespacedName :=
  ⟨if req.RegistryNamespace = "" then r.Namespace else req.RegistryNamespace, req.Registry⟩

/-- Modelled from the spec: `OperandRegistry.GetOperator` of `api/v1alpha1`, the definition
"keyed by name" in the ordered collection of the Registry, nil when there is none. -/
def OperandRegistry.GetOperator (r : OperandRegistry) (name : String) : Option Operator :=
  r.Operators.find? (fun o => o.Name = name)

/-- Modelled from the spec: the condition recording of `api/v1alpha1`; a condition of the
same type about the same resource is replaced, a new one is appended. -/
def OperandRequest.setCondition (r : OperandRequest) (c : Condition) : OperandRequest :=
  let same := fun (d : Condition) =>
    decide (d.CondType = c.CondType ∧ d.Name = c.Name ∧ d.Resource = c.Resource)
  { r with Status := { r.Status with
      Conditions :=
        if r.Status.Conditions.any same then
          r.Status.Conditions.map (fun d => if same d then c else d)
        else r.Status.Conditions ++ [c] } }

/-- Modelled from the spec: `SetNotFoundOperatorFromRegistryCondition` of `api/v1alpha1`. -/
def OperandRequest.SetNotFoundOperatorFromRegistryCondition (r : OperandRequest)
    (name : String) (rt : ResourceType) (cs : Bool) : OperandRequest :=
  r.setCondition ⟨.ConditionNotFound, name, rt, cs⟩

/-- Modelled from the spec: `SetOutofScopeCondition` of `api/v1alpha1`, the "out of scope"
condition. -/
def OperandRequest.SetOutofScopeCondition (r : OperandRequest)
    (name : String) (rt : ResourceType) (cs : Bool) : OperandRequest :=
  r.setCondition ⟨.ConditionOutofScope, name, rt, cs⟩

/-- Modelled from the spec: `SetCreatingCondition` of `api/v1alpha1`. -/
def OperandRequest.SetCreatingCondition (r : OperandRequest)
    (name : String) (rt : ResourceType) (cs : Bool) : OperandRequest :=
  r.setCondition ⟨.ConditionCreating, name, rt, cs⟩

/-- Modelled from the spec: `SetUpdatingCondition` of `api/v1alpha1`. -/
def OperandRequest.SetUpdatingCondition (r : OperandRequest)
    (name : String) (rt : ResourceType) (cs : Bool) : OperandRequest :=
  r.setCondition ⟨.ConditionUpdating, name, rt, cs⟩

/-- Modelled from the spec: `SetDeletingCondition` of `api/v1alpha1`. -/
def OperandRequest.SetDeletingCondition (r : OperandRequest)
    (name : String) (rt : ResourceType) (cs : Bool) : OperandRequest :=
  r.setCondition ⟨.ConditionDeleting, name, rt, cs⟩

/-- Modelled from the spec: `SetMemberStatus` of `api/v1alpha1`; the Status "holds one
MemberStatus per operand name", so the phase of the named member is set, and a member is
appended when the name has none. -/
def OperandRequest.SetMemberStatus (r : OperandRequest) (name phase : String) :
    OperandRequest :=
  { r with Status := { r.Status with
      Members :=
        if r.Status.Members.any (fun m => decide (m.Name = name)) then
          r.Status.Members.map (fun m => if m.Name = name then { m with Phase := phase } else m)
        else r.Status.Members ++ [⟨name, phase⟩] } }

/-- Modelled from the spec: `FreshMemberStatus` of `api/v1alpha1`; the member list is
rebuilt at the end of the pass, keeping the members some entry of the Request names. -/
def OperandRequest.FreshMemberStatus (r : OperandRequest) : OperandRequest :=
  { r with Status := { r.Status with
      Members := r.Status.Members.filter (fun m =>
        r.Requests.any (fun req => req.Operands.any (fun o => decide (o.Name = m.Name)))) } }

/-- Modelled from the spec: `UpdateClusterPhase` of `api/v1alpha1`; the aggregate phase is
recomputed from the member list by the aggregation `Env.clusterPhase`. -/
def OperandRequest.UpdateClusterPhase (env : Env) (r : OperandRequest) : OperandRequest :=
  { r with Status := { r.Status with Phase := env.clusterPhase r.Status.Members } }

/-- The test `DeletionTimestamp.IsZero()` on the metadata pointer. -/
def OperandRequest.deletionTimestampIsZero (r : OperandRequest) : Bool :=
  match r.DeletionTimestamp with
  | none => true
  | some t => t == 0

/-- Modelled from the spec: `deleteAllCustomResource` of `reconcile_operand.go`, the
"external CR-sweep collaborator": one recorded call that may fail and touches none of the
stored kinds. -/
def deleteAllCustomResource (env : Env) (w : World) (csv : ClusterServiceVersion) :
    Option GoError × World :=
  match env.failure w ⟨.sweep, .CustomResource, csv.key⟩ with
  | some e => (some (.single (.api e)), w.record ⟨.sweep, .CustomResource, csv.key⟩)
  | none => (none, w.record ⟨.sweep, .CustomResource, csv.key⟩)

/-! ## The string sets of `golang-set`, iterated in insertion order -/

/-- `Set.Add`. -/
def gsetAdd (s : List String) (x : String) : List String :=
  if x ∈ s then s else s ++ [x]

/-- `Set.Difference`. -/
def gsetDifference (s t : List String) : List String :=
  s.filter (fun x => decide (x ∉ t))

/-- `MultiErr.Add`. -/
def multiErrAdd (errs : List OpError) : GoError → List OpError
  | .single e => errs ++ [e]
  | .multi es => errs ++ es

/-! ## `controllers/operandrequest/reconcile_operator.go` -/

/-- `compareSub`: does the live spec differ from the definition. -/
def compareSub (spec : SubscriptionSpec) (template : Operator) : Bool :=
  spec.CatalogSource != template.SourceName || spec.Channel != template.Channel ||
    spec.CatalogSourceNamespace != template.SourceNamespace ||
    spec.Package != template.PackageName ||
    spec.InstallPlanApproval != template.InstallPlanApproval

/-- `generateOperatorGroup`. -/
def generateOperatorGroup (ns : String) (targetNamespaces : Option (List String)) :
    OperatorGroup :=
  let labels : Labels := [(OpreqLabel, "true")]
  let targets := match targetNamespaces with
    | none => [ns]
    | some t => t
  { Name := "operand-deployment-lifecycle-manager-operatorgroup", Namespace := ns,
    Labels := labels, TargetNamespaces := targets }

/-- `generateClusterObjects`: the Namespace, OperatorGroup and Subscription of a definition. -/
def generateClusterObjects (o : Operator) : clusterObjects :=
  let labels : Labels := [(OpreqLabel, "true")]
  let ns := GetOperatorNamespace o.InstallMode o.Namespace
  { namespace_ := { Name := o.Namespace, Labels := labels },
    operatorGroup := generateOperatorGroup o.Namespace o.TargetNamespaces,
    subscription :=
      { Name := o.Name, Namespace := ns, Labels := labels,
        Spec := { Channel := o.Channel, Package := o.PackageName,
                  CatalogSource := o.SourceName,
                  CatalogSourceNamespace := o.SourceNamespace,
                  InstallPlanApproval := o.InstallPlanApproval },
        Status := ⟨"", none, none⟩ } }

/-- `checkUninstallLabel`: a failed lookup counts as the label being set. -/
def checkUninstallLabel (env : Env) (w : World) (name ns : String) : Bool × World :=
  match clientGet env w .Subscription w.cluster.subscriptions Subscription.key ⟨ns, name⟩ with
  | (.error _, w1) => (true, w1)
  | (.ok sub, w1) => (sub.Labels.value NotUninstallLabel == "true", w1)

/-- The last step of `createSubscription`: create the Subscription itself. -/
def createSubscriptionStep (env : Env) (cr : OperandRequest) (sub : Subscription)
    (w : World) : Option GoError × OperandRequest × World :=
  let cr1 := cr.SetCreatingCondition sub.Name .ResourceTypeSub true
  match createSubscriptionObj env w sub with
  | (some e, w1) =>
    if !IsAlreadyExists e then
      (some (.single (.api e)), cr1.SetCreatingCondition sub.Name .ResourceTypeSub false, w1)
    else (none, cr1, w1)
  | (none, w1) => (none, cr1, w1)

/-- `createSubscription`: create the Namespace, the OperatorGroup and the Subscription. -/
def createSubscription (env : Env) (cr : OperandRequest) (opt : Operator) (w : World) :
    Option GoError × OperandRequest × World :=
  let ns := GetOperatorNamespace opt.InstallMode opt.Namespace
  let co := generateClusterObjects opt
  let w1 :=
    if co.namespace_.Name ≠ env.operatorNamespace ∧
        co.namespace_.Name ≠ ClusterOperatorNamespace then
      (createNamespaceObj env w co.namespace_).2
    else w
  if ns ≠ ClusterOperatorNamespace then
    match listOperatorGroups env w1 co.operatorGroup.Namespace with
    | (.error e, w2) => (some (.single (.api e)), cr, w2)
    | (.ok existOG, w2) =>
      if existOG.length = 0 then
        match createOperatorGroupObj env w2 co.operatorGroup with
        | (some e, w3) =>
          if !IsAlreadyExists e then (some (.single (.api e)), cr, w3)
          else createSubscriptionStep env cr co.subscription w3
        | (none, w3) => createSubscriptionStep env cr co.subscription w3
      else createSubscriptionStep env cr co.subscription w2
  else createSubscriptionStep env cr co.subscription w1

/-- `updateSubscription`. -/
def updateSubscription (env : Env) (cr : OperandRequest) (sub : Subscription) (w : World) :
    Option GoError × OperandRequest × World :=
  let cr1 := cr.SetUpdatingCondition sub.Name .ResourceTypeSub true
  match updateSubscriptionObj env w sub with
  | (some e, w1) =>
    (some (.single (.api e)), cr1.SetUpdatingCondition sub.Name .ResourceTypeSub false, w1)
  | (none, w1) => (none, cr1, w1)

/-- The end of `deleteSubscription`: delete the Subscription, `NotFound` being a success. -/
def deleteSubscriptionStep (env : Env) (op : Operator) (sub : Subscription)
    (requestInstance : OperandRequest) (w : World) : Result Unit × OperandRequest × World :=
  let req1 := requestInstance.SetDeletingCondition op.Name .ResourceTypeSub true
  match deleteSubscriptionObj env w sub with
  | (some e, w1) =>
    if IsNotFound (some (.single (.api e))) then (.ok (), req1, w1)
    else
      (.error (.single (.wrap e "failed to delete subscription")),
        req1.SetDeletingCondition op.Name .ResourceTypeSub false, w1)
  | (none, w1) => (.ok (), req1, w1)

/-- `deleteSubscription`: uninstall one operand of a Registry. -/
def deleteSubscription (env : Env) (operandName : String) (requestInstance : OperandRequest)
    (registryInstance : OperandRegistry) (w : World) :
    Result Unit × OperandRequest × World :=
  match registryInstance.GetOperator operandName with
  | none => (.ok (), requestInstance, w)
  | some op =>
    let ns := GetOperatorNamespace op.InstallMode op.Namespace
    match GetSubscription env w operandName ns op.PackageName with
    | ((osub, err), w1) =>
      if IsNotFound err then (.ok (), requestInstance, w1)
      else
        match osub with
        | none => (.nilDereference, requestInstance, w1)
        | some sub =>
          if !sub.Labels.has OpreqLabel then (.ok (), requestInstance, w1)
          else
            match GetClusterServiceVersion env w1 sub with
            | (.nilDereference, w2) => (.nilDereference, requestInstance, w2)
            | (.error e, w2) => (.error e, requestInstance, w2)
            | (.ok none, w2) => deleteSubscriptionStep env op sub requestInstance w2
            | (.ok (some csv), w2) =>
              match deleteAllCustomResource env w2 csv with
              | (some e, w3) => (.error e, requestInstance, w3)
              | (none, w3) =>
                match checkUninstallLabel env w3 op.Name ns with
                | (true, w4) => (.ok (), requestInstance, w4)
                | (false, w4) =>
                  let req1 :=
                    requestInstance.SetDeletingCondition csv.Name .ResourceTypeCsv true
                  match deleteCsvObj env w4 csv with
                  | (some e, w5) =>
                    (.error (.single
                        (.wrap e "failed to delete the ClusterServiceVersion")),
                      req1.SetDeletingCondition csv.Name .ResourceTypeCsv false, w5)
                  | (none, w5) => deleteSubscriptionStep env op sub req1 w5

/-- The innermost loop of `getCurrentOperands`: add the operand names of one entry. -/
def addOperands (set : List String) : List Operand → List String
  | [] => set
  | operand :: rest => addOperands (gsetAdd set operand.Name) rest

/-- The loop of `getCurrentOperands` over the entries of one listed Request: an entry
counts when its Registry key renders to the same string as `registryKey`. -/
def addEntries (item : OperandRequest) (registryKey : NamespacedName) (set : List String) :
    List Request → List String
  | [] => set
  | existingReq :: rest =>
    if registryKey.String ≠ (item.GetRegistryKey existingReq).String then
      addEntries item registryKey set rest
    else addEntries item registryKey (addOperands set existingReq.Operands) rest

/-- The loop of `getCurrentOperands` over the listed Requests: terminating ones are
skipped. -/
def addItems (registryKey : NamespacedName) (set : List String) :
    List OperandRequest → List String
  | [] => set
  | item :: rest =>
    if !item.deletionTimestampIsZero then addItems registryKey set rest
    else addItems registryKey (addEntries item registryKey set item.Requests) rest

/-- The outer loop of `getCurrentOperands` over the entries of the reconciling Request. -/
def getCurrentOperandsLoop (env : Env) (requestInstance : OperandRequest)
    (set : List String) (w : World) : List Request → Result (List String) × World
  | [] => (.ok set, w)
  | req :: rest =>
    match ListOperandRequestsByRegistry env w (requestInstance.GetRegistryKey req) with
    | (.error e, w1) => (.error (.single (.api e)), w1)
    | (.ok requestList, w1) =>
      getCurrentOperandsLoop env requestInstance
        (addItems (requestInstance.GetRegistryKey req) set requestList) w1 rest

/-- `getCurrentOperands`: the operands requested through the Registries of the Request. -/
def getCurrentOperands (env : Env) (requestInstance : OperandRequest) (w : World) :
    Result (List String) × World :=
  getCurrentOperandsLoop env requestInstance [] w requestInstance.Requests

/-- The first loop of `getNeedDeletedOperands`: the recorded member names. -/
def memberNames (set : List String) : List MemberStatus → List String
  | [] => set
  | m :: rest => memberNames (gsetAdd set m.Name) rest

/-- `getNeedDeletedOperands`: the recorded members that are no longer requested. -/
def getNeedDeletedOperands (env : Env) (requestInstance : OperandRequest) (w : World) :
    Result (List String) × World :=
  let deployedOperands := memberNames [] requestInstance.Status.Members
  match getCurrentOperands env requestInstance w with
  | (.ok currentOperands, w1) => (.ok (gsetDifference deployedOperands currentOperands), w1)
  | (.error e, w1) => (.error e, w1)
  | (.nilDereference, w1) => (.nilDereference, w1)

/-- The loop of `absentOperatorsAndOperands` over the operands to delete, for one Registry:
failures are collected. -/
def deleteOperands (env : Env) (registryInstance : OperandRegistry) (merr : List OpError)
    (requestInstance : OperandRequest) (w : World) :
    List String → Result (List OpError) × OperandRequest × World
  | [] => (.ok merr, requestInstance, w)
  | o :: rest =>
    match deleteSubscription env o requestInstance registryInstance w with
    | (.ok _, req1, w1) => deleteOperands env registryInstance merr req1 w1 rest
    | (.error e, req1, w1) =>
      deleteOperands env registryInstance (multiErrAdd merr e) req1 w1 rest
    | (.nilDereference, req1, w1) => (.nilDereference, req1, w1)

/-- The loop of `absentOperatorsAndOperands` over the entries of the Request. -/
def absentLoop (env : Env) (needDeletedOperands : List String)
    (requestInstance : OperandRequest) (w : World) :
    List Request → Result Unit × OperandRequest × World
  | [] => (.ok (), requestInstance, w)
  | req :: rest =>
    match GetOperandRegistry env w (requestInstance.GetRegistryKey req) with
    | (.error e, w1) => (.error (.single (.api e)), requestInstance, w1)
    | (.ok registryInstance, w1) =>
      match GetOperandConfig env w1 (requestInstance.GetRegistryKey req) with
      | (.error e, w2) => (.error (.single (.api e)), requestInstance, w2)
      | (.ok _, w2) =>
        match deleteOperands env registryInstance [] requestInstance w2
            needDeletedOperands with
        | (.nilDereference, req1, w3) => (.nilDereference, req1, w3)
        | (.error e, req1, w3) => (.error e, req1, w3)
        | (.ok merr, req1, w3) =>
          if merr.length ≠ 0 then (.error (.multi merr), req1, w3)
          else absentLoop env needDeletedOperands req1 w3 rest

/-- `absentOperatorsAndOperands`: delete, for every entry of the Request, the operands
that are no longer requested. -/
def absentOperatorsAndOperands (env : Env) (requestInstance : OperandRequest) (w : World) :
    Result Unit × OperandRequest × World :=
  match getNeedDeletedOperands env requestInstance w with
  | (.error e, w1) => (.error e, requestInstance, w1)
  | (.nilDereference, w1) => (.nilDereference, requestInstance, w1)
  | (.ok needDeletedOperands, w1) =>
    absentLoop env needDeletedOperands requestInstance w1 requestInstance.Requests

/-- The assignments `reconcileOperator` makes to the live spec when `compareSub` reports a
mismatch. -/
def overwriteSpec (spec : SubscriptionSpec) (opt : Operator) : SubscriptionSpec :=
  let spec1 := { spec with CatalogSource := opt.SourceName, Channel := opt.Channel,
                           CatalogSourceNamespace := opt.SourceNamespace,
                           Package := opt.PackageName }
  if opt.InstallPlanApproval ≠ "" ∧ spec1.InstallPlanApproval ≠ opt.InstallPlanApproval then
    { spec1 with InstallPlanApproval := opt.InstallPlanApproval }
  else spec1

/-- The merge patch of `reconcileOperator` setting the marker annotation,
`_ = r.Patch(ctx, requestInstance, ...)`: its error is dropped. `Client.Patch` decodes the
object the server answers with into `requestInstance`, so on success the instance is from
then on the stored Request as patched (its entries, its status and its annotations); on
failure the instance is left as it was. -/
def patchFindOperandRegistry (env : Env) (requestInstance : OperandRequest) (w : World)
    (v : String) : OperandRequest × World :=
  match clientPatch env w requestInstance.key FindOperandRegistry v with
  | (.error _, w1) => (requestInstance, w1)
  | (.ok patched, w1) => (patched, w1)

/-- The body of the operand loop of `reconcileOperator`; `ok` stands for going on with the
next operand, an error for `return err`. -/
def reconcileOperatorOperand (env : Env) (registryInstance : OperandRegistry)
    (operand : Operand) (requestInstance : OperandRequest) (w : World) :
    Result Unit × OperandRequest × World :=
  match registryInstance.GetOperator operand.Name with
  | none =>
    (.ok (), requestInstance.SetNotFoundOperatorFromRegistryCondition operand.Name
      .ResourceTypeSub true, w)
  | some opt =>
    if opt.Scope = ScopePrivate ∧ requestInstance.Namespace ≠ registryInstance.Namespace then
      (.ok (), requestInstance.SetOutofScopeCondition operand.Name .ResourceTypeSub true, w)
    else
      match GetSubscription env w opt.Name
          (GetOperatorNamespace opt.InstallMode opt.Namespace) opt.PackageName with
      | ((_, some err), w1) =>
        if IsNotFound (some err) then
          match createSubscription env requestInstance opt w1 with
          | (some e, req1, w2) => (.error e, req1.SetMemberStatus opt.Name OperatorFailed, w2)
          | (none, req1, w2) => (.ok (), req1.SetMemberStatus opt.Name OperatorInstalling, w2)
        else (.error err, requestInstance, w1)
      | ((none, none), w1) => (.nilDereference, requestInstance, w1)
      | ((some sub, none), w1) =>
        if sub.Labels.has OpreqLabel then
          if compareSub sub.Spec opt then
            match updateSubscription env requestInstance
                { sub with Spec := overwriteSpec sub.Spec opt } w1 with
            | (some e, req1, w2) =>
              (.error e, req1.SetMemberStatus opt.Name OperatorFailed, w2)
            | (none, req1, w2) =>
              (.ok (), req1.SetMemberStatus opt.Name OperatorUpdating, w2)
          else (.ok (), requestInstance, w1)
        else (.ok (), requestInstance, w1)

/-- The operand loop of `reconcileOperator` for one entry. -/
def reconcileOperatorOperands (env : Env) (registryInstance : OperandRegistry)
    (requestInstance : OperandRequest) (w : World) :
    List Operand → Result Unit × OperandRequest × World
  | [] => (.ok (), requestInstance, w)
  | operand :: rest =>
    match reconcileOperatorOperand env registryInstance operand requestInstance w with
    | (.ok _, req1, w1) => reconcileOperatorOperands env registryInstance req1 w1 rest
    | (.error e, req1, w1) => (.error e, req1, w1)
    | (.nilDereference, req1, w1) => (.nilDereference, req1, w1)

/-- The entry loop of `reconcileOperator`. -/
def reconcileOperatorRequests (env : Env) (requestInstance : OperandRequest) (w : World) :
    List Request → Result Unit × OperandRequest × World
  | [] => (.ok (), requestInstance, w)
  | req :: rest =>
    match GetOperandRegistry env w (requestInstance.GetRegistryKey req) with
    | (.error e, w1) =>
      if IsNotFound (some (.single (.api e))) then
        match patchFindOperandRegistry env
            (requestInstance.SetNotFoundOperatorFromRegistryCondition
              (requestInstance.GetRegistryKey req).String .ResourceTypeOperandRegistry true)
            w1 "true" with
        | (req1, w2) => (.error (.single (.api e)), req1, w2)
      else (.error (.single (.api e)), requestInstance, w1)
    | (.ok registryInstance, w1) =>
      match reconcileOperatorOperands env registryInstance requestInstance w1
          req.Operands with
      | (.ok _, req1, w2) => reconcileOperatorRequests env req1 w2 rest
      | (.error e, req1, w2) => (.error e, req1, w2)
      | (.nilDereference, req1, w2) => (.nilDereference, req1, w2)

/-- The body of `reconcileOperator` without its deferred status update. -/
def reconcileOperatorBody (env : Env) (requestInstance : OperandRequest) (w : World) :
    Result Unit × OperandRequest × World :=
  match reconcileOperatorRequests env requestInstance w requestInstance.Requests with
  | (.error e, req1, w1) => (.error e, req1, w1)
  | (.nilDereference, req1, w1) => (.nilDereference, req1, w1)
  | (.ok _, req1, w1) =>
    match patchFindOperandRegistry env req1 w1 "false" with
    | (req2, w2) => absentOperatorsAndOperands env req2 w2

/-- `reconcileOperator`: install or update the requested operands, then delete the ones no
longer requested; the deferred call refreshes the member list and the cluster phase. -/
def reconcileOperator (env : Env) (requestInstance : OperandRequest) (w : World) :
    Result Unit × OperandRequest × World :=
  match reconcileOperatorBody env requestInstance w with
  | (r, req1, w1) => (r, (req1.FreshMemberStatus).UpdateClusterPhase env, w1)

/-! ## Specification-side notions -/

/-- The relation between a stored definition and the one `GetOperandRegistry` returns, in
the words of the data model: the three defaultable fields are filled when empty, every
other field is unchanged. -/
def Defaulted (o o' : Operator) : Prop :=
  o'.Scope = (if o.Scope = "" then ScopePrivate else o.Scope) ∧
  o'.InstallMode = (if o.InstallMode = "" then InstallModeNamespace else o.InstallMode) ∧
  o'.InstallPlanApproval
    = (if o.InstallPlanApproval = "" then ApprovalAutomatic else o.InstallPlanApproval) ∧
  o'.Name = o.Name ∧ o'.Namespace = o.Namespace ∧ o'.Channel = o.Channel ∧
  o'.PackageName = o.PackageName ∧ o'.SourceName = o.SourceName ∧
  o'.SourceNamespace = o.SourceNamespace ∧ o'.TargetNamespaces = o.TargetNamespaces

/-- The desired-operand set of a Registry, in the words of the garbage collector's design:
the union, over every live (non-terminating) Request of the cluster and each of its
entries targeting that Registry, of the requested operand names. -/
def desiredOperands (c : Cluster) (key : NamespacedName) : List String :=
  (c.requests.filter (fun item => item.deletionTimestampIsZero)).flatMap (fun item =>
    (item.Requests.filter (fun e => decide (item.GetRegistryKey e = key))).flatMap
      (fun e => e.Operands.map (fun o => o.Name)))

/-- The operands to delete for one Registry, in the words of the garbage collector's
design: previously installed (the recorded member names) minus desired, per Registry. -/
def specNeedDeleted (requestInstance : OperandRequest) (c : Cluster)
    (key : NamespacedName) : List String :=
  ((requestInstance.Status.Members.map (fun m => m.Name)).filter
    (fun x => decide (x ∉ desiredOperands c key))).dedup

/-- A name without the separator `/` of the `namespace/name` rendering, as every
Kubernetes namespace name is. -/
abbrev noSlash (s : String) : Prop := '/' ∉ s.data

/-- What the loops of `getCurrentOperands` collect for one Registry key: the operand names
of the entries whose key renders like `key`, in the live Requests that
`ListOperandRequestsByRegistry` lists for `key`. -/
def Collected (c : Cluster) (key : NamespacedName) (x : String) : Prop :=
  ∃ item ∈ c.requests, (∃ r ∈ item.Requests, item.GetRegistryKey r = key) ∧
    item.deletionTimestampIsZero = true ∧
    ∃ e ∈ item.Requests, key.String = (item.GetRegistryKey e).String ∧
      ∃ o ∈ e.Operands, o.Name = x

/-- A call that updates or deletes the Subscription stored under `k`. -/
def Call.writesSubscription (k : NamespacedName) (c : Call) : Prop :=
  c.kind = .Subscription ∧ c.key = k ∧ (c.verb = .update ∨ c.verb = .delete)

/-- The Subscription `S` is stored under `k` and no call issued so far updates or deletes
the Subscription under `k`. -/
def Untouched (k : NamespacedName) (S : Subscription) (w : World) : Prop :=
  w.cluster.subscriptionAt k = some S ∧ ∀ c ∈ w.calls, ¬ c.writesSubscription k

/-- The states of a Subscription in which `GetClusterServiceVersion` resolves no CSV and
raises no error before looking the CSV up: empty current-CSV name, no install reference,
empty install-plan name, or an install plan that is stored, fetched without failure, and in
a phase other than Complete and Failed. -/
def Unresolved (env : Env) (w : World) (sub : Subscription) : Prop :=
  sub.Status.CurrentCSV = "" ∨ sub.Status.Install = none ∨
  sub.Status.InstallPlanRef = some "" ∨
  ∃ ipName ip, sub.Status.InstallPlanRef = some ipName ∧
    env.failure w ⟨.get, .InstallPlan, ⟨sub.Namespace, ipName⟩⟩ = none ∧
    w.cluster.installPlans.find? (fun p => p.key = ⟨sub.Namespace, ipName⟩) = some ip ∧
    ip.Phase ≠ InstallPlanPhaseComplete ∧ ip.Phase ≠ InstallPlanPhaseFailed

/-- The out-of-scope condition recorded for an operand. -/
def outOfScope (name : String) : Condition :=
  ⟨.ConditionOutofScope, name, .ResourceTypeSub, true⟩

/-- The Request lives in `ns` and carries the out-of-scope condition of every name of
`names`. -/
def Recorded (names : List String) (ns : String) (r : OperandRequest) : Prop :=
  r.Namespace = ns ∧ ∀ n ∈ names, outOfScope n ∈ r.Status.Conditions

/-! ## Example objects -/

/-- A cluster without objects. -/
def emptyCluster : Cluster := ⟨[], [], [], [], [], [], [], []⟩

/-- A definition with every defaultable field set. -/
def etcdOperator : Operator :=
  ⟨"etcd", "etcd-ns", "stable", "etcd-pkg", "public", "namespace", "community", "olm", none,
    "Automatic"⟩

/-- The same definition as stored with the defaultable fields unset. -/
def unsetOperator : Operator :=
  ⟨"etcd", "etcd-ns", "stable", "etcd-pkg", "", "", "community", "olm", none, ""⟩

/-- A definition of private scope. -/
def privateOperator : Operator :=
  ⟨"etcd", "etcd-ns", "stable", "etcd-pkg", "private", "namespace", "community", "olm", none,
    "Automatic"⟩

/-- A live spec that agrees with `unsetOperator` on the four catalog fields. -/
def liveSpec : SubscriptionSpec := ⟨"community", "olm", "etcd-pkg", "stable", "Automatic"⟩

/-- A live spec on another channel and catalog. -/
def driftedSpec : SubscriptionSpec := ⟨"certified", "olm", "etcd-pkg", "beta", "Manual"⟩

/-- The key of `registryA`. -/
def keyA : NamespacedName := ⟨"ibm-common-services", "registry-a"⟩

/-- The key of `registryB`. -/
def keyB : NamespacedName := ⟨"ibm-common-services", "registry-b"⟩

/-- A Registry defining `etcd`. -/
def registryA : OperandRegistry := ⟨"registry-a", "ibm-common-services", [etcdOperator]⟩

/-- A second Registry, defining nothing. -/
def registryB : OperandRegistry := ⟨"registry-b", "ibm-common-services", []⟩

/-- A Registry as stored, with unset fields. -/
def registryUnset : OperandRegistry :=
  ⟨"registry-a", "ibm-common-services", [unsetOperator]⟩

/-- A Registry with a private definition. -/
def registryPrivate : OperandRegistry :=
  ⟨"registry-a", "ibm-common-services", [privateOperator]⟩

/-- An owned Subscription for `etcd` whose install has not produced a CSV. -/
def etcdSubscription : Subscription :=
  { Name := "etcd", Namespace := "etcd-ns", Labels := [(OpreqLabel, "true")],
    Spec := liveSpec, Status := ⟨"", none, none⟩ }

/-- The owned `etcd` Subscription with a drifted live spec. -/
def driftedSubscription : Subscription := { etcdSubscription with Spec := driftedSpec }

/-- An owned Subscription for `etcd` carrying the do-not-uninstall label, whose install has
not produced a CSV. -/
def keptSubscription : Subscription :=
  { Name := "etcd", Namespace := "etcd-ns",
    Labels := [(OpreqLabel, "true"), (NotUninstallLabel, "true")],
    Spec := liveSpec, Status := ⟨"", none, none⟩ }

/-- A Subscription for `etcd` without the ownership label, drifted from the definition. -/
def foreignSubscription : Subscription :=
  { Name := "etcd", Namespace := "etcd-ns", Labels := [],
    Spec := driftedSpec, Status := ⟨"etcd.v1", some (), some "install-1"⟩ }

/-- A Request referencing both Registries, requesting nothing, with `etcd` recorded as a
member. -/
def requestOne : OperandRequest :=
  { Name := "request-one", Namespace := "ibm-common-services", DeletionTimestamp := none,
    Annotations := [],
    Requests := [⟨"registry-a", "", []⟩, ⟨"registry-b", "", []⟩],
    Status := ⟨[], [⟨"etcd", "Running"⟩], ""⟩ }

/-- A second Request asking for `etcd` through `registryB`. -/
def requestTwo : OperandRequest :=
  { Name := "request-two", Namespace := "other-ns", DeletionTimestamp := none,
    Annotations := [],
    Requests := [⟨"registry-b", "ibm-common-services", [⟨"etcd"⟩]⟩],
    Status := ⟨[], [], ""⟩ }

/-- A Request from another namespace asking for `etcd` through `registryA`. -/
def requestElsewhere : OperandRequest :=
  { Name := "request-three", Namespace := "other-ns", DeletionTimestamp := none,
    Annotations := [],
    Requests := [⟨"registry-a", "ibm-common-services", [⟨"etcd"⟩]⟩],
    Status := ⟨[], [], ""⟩ }

/-- A Request referencing `registryA` only, requesting nothing, with `etcd` recorded as a
member. -/
def requestGone : OperandRequest :=
  { Name := "request-one", Namespace := "ibm-common-services", DeletionTimestamp := none,
    Annotations := [],
    Requests := [⟨"registry-a", "", []⟩],
    Status := ⟨[], [⟨"etcd", "Running"⟩], ""⟩ }

/-- A cluster with both Registries, their Configs, both Requests and the owned `etcd`
Subscription. -/
def clusterShared : Cluster :=
  { emptyCluster with
    registries := [registryA, registryB],
    configs := [⟨"registry-a", "ibm-common-services"⟩, ⟨"registry-b", "ibm-common-services"⟩],
    requests := [requestOne, requestTwo],
    subscriptions := [etcdSubscription] }

/-- The world of `clusterShared` before any call. -/
def worldShared : World := ⟨clusterShared, []⟩

/-- A world whose only object is the Registry with unset fields. -/
def worldUnset : World := ⟨{ emptyCluster with registries := [registryUnset] }, []⟩

/-- A world with `registryA`, its Config, and the Subscription `sub` for `etcd`. -/
def worldWith (sub : Subscription) : World :=
  ⟨{ emptyCluster with
      registries := [registryA],
      configs := [⟨"registry-a", "ibm-common-services"⟩],
      requests := [requestGone],
      subscriptions := [sub] }, []⟩

/-- An owned Subscription whose install plan `install-1` is referenced and whose CSV is
named. -/
def pendingSubscription : Subscription :=
  { Name := "etcd", Namespace := "etcd-ns", Labels := [(OpreqLabel, "true")],
    Spec := liveSpec, Status := ⟨"etcd.v1", some (), some "install-1"⟩ }

/-- A world with `registryA`, the owned Subscription `pendingSubscription`, its install
plan still in phase `Installing`, and the CSV it names. -/
def worldPending : World :=
  ⟨{ emptyCluster with
      registries := [registryA],
      configs := [⟨"registry-a", "ibm-common-services"⟩],
      requests := [requestGone],
      subscriptions := [pendingSubscription],
      installPlans := [⟨"install-1", "etcd-ns", "Installing"⟩],
      csvs := [⟨"etcd.v1", "etcd-ns"⟩] }, []⟩

/-! ## Further specification-side notions and example objects -/

/-- Attempting `deleteSubscription` for every operand of a list, whatever the outcome of
the others: the outcomes in order, and the Request and the world after the last attempt. -/
def attemptAll (env : Env) (registryInstance : OperandRegistry) :
    OperandRequest → World → List String → List (Result Unit) × OperandRequest × World
  | requestInstance, w, [] => ([], requestInstance, w)
  | requestInstance, w, o :: rest =>
    ((deleteSubscription env o requestInstance registryInstance w).1 ::
        (attemptAll env registryInstance
          (deleteSubscription env o requestInstance registryInstance w).2.1
          (deleteSubscription env o requestInstance registryInstance w).2.2 rest).1,
      (attemptAll env registryInstance
          (deleteSubscription env o requestInstance registryInstance w).2.1
          (deleteSubscription env o requestInstance registryInstance w).2.2 rest).2)

/-- The failures among a list of outcomes, collected in order as `MultiErr.Add` does. -/
def failuresOf : List (Result Unit) → List OpError
  | [] => []
  | .error e :: rest => multiErrAdd [] e ++ failuresOf rest
  | _ :: rest => failuresOf rest

/-- An environment in which exactly the call `c` fails, with the API error `e`. -/
def Env.failing (c : Call) (e : ApiError) : Env :=
  { fault := fun _ d => if d = c then some e else none,
    operatorNamespace := "ibm-common-services", clusterPhase := fun _ => "" }

/-- A second definition, of another package. -/
def jenkinsOperator : Operator :=
  ⟨"jenkins", "jenkins-ns", "stable", "jenkins-pkg", "public", "namespace", "community", "olm",
    none, "Automatic"⟩

/-- A Registry defining `etcd` and `jenkins`. -/
def registryBoth : OperandRegistry :=
  ⟨"registry-a", "ibm-common-services", [etcdOperator, jenkinsOperator]⟩

/-- A Registry defining `jenkins` only. -/
def registryJ : OperandRegistry := ⟨"registry-j", "ibm-common-services", [jenkinsOperator]⟩

/-- An owned Subscription for `jenkins`. -/
def jenkinsSubscription : Subscription :=
  { Name := "jenkins", Namespace := "jenkins-ns", Labels := [(OpreqLabel, "true")],
    Spec := ⟨"community", "olm", "jenkins-pkg", "stable", "Automatic"⟩,
    Status := ⟨"", none, none⟩ }

/-- A Request asking for `etcd` and then `jenkins` through one Registry. -/
def requestPair : OperandRequest :=
  { Name := "request-pair", Namespace := "ibm-common-services", DeletionTimestamp := none,
    Annotations := [],
    Requests := [⟨"registry-a", "", [⟨"etcd"⟩, ⟨"jenkins"⟩]⟩],
    Status := ⟨[], [], ""⟩ }

/-- A world with the Registry of both definitions and nothing installed. -/
def worldPair : World :=
  ⟨{ emptyCluster with
      registries := [registryBoth],
      configs := [⟨"registry-a", "ibm-common-services"⟩],
      requests := [requestPair] }, []⟩

/-- A Request referencing `registryA` and `registryJ`, requesting nothing, with `etcd` and
`jenkins` recorded as members. -/
def requestBoth : OperandRequest :=
  { Name := "request-both", Namespace := "ibm-common-services", DeletionTimestamp := none,
    Annotations := [],
    Requests := [⟨"registry-a", "", []⟩, ⟨"registry-j", "", []⟩],
    Status := ⟨[], [⟨"etcd", "Running"⟩, ⟨"jenkins", "Running"⟩], ""⟩ }

/-- A world with both Registries, their Configs, and the owned Subscriptions of `etcd` and
`jenkins`. -/
def worldBoth : World :=
  ⟨{ emptyCluster with
      registries := [registryA, registryJ],
      configs := [⟨"registry-a", "ibm-common-services"⟩,
                  ⟨"registry-j", "ibm-common-services"⟩],
      requests := [requestBoth],
      subscriptions := [etcdSubscription, jenkinsSubscription] }, []⟩

/-- A world in which the owned `etcd` Subscription is installed: its install plan is
complete and its CSV is stored. -/
def worldInstalled : World :=
  ⟨{ emptyCluster with
      registries := [registryA],
      configs := [⟨"registry-a", "ibm-common-services"⟩],
      requests := [requestGone],
      subscriptions := [pendingSubscription],
      installPlans := [⟨"install-1", "etcd-ns", "Complete"⟩],
      csvs := [⟨"etcd.v1", "etcd-ns"⟩] }, []⟩

/-- A Request without entries, with `etcd` recorded as a member. -/
def requestEmpty : OperandRequest :=
  { Name := "request-one", Namespace := "ibm-common-services", DeletionTimestamp := none,
    Annotations := [], Requests := [],
    Status := ⟨[], [⟨"etcd", "Running"⟩], ""⟩ }

/-- The world `worldInstalled` with `requestEmpty` as the stored Request: the store holds
the Request without entries, together with the installed `etcd` Subscription. -/
def worldEmpty : World :=
  ⟨{ worldInstalled.cluster with requests := [requestEmpty] }, []⟩

/-- The world `createSubscription`, started in `w`, is in after its Namespace step: the
Namespace is created unless it is the namespace of the operator itself or the cluster
operator namespace, and the outcome of that creation is not looked at. -/
def afterNamespaceStep (env : Env) (opt : Operator) (w : World) : World :=
  if (generateClusterObjects opt).namespace_.Name ≠ env.operatorNamespace ∧
      (generateClusterObjects opt).namespace_.Name ≠ ClusterOperatorNamespace then
    (createNamespaceObj env w (generateClusterObjects opt).namespace_).2
  else w

/-- The ways `createSubscription`, started in `w`, gets to creating the Subscription, in
the world `wS`: the operator is installed in the cluster operator namespace, where no
OperatorGroup is dealt with; or the listing of the OperatorGroups succeeds and finds one;
or it finds none and the creation of the OperatorGroup succeeds or answers
`AlreadyExists`. -/
def ReachesSubscriptionCreate (env : Env) (opt : Operator) (w wS : World) : Prop :=
  (GetOperatorNamespace opt.InstallMode opt.Namespace = ClusterOperatorNamespace ∧
    wS = afterNamespaceStep env opt w) ∨
  (GetOperatorNamespace opt.InstallMode opt.Namespace ≠ ClusterOperatorNamespace ∧
    ∃ (existOG : List OperatorGroup) (w2 : World),
      listOperatorGroups env (afterNamespaceStep env opt w)
        (generateClusterObjects opt).operatorGroup.Namespace = (.ok existOG, w2) ∧
      ((existOG ≠ [] ∧ wS = w2) ∨
       (existOG = [] ∧
          (createOperatorGroupObj env w2 (generateClusterObjects opt).operatorGroup
              = (none, wS) ∨
           createOperatorGroupObj env w2 (generateClusterObjects opt).operatorGroup
              = (some .AlreadyExists, wS)))))

/-- The pass of `reconcileOperator` over `requestStart` from `wStart` gets to the step of
`operand`, with the Request `requestInstance` and in the world `w`: the entries before
the operand's entry were reconciled without error, the Registry of the entry was fetched,
and so were the operands listed before it in the entry. -/
def ReachedAt (env : Env) (requestStart : OperandRequest) (wStart : World)
    (registryInstance : OperandRegistry) (operand : Operand)
    (requestInstance : OperandRequest) (w : World) : Prop :=
  ∃ (req0 : OperandRequest) (w0 w0' : World) (earlierEntries laterEntries : List Request)
    (entry : Request) (earlier later : List Operand),
    requestStart.Requests = earlierEntries ++ entry :: laterEntries ∧
    reconcileOperatorRequests env requestStart wStart earlierEntries = (.ok (), req0, w0) ∧
    GetOperandRegistry env w0 (req0.GetRegistryKey entry) = (.ok registryInstance, w0') ∧
    entry.Operands = earlier ++ operand :: later ∧
    reconcileOperatorOperands env registryInstance req0 w0' earlier
      = (.ok (), requestInstance, w)

/-! ## Lemmas on the object store -/

theorem clientGet_ok {α : Type} (env : Env) (w : World) (kind : Kind) (objs : List α)
    (keyOf : α → NamespacedName) (key : NamespacedName) (o : α)
    (hf : env.failure w ⟨.get, kind, key⟩ = none)
    (ho : objs.find? (fun x => keyOf x = key) = some o) :
    clientGet env w kind objs keyOf key = (.ok o, w.record ⟨.get, kind, key⟩) := by
  simp [clientGet, hf, ho]

theorem GetSubscription_byName (env : Env) (w : World) (name ns pkg : String)
    (sub : Subscription)
    (hf : env.failure w ⟨.get, .Subscription, ⟨ns, name⟩⟩ = none)
    (ho : w.cluster.subscriptionAt ⟨ns, name⟩ = some sub) :
    GetSubscription env w name ns pkg
      = ((some sub, none), w.record ⟨.get, .Subscription, ⟨ns, name⟩⟩) := by
  unfold Cluster.subscriptionAt at ho
  simp [GetSubscription, clientGet_ok env w _ _ _ _ sub hf ho]

/-! ## Lemmas on the sets of the garbage collector -/

theorem mem_desiredOperands (c : Cluster) (key : NamespacedName) (x : String) :
    x ∈ desiredOperands c key ↔
      ∃ item ∈ c.requests, item.deletionTimestampIsZero = true ∧
        ∃ e ∈ item.Requests, item.GetRegistryKey e = key ∧ ∃ o ∈ e.Operands, o.Name = x := by
  simp only [desiredOperands, List.mem_flatMap, List.mem_filter, List.mem_map,
    decide_eq_true_eq]
  constructor
  · rintro ⟨item, ⟨hi, hl⟩, e, ⟨he, hk⟩, o, ho, rfl⟩
    exact ⟨item, hi, hl, e, he, hk, o, ho, rfl⟩
  · rintro ⟨item, hi, hl, e, he, hk, o, ho, rfl⟩
    exact ⟨item, ⟨hi, hl⟩, e, ⟨he, hk⟩, o, ho, rfl⟩

theorem mem_gsetAdd (s : List String) (y x : String) :
    x ∈ gsetAdd s y ↔ x ∈ s ∨ x = y := by
  unfold gsetAdd
  split
  · constructor
    · exact Or.inl
    · rintro (h | rfl)
      · exact h
      · assumption
  · simp

theorem nodup_gsetAdd (s : List String) (y : String) (h : s.Nodup) : (gsetAdd s y).Nodup := by
  unfold gsetAdd
  split
  · exact h
  · rename_i hy
    exact List.Nodup.append h (List.nodup_singleton y) (by simpa using hy)

theorem mem_addOperands (ops : List Operand) (s : List String) (x : String) :
    x ∈ addOperands s ops ↔ x ∈ s ∨ ∃ o ∈ ops, o.Name = x := by
  induction ops generalizing s with
  | nil => simp [addOperands]
  | cons o rest ih =>
    simp only [addOperands, ih, mem_gsetAdd, List.mem_cons, exists_eq_or_imp]
    constructor
    · rintro ((h | h) | h)
      · exact Or.inl h
      · exact Or.inr (Or.inl h.symm)
      · exact Or.inr (Or.inr h)
    · rintro (h | h | h)
      · exact Or.inl (Or.inl h)
      · exact Or.inl (Or.inr h.symm)
      · exact Or.inr h

theorem mem_addEntries (item : OperandRequest) (key : NamespacedName) (es : List Request)
    (s : List String) (x : String) :
    x ∈ addEntries item key s es ↔
      x ∈ s ∨ ∃ e ∈ es, key.String = (item.GetRegistryKey e).String ∧
        ∃ o ∈ e.Operands, o.Name = x := by
  induction es generalizing s with
  | nil => simp [addEntries]
  | cons e rest ih =>
    simp only [addEntries, List.mem_cons, exists_eq_or_imp]
    split
    · rename_i hne
      rw [ih]
      simp [hne]
    · rename_i heq
      simp only [ne_eq, Decidable.not_not] at heq
      rw [ih, mem_addOperands]
      simp [heq, or_assoc]

theorem mem_addItems (key : NamespacedName) (items : List OperandRequest)
    (s : List String) (x : String) :
    x ∈ addItems key s items ↔
      x ∈ s ∨ ∃ item ∈ items, item.deletionTimestampIsZero = true ∧
        ∃ e ∈ item.Requests, key.String = (item.GetRegistryKey e).String ∧
          ∃ o ∈ e.Operands, o.Name = x := by
  induction items generalizing s with
  | nil => simp [addItems]
  | cons item rest ih =>
    simp only [addItems, List.mem_cons, exists_eq_or_imp]
    split
    · rename_i hdead
      rw [ih]
      simp only [Bool.not_eq_true'] at hdead
      simp [hdead]
    · rename_i hlive
      simp only [Bool.not_eq_true', Bool.not_eq_false] at hlive
      rw [ih, mem_addEntries]
      simp [hlive, or_assoc]

theorem mem_appendMatches (item : OperandRequest) (key : NamespacedName) (rs : List Request)
    (y : OperandRequest) :
    y ∈ appendMatches item key rs ↔ y = item ∧ ∃ r ∈ rs, item.GetRegistryKey r = key := by
  induction rs with
  | nil => simp [appendMatches]
  | cons r rest ih =>
    have hk : (r.Registry = key.Name ∧
        (if r.RegistryNamespace = "" then item.Namespace else r.RegistryNamespace)
          = key.Namespace) ↔ item.GetRegistryKey r = key := by
      cases key
      simp only [OperandRequest.GetRegistryKey, NamespacedName.mk.injEq]
      exact and_comm
    simp only [appendMatches, List.mem_cons, exists_eq_or_imp]
    by_cases h : (r.Registry = key.Name ∧
        (if r.RegistryNamespace = "" then item.Namespace else r.RegistryNamespace)
          = key.Namespace)
    · rw [if_pos h]
      simp only [List.mem_cons, ih]
      have := hk.mp h
      constructor
      · rintro (h1 | ⟨h1, h2⟩)
        · exact ⟨h1, Or.inl this⟩
        · exact ⟨h1, Or.inr h2⟩
      · rintro ⟨h1, _⟩
        exact Or.inl h1
    · rw [if_neg h, ih]
      have : ¬ item.GetRegistryKey r = key := fun h' => h (hk.mpr h')
      simp [this]

theorem append_slash_inj (a b c d : List Char) (ha : '/' ∉ a) (hc : '/' ∉ c)
    (h : a ++ '/' :: b = c ++ '/' :: d) : a = c ∧ b = d := by
  induction a generalizing c with
  | nil =>
    cases c with
    | nil => simpa using h
    | cons x xs =>
      simp only [List.nil_append, List.cons_append, List.cons.injEq] at h
      exact absurd (by simp [← h.1]) hc
  | cons x xs ih =>
    cases c with
    | nil =>
      simp only [List.nil_append, List.cons_append, List.cons.injEq] at h
      exact absurd (by simp [h.1]) ha
    | cons y ys =>
      simp only [List.cons_append, List.cons.injEq] at h
      have ha' : '/' ∉ xs := fun hm => ha (List.mem_cons_of_mem _ hm)
      have hc' : '/' ∉ ys := fun hm => hc (List.mem_cons_of_mem _ hm)
      obtain ⟨h1, h2⟩ := ih ys ha' hc' h.2
      exact ⟨by rw [h.1, h1], h2⟩

theorem NamespacedName.String_inj (a b : NamespacedName) (ha : noSlash a.Namespace)
    (hb : noSlash b.Namespace) (h : a.String = b.String) : a = b := by
  have h1 : a.Namespace.data ++ '/' :: a.Name.data = b.Namespace.data ++ '/' :: b.Name.data := by
    have := congrArg String.data h
    simpa [NamespacedName.String] using this
  obtain ⟨h2, h3⟩ := append_slash_inj _ _ _ _ ha hb h1
  cases a; cases b
  simp only [NamespacedName.mk.injEq]
  exact ⟨String.ext h2, String.ext h3⟩

theorem desired_collected (c : Cluster) (key : NamespacedName) (x : String)
    (h : x ∈ desiredOperands c key) : Collected c key x := by
  rw [mem_desiredOperands] at h
  obtain ⟨item, hi, hl, e, he, hk, ho⟩ := h
  exact ⟨item, hi, ⟨e, he, hk⟩, hl, e, he, by rw [hk], ho⟩

theorem collected_desired (c : Cluster) (key : NamespacedName) (x : String)
    (hkey : noSlash key.Namespace)
    (hstore : ∀ item ∈ c.requests, ∀ e ∈ item.Requests,
      noSlash (item.GetRegistryKey e).Namespace)
    (h : Collected c key x) : x ∈ desiredOperands c key := by
  rw [mem_desiredOperands]
  obtain ⟨item, hi, _, hl, e, he, hk, ho⟩ := h
  exact ⟨item, hi, hl, e, he,
    (NamespacedName.String_inj _ _ hkey (hstore item hi e he) hk).symm, ho⟩

theorem listOperandRequests_cluster (env : Env) (w : World) :
    (listOperandRequests env w).2.cluster = w.cluster := by
  unfold listOperandRequests
  split <;> rfl

theorem ListOperandRequestsByRegistry_ok (env : Env) (w w1 : World) (key : NamespacedName)
    (l : List OperandRequest)
    (h : ListOperandRequestsByRegistry env w key = (.ok l, w1)) :
    w1.cluster = w.cluster ∧
    l = w.cluster.requests.flatMap (fun item => appendMatches item key item.Requests) := by
  unfold ListOperandRequestsByRegistry listOperandRequests at h
  cases hf : env.failure w ⟨.list, .OperandRequest, ⟨"", ""⟩⟩ with
  | some e => simp [hf] at h
  | none =>
    simp only [hf, Prod.mk.injEq, Except.ok.injEq] at h
    obtain ⟨rfl, rfl⟩ := h
    exact ⟨rfl, rfl⟩

theorem mem_addItems_listed (c : Cluster) (key : NamespacedName) (s : List String)
    (x : String) :
    x ∈ addItems key s (c.requests.flatMap (fun item => appendMatches item key item.Requests))
      ↔ x ∈ s ∨ Collected c key x := by
  rw [mem_addItems]
  unfold Collected
  simp only [List.mem_flatMap, mem_appendMatches]
  constructor
  · rintro (h | ⟨item, ⟨i2, hi2, rfl, hr⟩, hl, he⟩)
    · exact Or.inl h
    · exact Or.inr ⟨item, hi2, hr, hl, he⟩
  · rintro (h | ⟨item, hi, hr, hl, he⟩)
    · exact Or.inl h
    · exact Or.inr ⟨item, ⟨item, hi, rfl, hr⟩, hl, he⟩

theorem getCurrentOperandsLoop_ok (env : Env) (requestInstance : OperandRequest)
    (entries : List Request) (set : List String) (w w1 : World) (s : List String)
    (h : getCurrentOperandsLoop env requestInstance set w entries = (.ok s, w1)) :
    w1.cluster = w.cluster ∧
    ∀ x, x ∈ s ↔ x ∈ set ∨
      ∃ e ∈ entries, Collected w.cluster (requestInstance.GetRegistryKey e) x := by
  induction entries generalizing set w with
  | nil =>
    simp only [getCurrentOperandsLoop, Prod.mk.injEq, Result.ok.injEq] at h
    obtain ⟨rfl, rfl⟩ := h
    simp
  | cons req rest ih =>
    simp only [getCurrentOperandsLoop] at h
    split at h
    · simp at h
    · rename_i requestList w2 hl
      obtain ⟨hc, rfl⟩ := ListOperandRequestsByRegistry_ok env w w2 _ _ hl
      obtain ⟨hc2, hmem⟩ := ih _ _ h
      refine ⟨hc2.trans hc, fun x => ?_⟩
      rw [hmem, mem_addItems_listed, hc]
      simp only [List.mem_cons, exists_eq_or_imp, or_assoc]

theorem getCurrentOperandsLoop_total (env : Env) (requestInstance : OperandRequest)
    (hlist : ∀ n, env.fault n ⟨.list, .OperandRequest, ⟨"", ""⟩⟩ = none)
    (entries : List Request) (set : List String) (w : World) :
    ∃ s w1, getCurrentOperandsLoop env requestInstance set w entries = (.ok s, w1) := by
  induction entries generalizing set w with
  | nil => exact ⟨set, w, rfl⟩
  | cons req rest ih =>
    simp only [getCurrentOperandsLoop, ListOperandRequestsByRegistry, listOperandRequests,
      Env.failure, hlist]
    exact ih _ _

theorem mem_memberNames (ms : List MemberStatus) (s : List String) (x : String) :
    x ∈ memberNames s ms ↔ x ∈ s ∨ ∃ m ∈ ms, m.Name = x := by
  induction ms generalizing s with
  | nil => simp [memberNames]
  | cons m rest ih =>
    simp only [memberNames, ih, mem_gsetAdd, List.mem_cons, exists_eq_or_imp]
    constructor
    · rintro ((h | h) | h)
      · exact Or.inl h
      · exact Or.inr (Or.inl h.symm)
      · exact Or.inr (Or.inr h)
    · rintro (h | h | h)
      · exact Or.inl (Or.inl h)
      · exact Or.inl (Or.inr h.symm)
      · exact Or.inr h

theorem nodup_memberNames (ms : List MemberStatus) (s : List String) (h : s.Nodup) :
    (memberNames s ms).Nodup := by
  induction ms generalizing s with
  | nil => exact h
  | cons m rest ih => exact ih _ (nodup_gsetAdd s m.Name h)

theorem getNeedDeletedOperands_ok (env : Env) (requestInstance : OperandRequest)
    (w w1 : World) (s : List String)
    (h : getNeedDeletedOperands env requestInstance w = (.ok s, w1)) :
    w1.cluster = w.cluster ∧ s.Nodup ∧
    ∀ x, x ∈ s ↔ (∃ m ∈ requestInstance.Status.Members, m.Name = x) ∧
      ¬ ∃ e ∈ requestInstance.Requests,
        Collected w.cluster (requestInstance.GetRegistryKey e) x := by
  unfold getNeedDeletedOperands getCurrentOperands at h
  simp only at h
  split at h
  · rename_i cur w2 hcur
    simp only [Prod.mk.injEq, Result.ok.injEq] at h
    obtain ⟨rfl, rfl⟩ := h
    obtain ⟨hc, hmem⟩ := getCurrentOperandsLoop_ok env requestInstance _ _ _ _ _ hcur
    refine ⟨hc, ?_, fun x => ?_⟩
    · exact List.Nodup.filter _ (nodup_memberNames _ _ List.nodup_nil)
    · simp only [gsetDifference, List.mem_filter, decide_eq_true_eq, mem_memberNames, hmem,
        List.not_mem_nil, false_or]
  · simp at h
  · simp at h

/-! ## A Subscription the reconciler does not own stays as it is -/

theorem find_map_replace_ne (l : List Subscription) (k k' : NamespacedName)
    (sub' : Subscription) (hk : sub'.key = k') (hne : k' ≠ k) :
    (l.map (fun s => if s.key = k' then sub' else s)).find? (fun s => s.key = k)
      = l.find? (fun s => s.key = k) := by
  induction l with
  | nil => rfl
  | cons s rest ih =>
    simp only [List.map_cons, List.find?_cons]
    by_cases hs : s.key = k'
    · have h1 : decide (sub'.key = k) = false := by
        rw [hk]; exact decide_eq_false hne
      have h2 : decide (s.key = k) = false := by
        rw [hs]; exact decide_eq_false hne
      rw [if_pos hs, h1, h2]
      exact ih
    · rw [if_neg hs]
      cases decide (s.key = k)
      · exact ih
      · rfl

theorem find_filter_ne (l : List Subscription) (k k' : NamespacedName) (hne : k' ≠ k) :
    (l.filter (fun s => decide (s.key ≠ k'))).find? (fun s => s.key = k)
      = l.find? (fun s => s.key = k) := by
  induction l with
  | nil => rfl
  | cons s rest ih =>
    by_cases hs : s.key = k'
    · have h2 : decide (s.key = k) = false := by
        rw [hs]; exact decide_eq_false hne
      have h3 : decide (s.key ≠ k') = false := decide_eq_false (not_not.mpr hs)
      rw [List.filter_cons_of_neg (by simp [hs]), List.find?_cons, h2]
      exact ih
    · rw [List.filter_cons_of_pos (by simp [hs]), List.find?_cons, List.find?_cons]
      cases decide (s.key = k)
      · exact ih
      · rfl

theorem Untouched.step {k : NamespacedName} {S : Subscription} (w w' : World) (c : Call)
    (hsub : w'.cluster.subscriptionAt k = w.cluster.subscriptionAt k)
    (hcalls : w'.calls = w.calls ++ [c]) (hc : ¬ c.writesSubscription k)
    (h : Untouched k S w) : Untouched k S w' := by
  refine ⟨hsub.trans h.1, fun d hd => ?_⟩
  rw [hcalls, List.mem_append, List.mem_singleton] at hd
  rcases hd with hd | rfl
  · exact h.2 d hd
  · exact hc

theorem Untouched.record {k : NamespacedName} {S : Subscription} {w : World} (c : Call)
    (hc : ¬ c.writesSubscription k) (h : Untouched k S w) : Untouched k S (w.record c) :=
  Untouched.step w _ c rfl rfl hc h

theorem clientGet_world {α : Type} (env : Env) (w : World) (kind : Kind) (objs : List α)
    (keyOf : α → NamespacedName) (key : NamespacedName) :
    (clientGet env w kind objs keyOf key).2 = w.record ⟨.get, kind, key⟩ := by
  unfold clientGet
  split
  · rfl
  · split <;> rfl

theorem clientGet_untouched {α : Type} {k : NamespacedName} {S : Subscription}
    (env : Env) (w : World) (kind : Kind) (objs : List α)
    (keyOf : α → NamespacedName) (key : NamespacedName) (h : Untouched k S w) :
    Untouched k S (clientGet env w kind objs keyOf key).2 := by
  rw [clientGet_world]
  exact h.record _ (by simp [Call.writesSubscription])

theorem createSubscriptionObj_untouched {k : NamespacedName} {S : Subscription}
    (env : Env) (w : World) (sub : Subscription) (h : Untouched k S w) :
    Untouched k S (createSubscriptionObj env w sub).2 := by
  unfold createSubscriptionObj
  split
  · exact h.record _ (by simp [Call.writesSubscription])
  · split
    · exact h.record _ (by simp [Call.writesSubscription])
    · refine Untouched.step w _ ⟨.create, .Subscription, sub.key⟩ ?_ rfl
        (by simp [Call.writesSubscription]) h
      have := h.1
      simp only [Cluster.subscriptionAt] at this ⊢
      simp [List.find?_append, this]

theorem updateSubscriptionObj_untouched {k : NamespacedName} {S : Subscription}
    (env : Env) (w : World) (sub : Subscription) (hne : sub.key ≠ k) (h : Untouched k S w) :
    Untouched k S (updateSubscriptionObj env w sub).2 := by
  have hc : ¬ (⟨.update, .Subscription, sub.key⟩ : Call).writesSubscription k := by
    simp [Call.writesSubscription, hne]
  unfold updateSubscriptionObj
  split
  · exact h.record _ hc
  · split
    · exact h.record _ hc
    · refine Untouched.step w _ ⟨.update, .Subscription, sub.key⟩ ?_ rfl hc h
      simp only [Cluster.subscriptionAt]
      exact find_map_replace_ne _ _ _ _ rfl hne

theorem deleteSubscriptionObj_untouched {k : NamespacedName} {S : Subscription}
    (env : Env) (w : World) (sub : Subscription) (hne : sub.key ≠ k) (h : Untouched k S w) :
    Untouched k S (deleteSubscriptionObj env w sub).2 := by
  have hc : ¬ (⟨.delete, .Subscription, sub.key⟩ : Call).writesSubscription k := by
    simp [Call.writesSubscription, hne]
  unfold deleteSubscriptionObj
  split
  · exact h.record _ hc
  · split
    · exact h.record _ hc
    · refine Untouched.step w _ ⟨.delete, .Subscription, sub.key⟩ ?_ rfl hc h
      simp only [Cluster.subscriptionAt]
      exact find_filter_ne _ _ _ hne

theorem deleteCsvObj_untouched {k : NamespacedName} {S : Subscription}
    (env : Env) (w : World) (csv : ClusterServiceVersion) (h : Untouched k S w) :
    Untouched k S (deleteCsvObj env w csv).2 := by
  have hc : ¬ (⟨.delete, .ClusterServiceVersion, csv.key⟩ : Call).writesSubscription k := by
    simp [Call.writesSubscription]
  unfold deleteCsvObj
  split
  · exact h.record _ hc
  · split
    · exact h.record _ hc
    · exact Untouched.step w _ ⟨.delete, .ClusterServiceVersion, csv.key⟩ rfl rfl hc h

theorem createNamespaceObj_untouched {k : NamespacedName} {S : Subscription}
    (env : Env) (w : World) (ns : Namespace) (h : Untouched k S w) :
    Untouched k S (createNamespaceObj env w ns).2 := by
  have hc : ¬ (⟨.create, .Namespace, ns.key⟩ : Call).writesSubscription k := by
    simp [Call.writesSubscription]
  unfold createNamespaceObj
  split
  · exact h.record _ hc
  · split
    · exact h.record _ hc
    · exact Untouched.step w _ ⟨.create, .Namespace, ns.key⟩ rfl rfl hc h

theorem createOperatorGroupObj_untouched {k : NamespacedName} {S : Subscription}
    (env : Env) (w : World) (og : OperatorGroup) (h : Untouched k S w) :
    Untouched k S (createOperatorGroupObj env w og).2 := by
  have hc : ¬ (⟨.create, .OperatorGroup, og.key⟩ : Call).writesSubscription k := by
    simp [Call.writesSubscription]
  unfold createOperatorGroupObj
  split
  · exact h.record _ hc
  · split
    · exact h.record _ hc
    · exact Untouched.step w _ ⟨.create, .OperatorGroup, og.key⟩ rfl rfl hc h

theorem listOperatorGroups_untouched {k : NamespacedName} {S : Subscription}
    (env : Env) (w : World) (ns : String) (h : Untouched k S w) :
    Untouched k S (listOperatorGroups env w ns).2 := by
  unfold listOperatorGroups
  split <;> exact h.record _ (by simp [Call.writesSubscription])

theorem listOperandRequests_untouched {k : NamespacedName} {S : Subscription}
    (env : Env) (w : World) (h : Untouched k S w) :
    Untouched k S (listOperandRequests env w).2 := by
  unfold listOperandRequests
  split <;> exact h.record _ (by simp [Call.writesSubscription])

theorem clientPatch_untouched {k : NamespacedName} {S : Subscription}
    (env : Env) (w : World) (key : NamespacedName) (a v : String) (h : Untouched k S w) :
    Untouched k S (clientPatch env w key a v).2 := by
  have hc : ¬ (⟨.patch, .OperandRequest, key⟩ : Call).writesSubscription k := by
    simp [Call.writesSubscription]
  unfold clientPatch
  split
  · exact h.record _ hc
  · split
    · exact h.record _ hc
    · exact Untouched.step w _ ⟨.patch, .OperandRequest, key⟩ rfl rfl hc h

theorem deleteAllCustomResource_untouched {k : NamespacedName} {S : Subscription}
    (env : Env) (w : World) (csv : ClusterServiceVersion) (h : Untouched k S w) :
    Untouched k S (deleteAllCustomResource env w csv).2 := by
  unfold deleteAllCustomResource
  split <;> exact h.record _ (by simp [Call.writesSubscription])

theorem clientGet_cluster {α : Type} (env : Env) (w : World) (kind : Kind) (objs : List α)
    (keyOf : α → NamespacedName) (key : NamespacedName) :
    (clientGet env w kind objs keyOf key).2.cluster = w.cluster := by
  rw [clientGet_world]
  rfl

theorem clientGet_found {α : Type} (env : Env) (w w1 : World) (kind : Kind) (objs : List α)
    (keyOf : α → NamespacedName) (key : NamespacedName) (o : α)
    (h : clientGet env w kind objs keyOf key = (.ok o, w1)) :
    objs.find? (fun x => keyOf x = key) = some o := by
  unfold clientGet at h
  split at h
  · simp at h
  · split at h
    · rename_i o' ho
      simp only [Prod.mk.injEq, Except.ok.injEq] at h
      rw [ho, h.1]
    · simp at h

/-- What `GetSubscription` can return: a stored Subscription and no error; nil and an error
that is not `NotFound`; or the unfilled object and the error of the second lookup. The
store is not written. -/
theorem GetSubscription_cases (env : Env) (w : World) (name ns pkg : String) :
    (GetSubscription env w name ns pkg).2.cluster = w.cluster ∧
    ((∃ sub, (GetSubscription env w name ns pkg).1 = (some sub, none) ∧
        w.cluster.subscriptionAt sub.key = some sub) ∨
     (∃ e, (GetSubscription env w name ns pkg).1 = (none, some e) ∧
        IsNotFound (some e) = false) ∨
     (∃ e, (GetSubscription env w name ns pkg).1 = (some emptySubscription, some e))) := by
  unfold GetSubscription
  split
  · rename_i sub w1 heq
    have hc := clientGet_cluster env w .Subscription w.cluster.subscriptions
      Subscription.key ⟨ns, name⟩
    have hf := clientGet_found env w w1 _ _ _ _ _ heq
    rw [heq] at hc
    refine ⟨hc, Or.inl ⟨sub, rfl, ?_⟩⟩
    have hk : sub.key = ⟨ns, name⟩ := by
      have := List.find?_some hf
      simpa using this
    rw [hk]
    exact hf
  · rename_i e w1 heq
    have hc := clientGet_cluster env w .Subscription w.cluster.subscriptions
      Subscription.key ⟨ns, name⟩
    rw [heq] at hc
    split
    · rename_i hnf
      refine ⟨hc, Or.inr (Or.inl ⟨_, rfl, ?_⟩)⟩
      simpa using hnf
    · split
      · rename_i sub w2 heq2
        have hc2 := clientGet_cluster env w1 .Subscription w1.cluster.subscriptions
          Subscription.key ⟨ns, pkg⟩
        have hf := clientGet_found env w1 w2 _ _ _ _ _ heq2
        rw [heq2] at hc2
        refine ⟨hc2.trans hc, Or.inl ⟨sub, rfl, ?_⟩⟩
        have hk : sub.key = ⟨ns, pkg⟩ := by
          have := List.find?_some hf
          simpa using this
        rw [hk, ← hc]
        exact hf
      · rename_i e2 w2 heq2
        have hc2 := clientGet_cluster env w1 .Subscription w1.cluster.subscriptions
          Subscription.key ⟨ns, pkg⟩
        rw [heq2] at hc2
        exact ⟨hc2.trans hc, Or.inr (Or.inr ⟨_, rfl⟩)⟩

theorem GetSubscription_untouched {k : NamespacedName} {S : Subscription}
    (env : Env) (w : World) (name ns pkg : String) (h : Untouched k S w) :
    Untouched k S (GetSubscription env w name ns pkg).2 := by
  unfold GetSubscription
  split
  · rename_i sub w1 heq
    have := clientGet_untouched env w .Subscription w.cluster.subscriptions
      Subscription.key ⟨ns, name⟩ h
    rw [heq] at this
    exact this
  · rename_i e w1 heq
    have h1 := clientGet_untouched env w .Subscription w.cluster.subscriptions
      Subscription.key ⟨ns, name⟩ h
    rw [heq] at h1
    split
    · exact h1
    · have h2 := clientGet_untouched env w1 .Subscription w1.cluster.subscriptions
        Subscription.key ⟨ns, pkg⟩ h1
      split
      · rename_i heq2
        rw [heq2] at h2
        exact h2
      · rename_i heq2
        rw [heq2] at h2
        exact h2

theorem fetchClusterServiceVersion_untouched {k : NamespacedName} {S : Subscription}
    (env : Env) (w : World) (ns name : String) (h : Untouched k S w) :
    Untouched k S (fetchClusterServiceVersion env w ns name).2 := by
  unfold fetchClusterServiceVersion
  have h1 := clientGet_untouched env w .ClusterServiceVersion w.cluster.csvs
    ClusterServiceVersion.key ⟨ns, name⟩ h
  split
  · rename_i heq
    rw [heq] at h1
    split <;> exact h1
  · rename_i heq
    rw [heq] at h1
    exact h1

theorem GetClusterServiceVersion_untouched {k : NamespacedName} {S : Subscription}
    (env : Env) (w : World) (sub : Subscription) (h : Untouched k S w) :
    Untouched k S (GetClusterServiceVersion env w sub).2 := by
  unfold GetClusterServiceVersion
  split
  · exact h
  · split
    · exact h
    · split
      · exact h
      · rename_i ipName _
        split
        · exact h
        · have h1 := clientGet_untouched env w .InstallPlan w.cluster.installPlans
            InstallPlan.key ⟨sub.Namespace, ipName⟩ h
          split
          · rename_i heq
            rw [heq] at h1
            split
            · exact h1
            · exact fetchClusterServiceVersion_untouched env _ _ _ h1
          · rename_i heq
            rw [heq] at h1
            split
            · exact fetchClusterServiceVersion_untouched env _ _ _ h1
            · split
              · exact h1
              · exact fetchClusterServiceVersion_untouched env _ _ _ h1

theorem checkUninstallLabel_untouched {k : NamespacedName} {S : Subscription}
    (env : Env) (w : World) (name ns : String) (h : Untouched k S w) :
    Untouched k S (checkUninstallLabel env w name ns).2 := by
  unfold checkUninstallLabel
  have h1 := clientGet_untouched env w .Subscription w.cluster.subscriptions
    Subscription.key ⟨ns, name⟩ h
  split
  · rename_i heq
    rw [heq] at h1
    exact h1
  · rename_i heq
    rw [heq] at h1
    exact h1

theorem createSubscriptionStep_untouched {k : NamespacedName} {S : Subscription}
    (env : Env) (cr : OperandRequest) (sub : Subscription) (w : World)
    (h : Untouched k S w) :
    Untouched k S (createSubscriptionStep env cr sub w).2.2 := by
  unfold createSubscriptionStep
  have h1 := createSubscriptionObj_untouched env w sub h
  simp only
  split
  · rename_i heq
    rw [heq] at h1
    split <;> exact h1
  · rename_i heq
    rw [heq] at h1
    exact h1

theorem createSubscription_untouched {k : NamespacedName} {S : Subscription}
    (env : Env) (cr : OperandRequest) (opt : Operator) (w : World)
    (h : Untouched k S w) :
    Untouched k S (createSubscription env cr opt w).2.2 := by
  unfold createSubscription
  simp only
  have h1 : Untouched k S
      (if (generateClusterObjects opt).namespace_.Name ≠ env.operatorNamespace ∧
          (generateClusterObjects opt).namespace_.Name ≠ ClusterOperatorNamespace then
        (createNamespaceObj env w (generateClusterObjects opt).namespace_).2
      else w) := by
    split
    · exact createNamespaceObj_untouched env w _ h
    · exact h
  split
  · have h2 := listOperatorGroups_untouched env _
      (generateClusterObjects opt).operatorGroup.Namespace h1
    split
    · rename_i heq
      rw [heq] at h2
      exact h2
    · rename_i w2 heq
      rw [heq] at h2
      split
      · have h3 := createOperatorGroupObj_untouched env w2
          (generateClusterObjects opt).operatorGroup h2
        split
        · rename_i heq3
          rw [heq3] at h3
          split
          · exact h3
          · exact createSubscriptionStep_untouched env _ _ _ h3
        · rename_i heq3
          rw [heq3] at h3
          exact createSubscriptionStep_untouched env _ _ _ h3
      · exact createSubscriptionStep_untouched env _ _ _ h2
  · exact createSubscriptionStep_untouched env _ _ _ h1

theorem updateSubscription_untouched {k : NamespacedName} {S : Subscription}
    (env : Env) (cr : OperandRequest) (sub : Subscription) (w : World)
    (hne : sub.key ≠ k) (h : Untouched k S w) :
    Untouched k S (updateSubscription env cr sub w).2.2 := by
  unfold updateSubscription
  have h1 := updateSubscriptionObj_untouched env w sub hne h
  simp only
  split
  · rename_i heq
    rw [heq] at h1
    exact h1
  · rename_i heq
    rw [heq] at h1
    exact h1

theorem deleteSubscriptionStep_untouched {k : NamespacedName} {S : Subscription}
    (env : Env) (op : Operator) (sub : Subscription) (req : OperandRequest) (w : World)
    (hne : sub.key ≠ k) (h : Untouched k S w) :
    Untouched k S (deleteSubscriptionStep env op sub req w).2.2 := by
  unfold deleteSubscriptionStep
  have h1 := deleteSubscriptionObj_untouched env w sub hne h
  simp only
  split
  · rename_i heq
    rw [heq] at h1
    split <;> exact h1
  · rename_i heq
    rw [heq] at h1
    exact h1

/-- An owned Subscription found in the store is not the one stored under `k` when that one
lacks the ownership label. -/
theorem owned_key_ne {k : NamespacedName} {S sub : Subscription} {c : Cluster}
    (hS : c.subscriptionAt k = some S) (hforeign : S.Labels.has OpreqLabel = false)
    (hsub : c.subscriptionAt sub.key = some sub) (howned : sub.Labels.has OpreqLabel = true) :
    sub.key ≠ k := by
  intro hk
  rw [hk, hS] at hsub
  simp only [Option.some.injEq] at hsub
  rw [hsub, howned] at hforeign
  exact absurd hforeign (by decide)

theorem deleteSubscription_untouched {k : NamespacedName} {S : Subscription}
    (hforeign : S.Labels.has OpreqLabel = false)
    (env : Env) (operandName : String) (req : OperandRequest) (reg : OperandRegistry)
    (w : World) (h : Untouched k S w) :
    Untouched k S (deleteSubscription env operandName req reg w).2.2 := by
  unfold deleteSubscription
  split
  · exact h
  · rename_i op _
    simp only
    have h1 := GetSubscription_untouched env w operandName
      (GetOperatorNamespace op.InstallMode op.Namespace) op.PackageName h
    have hcases := GetSubscription_cases env w operandName
      (GetOperatorNamespace op.InstallMode op.Namespace) op.PackageName
    generalize GetSubscription env w operandName
      (GetOperatorNamespace op.InstallMode op.Namespace) op.PackageName = g at h1 hcases
    obtain ⟨⟨osub, err⟩, w1⟩ := g
    simp only at h1 hcases ⊢
    split
    · exact h1
    · split
      · exact h1
      · rename_i sub
        split
        · exact h1
        · rename_i howned
          simp only [Bool.not_eq_true, Bool.not_eq_false'] at howned
          have hne : sub.key ≠ k := by
            rcases hcases.2 with ⟨sub', hs, hat⟩ | ⟨e, hs, _⟩ | ⟨e, hs⟩
            · simp only [Prod.mk.injEq, Option.some.injEq] at hs
              rw [← hs.1] at hat
              exact owned_key_ne h.1 hforeign hat (by simpa using howned)
            · simp at hs
            · simp only [Prod.mk.injEq, Option.some.injEq] at hs
              rw [hs.1] at howned
              exact absurd howned (by decide)
          have h2 := GetClusterServiceVersion_untouched env w1 sub h1
          split
          · rename_i heq2
            rw [heq2] at h2
            exact h2
          · rename_i heq2
            rw [heq2] at h2
            exact h2
          · rename_i heq2
            rw [heq2] at h2
            exact deleteSubscriptionStep_untouched env _ _ _ _ hne h2
          · rename_i csv w2 heq2
            rw [heq2] at h2
            have h3 := deleteAllCustomResource_untouched env w2 csv h2
            split
            · rename_i heq3
              rw [heq3] at h3
              exact h3
            · rename_i w3 heq3
              rw [heq3] at h3
              have h4 := checkUninstallLabel_untouched env w3 op.Name
                (GetOperatorNamespace op.InstallMode op.Namespace) h3
              split
              · rename_i heq4
                rw [heq4] at h4
                exact h4
              · rename_i w4 heq4
                rw [heq4] at h4
                have h5 := deleteCsvObj_untouched env w4 csv h4
                split
                · rename_i heq5
                  rw [heq5] at h5
                  exact h5
                · rename_i heq5
                  rw [heq5] at h5
                  exact deleteSubscriptionStep_untouched env _ _ _ _ hne h5

theorem reconcileOperatorOperand_untouched {k : NamespacedName} {S : Subscription}
    (hforeign : S.Labels.has OpreqLabel = false)
    (env : Env) (reg : OperandRegistry) (operand : Operand) (req : OperandRequest)
    (w : World) (h : Untouched k S w) :
    Untouched k S (reconcileOperatorOperand env reg operand req w).2.2 := by
  unfold reconcileOperatorOperand
  split
  · exact h
  · rename_i opt _
    split
    · exact h
    · have h1 := GetSubscription_untouched env w opt.Name
        (GetOperatorNamespace opt.InstallMode opt.Namespace) opt.PackageName h
      have hcases := GetSubscription_cases env w opt.Name
        (GetOperatorNamespace opt.InstallMode opt.Namespace) opt.PackageName
      split
      · rename_i heq
        rw [heq] at h1
        split
        · have h2 := createSubscription_untouched env req opt _ h1
          split
          · rename_i heq2
            rw [heq2] at h2
            exact h2
          · rename_i heq2
            rw [heq2] at h2
            exact h2
        · exact h1
      · rename_i heq
        rw [heq] at h1
        exact h1
      · rename_i sub w1 heq
        rw [heq] at h1 hcases
        split
        · rename_i howned
          split
          · have hne : sub.key ≠ k := by
              rcases hcases.2 with ⟨sub', hs, hat⟩ | ⟨e, hs, _⟩ | ⟨e, hs⟩
              · simp only [Prod.mk.injEq, Option.some.injEq, and_true] at hs
                rw [← hs] at hat
                exact owned_key_ne h.1 hforeign hat howned
              · simp at hs
              · simp at hs
            have h2 := updateSubscription_untouched env req
              { sub with Spec := overwriteSpec sub.Spec opt } w1 hne h1
            split
            · rename_i heq2
              rw [heq2] at h2
              exact h2
            · rename_i heq2
              rw [heq2] at h2
              exact h2
          · exact h1
        · exact h1

theorem GetOperandRegistry_untouched {k : NamespacedName} {S : Subscription}
    (env : Env) (w : World) (key : NamespacedName) (h : Untouched k S w) :
    Untouched k S (GetOperandRegistry env w key).2 := by
  unfold GetOperandRegistry
  have h1 := clientGet_untouched env w .OperandRegistry w.cluster.registries
    OperandRegistry.key key h
  split
  · rename_i heq
    rw [heq] at h1
    exact h1
  · rename_i heq
    rw [heq] at h1
    exact h1

theorem GetOperandConfig_untouched {k : NamespacedName} {S : Subscription}
    (env : Env) (w : World) (key : NamespacedName) (h : Untouched k S w) :
    Untouched k S (GetOperandConfig env w key).2 :=
  clientGet_untouched env w .OperandConfig w.cluster.configs OperandConfig.key key h

theorem ListOperandRequestsByRegistry_untouched {k : NamespacedName} {S : Subscription}
    (env : Env) (w : World) (key : NamespacedName) (h : Untouched k S w) :
    Untouched k S (ListOperandRequestsByRegistry env w key).2 := by
  unfold ListOperandRequestsByRegistry
  have h1 := listOperandRequests_untouched env w h
  split
  · rename_i heq
    rw [heq] at h1
    exact h1
  · rename_i heq
    rw [heq] at h1
    exact h1

theorem getCurrentOperandsLoop_untouched {k : NamespacedName} {S : Subscription}
    (env : Env) (req : OperandRequest) (entries : List Request) (set : List String)
    (w : World) (h : Untouched k S w) :
    Untouched k S (getCurrentOperandsLoop env req set w entries).2 := by
  induction entries generalizing set w with
  | nil => exact h
  | cons e rest ih =>
    simp only [getCurrentOperandsLoop]
    have h1 := ListOperandRequestsByRegistry_untouched env w (req.GetRegistryKey e) h
    split
    · rename_i heq
      rw [heq] at h1
      exact h1
    · rename_i heq
      rw [heq] at h1
      exact ih _ _ h1

theorem getNeedDeletedOperands_untouched {k : NamespacedName} {S : Subscription}
    (env : Env) (req : OperandRequest) (w : World) (h : Untouched k S w) :
    Untouched k S (getNeedDeletedOperands env req w).2 := by
  unfold getNeedDeletedOperands getCurrentOperands
  have h1 := getCurrentOperandsLoop_untouched env req req.Requests [] w h
  simp only
  split
  · rename_i heq
    rw [heq] at h1
    exact h1
  · rename_i heq
    rw [heq] at h1
    exact h1
  · rename_i heq
    rw [heq] at h1
    exact h1

theorem deleteOperands_untouched {k : NamespacedName} {S : Subscription}
    (hforeign : S.Labels.has OpreqLabel = false)
    (env : Env) (reg : OperandRegistry) (names : List String) (merr : List OpError)
    (req : OperandRequest) (w : World) (h : Untouched k S w) :
    Untouched k S (deleteOperands env reg merr req w names).2.2 := by
  induction names generalizing merr req w with
  | nil => exact h
  | cons o rest ih =>
    simp only [deleteOperands]
    have h1 := deleteSubscription_untouched hforeign env o req reg w h
    split
    · rename_i heq
      rw [heq] at h1
      exact ih _ _ _ h1
    · rename_i heq
      rw [heq] at h1
      exact ih _ _ _ h1
    · rename_i heq
      rw [heq] at h1
      exact h1

theorem absentLoop_untouched {k : NamespacedName} {S : Subscription}
    (hforeign : S.Labels.has OpreqLabel = false)
    (env : Env) (names : List String) (entries : List Request)
    (req : OperandRequest) (w : World) (h : Untouched k S w) :
    Untouched k S (absentLoop env names req w entries).2.2 := by
  induction entries generalizing req w with
  | nil => exact h
  | cons e rest ih =>
    simp only [absentLoop]
    have h1 := GetOperandRegistry_untouched env w (req.GetRegistryKey e) h
    split
    · rename_i heq
      rw [heq] at h1
      exact h1
    · rename_i reg w1 heq
      rw [heq] at h1
      have h2 := GetOperandConfig_untouched env w1 (req.GetRegistryKey e) h1
      split
      · rename_i heq2
        rw [heq2] at h2
        exact h2
      · rename_i w2 heq2
        rw [heq2] at h2
        have h3 := deleteOperands_untouched hforeign env reg names [] req w2 h2
        split
        · rename_i heq3
          rw [heq3] at h3
          exact h3
        · rename_i heq3
          rw [heq3] at h3
          exact h3
        · rename_i heq3
          rw [heq3] at h3
          split
          · exact h3
          · exact ih _ _ h3

theorem absentOperatorsAndOperands_untouched {k : NamespacedName} {S : Subscription}
    (hforeign : S.Labels.has OpreqLabel = false)
    (env : Env) (req : OperandRequest) (w : World) (h : Untouched k S w) :
    Untouched k S (absentOperatorsAndOperands env req w).2.2 := by
  unfold absentOperatorsAndOperands
  have h1 := getNeedDeletedOperands_untouched env req w h
  split
  · rename_i heq
    rw [heq] at h1
    exact h1
  · rename_i heq
    rw [heq] at h1
    exact h1
  · rename_i heq
    rw [heq] at h1
    exact absentLoop_untouched hforeign env _ _ _ _ h1

theorem patchFindOperandRegistry_untouched {k : NamespacedName} {S : Subscription}
    (env : Env) (req : OperandRequest) (w : World) (v : String) (h : Untouched k S w) :
    Untouched k S (patchFindOperandRegistry env req w v).2 := by
  unfold patchFindOperandRegistry
  have h1 := clientPatch_untouched env w req.key FindOperandRegistry v h
  split
  · rename_i heq
    rw [heq] at h1
    exact h1
  · rename_i heq
    rw [heq] at h1
    exact h1

theorem reconcileOperatorOperands_untouched {k : NamespacedName} {S : Subscription}
    (hforeign : S.Labels.has OpreqLabel = false)
    (env : Env) (reg : OperandRegistry) (operands : List Operand)
    (req : OperandRequest) (w : World) (h : Untouched k S w) :
    Untouched k S (reconcileOperatorOperands env reg req w operands).2.2 := by
  induction operands generalizing req w with
  | nil => exact h
  | cons o rest ih =>
    simp only [reconcileOperatorOperands]
    have h1 := reconcileOperatorOperand_untouched hforeign env reg o req w h
    split
    · rename_i heq
      rw [heq] at h1
      exact ih _ _ h1
    · rename_i heq
      rw [heq] at h1
      exact h1
    · rename_i heq
      rw [heq] at h1
      exact h1

theorem reconcileOperatorRequests_untouched {k : NamespacedName} {S : Subscription}
    (hforeign : S.Labels.has OpreqLabel = false)
    (env : Env) (entries : List Request)
    (req : OperandRequest) (w : World) (h : Untouched k S w) :
    Untouched k S (reconcileOperatorRequests env req w entries).2.2 := by
  induction entries generalizing req w with
  | nil => exact h
  | cons e rest ih =>
    simp only [reconcileOperatorRequests]
    have h1 := GetOperandRegistry_untouched env w (req.GetRegistryKey e) h
    split
    · rename_i heq
      rw [heq] at h1
      split
      · exact patchFindOperandRegistry_untouched env _ _ _ h1
      · exact h1
    · rename_i reg w1 heq
      rw [heq] at h1
      have h2 := reconcileOperatorOperands_untouched hforeign env reg e.Operands req w1 h1
      split
      · rename_i heq2
        rw [heq2] at h2
        exact ih _ _ h2
      · rename_i heq2
        rw [heq2] at h2
        exact h2
      · rename_i heq2
        rw [heq2] at h2
        exact h2

theorem reconcileOperator_untouched {k : NamespacedName} {S : Subscription}
    (hforeign : S.Labels.has OpreqLabel = false)
    (env : Env) (req : OperandRequest) (w : World) (h : Untouched k S w) :
    Untouched k S (reconcileOperator env req w).2.2 := by
  unfold reconcileOperator reconcileOperatorBody
  have h1 := reconcileOperatorRequests_untouched hforeign env req.Requests req w h
  simp only
  split
  · rename_i heq
    rw [heq] at h1
    exact h1
  · rename_i heq
    rw [heq] at h1
    exact h1
  · rename_i heq
    rw [heq] at h1
    exact absentOperatorsAndOperands_untouched hforeign env _ _
      (patchFindOperandRegistry_untouched env _ _ _ h1)

/-! ## Conditions recorded by the operand loop -/

theorem setCondition_mem (r : OperandRequest) (c : Condition) :
    c ∈ (r.setCondition c).Status.Conditions := by
  unfold OperandRequest.setCondition
  simp only
  split
  · rename_i h
    simp only [List.any_eq_true, decide_eq_true_eq] at h
    obtain ⟨d, hd, hsame⟩ := h
    simp only [List.mem_map]
    exact ⟨d, hd, by simp [hsame]⟩
  · simp

theorem setCondition_keeps (r : OperandRequest) (c c0 : Condition)
    (h : c0 ∈ r.Status.Conditions)
    (hsame : c.CondType = c0.CondType → c.Name = c0.Name → c.Resource = c0.Resource → c = c0) :
    c0 ∈ (r.setCondition c).Status.Conditions := by
  unfold OperandRequest.setCondition
  simp only
  split
  · simp only [List.mem_map]
    refine ⟨c0, h, ?_⟩
    split
    · rename_i hs
      simp only [decide_eq_true_eq] at hs
      exact hsame hs.1.symm hs.2.1.symm hs.2.2.symm
    · rfl
  · exact List.mem_append_left _ h

theorem Recorded.setCondition {names : List String} {ns : String} {r : OperandRequest}
    (c : Condition) (hc : c.CondType = .ConditionOutofScope → c = outOfScope c.Name)
    (h : Recorded names ns r) : Recorded names ns (r.setCondition c) := by
  refine ⟨h.1, fun n hn => setCondition_keeps r c _ (h.2 n hn) ?_⟩
  intro h1 h2 _
  rw [hc h1, h2]
  rfl

theorem Recorded.SetMemberStatus {names : List String} {ns : String} {r : OperandRequest}
    (n p : String) (h : Recorded names ns r) : Recorded names ns (r.SetMemberStatus n p) := h

theorem createSubscriptionStep_recorded {names : List String} {ns : String} (env : Env)
    (cr : OperandRequest) (sub : Subscription) (w : World) (h : Recorded names ns cr) :
    Recorded names ns (createSubscriptionStep env cr sub w).2.1 := by
  have h1 : Recorded names ns (cr.SetCreatingCondition sub.Name .ResourceTypeSub true) :=
    h.setCondition _ (by simp)
  have h2 : Recorded names ns
      ((cr.SetCreatingCondition sub.Name .ResourceTypeSub true).SetCreatingCondition
        sub.Name .ResourceTypeSub false) := h1.setCondition _ (by simp)
  unfold createSubscriptionStep
  simp only
  split
  · split
    · exact h2
    · exact h1
  · exact h1

theorem createSubscription_recorded {names : List String} {ns : String} (env : Env)
    (cr : OperandRequest) (opt : Operator) (w : World) (h : Recorded names ns cr) :
    Recorded names ns (createSubscription env cr opt w).2.1 := by
  unfold createSubscription
  simp only
  split
  · split
    · exact h
    · split
      · split
        · split
          · exact h
          · exact createSubscriptionStep_recorded env _ _ _ h
        · exact createSubscriptionStep_recorded env _ _ _ h
      · exact createSubscriptionStep_recorded env _ _ _ h
  · exact createSubscriptionStep_recorded env _ _ _ h

theorem updateSubscription_recorded {names : List String} {ns : String} (env : Env)
    (cr : OperandRequest) (sub : Subscription) (w : World) (h : Recorded names ns cr) :
    Recorded names ns (updateSubscription env cr sub w).2.1 := by
  have h1 : Recorded names ns (cr.SetUpdatingCondition sub.Name .ResourceTypeSub true) :=
    h.setCondition _ (by simp)
  have h2 : Recorded names ns
      ((cr.SetUpdatingCondition sub.Name .ResourceTypeSub true).SetUpdatingCondition
        sub.Name .ResourceTypeSub false) := h1.setCondition _ (by simp)
  unfold updateSubscription
  simp only
  split
  · exact h2
  · exact h1

theorem reconcileOperatorOperand_recorded {names : List String} {ns : String} (env : Env)
    (reg : OperandRegistry) (operand : Operand) (req : OperandRequest) (w : World)
    (h : Recorded names ns req) :
    Recorded names ns (reconcileOperatorOperand env reg operand req w).2.1 := by
  unfold reconcileOperatorOperand
  split
  · exact h.setCondition _ (by simp)
  · rename_i opt _
    split
    · exact h.setCondition _ (by simp [outOfScope])
    · split
      · split
        · rename_i fst err w1 heq hnf
          have h2 := createSubscription_recorded env req opt w1 h
          split
          · rename_i heq2
            rw [heq2] at h2
            exact h2.SetMemberStatus _ _
          · rename_i heq2
            rw [heq2] at h2
            exact h2.SetMemberStatus _ _
        · exact h
      · exact h
      · rename_i sub w1 heq
        split
        · split
          · have h2 := updateSubscription_recorded env req
              { sub with Spec := overwriteSpec sub.Spec opt } w1 h
            split
            · rename_i heq2
              rw [heq2] at h2
              exact h2.SetMemberStatus _ _
            · rename_i heq2
              rw [heq2] at h2
              exact h2.SetMemberStatus _ _
          · exact h
        · exact h

theorem reconcileOperatorOperand_private (env : Env) (reg : OperandRegistry)
    (operand : Operand) (req : OperandRequest) (w : World) (opt : Operator)
    (hop : reg.GetOperator operand.Name = some opt)
    (hprivate : opt.Scope = ScopePrivate) (hns : req.Namespace ≠ reg.Namespace) :
    reconcileOperatorOperand env reg operand req w
      = (.ok (), req.SetOutofScopeCondition operand.Name .ResourceTypeSub true, w) := by
  unfold reconcileOperatorOperand
  simp only [hop]
  rw [if_pos ⟨hprivate, hns⟩]

theorem reconcileOperatorOperands_private (env : Env) (reg : OperandRegistry)
    (ns : String) (hns : ns ≠ reg.Namespace) (operands : List Operand) :
    ∀ (names : List String) (req req' : OperandRequest) (w w' : World),
      Recorded names ns req →
      reconcileOperatorOperands env reg req w operands = (.ok (), req', w') →
      Recorded names ns req' ∧
      ∀ operand ∈ operands, ∀ opt, reg.GetOperator operand.Name = some opt →
        opt.Scope = ScopePrivate → outOfScope operand.Name ∈ req'.Status.Conditions := by
  induction operands with
  | nil =>
    intro names req req' w w' h hloop
    simp only [reconcileOperatorOperands, Prod.mk.injEq, true_and] at hloop
    rw [← hloop.1]
    exact ⟨h, by simp⟩
  | cons o rest ih =>
    intro names req req' w w' h hloop
    simp only [reconcileOperatorOperands] at hloop
    have h1 := reconcileOperatorOperand_recorded env reg o req w h
    split at hloop
    · rename_i u req1 w1 heq
      rw [heq] at h1
      simp only at h1
      have hstep : ∀ opt, reg.GetOperator o.Name = some opt → opt.Scope = ScopePrivate →
          outOfScope o.Name ∈ req1.Status.Conditions := by
        intro opt hop hp
        have := reconcileOperatorOperand_private env reg o req w opt hop hp (h.1 ▸ hns)
        rw [heq] at this
        simp only [Prod.mk.injEq, true_and] at this
        rw [this.1]
        exact setCondition_mem _ _
      by_cases hpriv : ∃ opt, reg.GetOperator o.Name = some opt ∧ opt.Scope = ScopePrivate
      · obtain ⟨opt, hop, hp⟩ := hpriv
        have h2 : Recorded (o.Name :: names) ns req1 := by
          refine ⟨h1.1, fun n hn => ?_⟩
          rcases List.mem_cons.mp hn with rfl | hn
          · exact hstep opt hop hp
          · exact h1.2 n hn
        obtain ⟨h3, h4⟩ := ih (o.Name :: names) req1 req' w1 w' h2 hloop
        refine ⟨⟨h3.1, fun n hn => h3.2 n (List.mem_cons_of_mem _ hn)⟩, ?_⟩
        intro operand hmem opt' hop' hp'
        rcases List.mem_cons.mp hmem with rfl | hmem
        · exact h3.2 _ (List.mem_cons_self _ _)
        · exact h4 operand hmem opt' hop' hp'
      · obtain ⟨h3, h4⟩ := ih names req1 req' w1 w' h1 hloop
        refine ⟨h3, ?_⟩
        intro operand hmem opt' hop' hp'
        rcases List.mem_cons.mp hmem with rfl | hmem
        · exact absurd ⟨opt', hop', hp'⟩ hpriv
        · exact h4 operand hmem opt' hop' hp'
    · simp at hloop
    · simp at hloop


/-! ## Operands shared through a Registry are not deleted -/

/-- C1. An operand name listed by an entry of a stored, non-terminating Request that
targets the same Registry (same name and namespace) as an entry of the reconciling Request
is never in the set `getNeedDeletedOperands` returns, whatever the store and whichever
calls fail; the call never dereferences nil, and `absentOperatorsAndOperands` hands
`deleteSubscription` the names of that set only. -/
theorem shared_operand_not_deleted (env : Env) (requestInstance : OperandRequest)
    (w : World) (e : Request) (other : OperandRequest) (e' : Request) (operand : Operand)
    (he : e ∈ requestInstance.Requests)
    (hother : other ∈ w.cluster.requests)
    (hlive : other.deletionTimestampIsZero = true)
    (he' : e' ∈ other.Requests)
    (hkey : other.GetRegistryKey e' = requestInstance.GetRegistryKey e)
    (ho : operand ∈ e'.Operands) :
    (getNeedDeletedOperands env requestInstance w).1 ≠ .nilDereference ∧
    ∀ s w1, getNeedDeletedOperands env requestInstance w = (.ok s, w1) →
      operand.Name ∉ s ∧
      absentOperatorsAndOperands env requestInstance w
        = absentLoop env s requestInstance w1 requestInstance.Requests := by
  constructor
  · intro hnil
    have hloop : ∀ (entries : List Request) (set : List String) (w0 : World),
        (getCurrentOperandsLoop env requestInstance set w0 entries).1 ≠ .nilDereference := by
      intro entries
      induction entries with
      | nil => intro set w0; simp [getCurrentOperandsLoop]
      | cons req rest ih =>
        intro set w0
        simp only [getCurrentOperandsLoop]
        split
        · simp
        · exact ih _ _
    unfold getNeedDeletedOperands getCurrentOperands at hnil
    simp only at hnil
    split at hnil
    · simp at hnil
    · simp at hnil
    · rename_i w1 hcur
      exact hloop _ _ _ (by rw [hcur])
  · intro s w1 hs
    obtain ⟨_, _, hmem⟩ := getNeedDeletedOperands_ok env requestInstance w w1 s hs
    refine ⟨fun hin => ?_, ?_⟩
    · refine ((hmem operand.Name).mp hin).2 ⟨e, he, ?_⟩
      exact desired_collected _ _ _
        ((mem_desiredOperands _ _ _).mpr ⟨other, hother, hlive, e', he', hkey, operand, ho, rfl⟩)
    · unfold absentOperatorsAndOperands
      rw [hs]

/-- C1, at the cluster where `requestTwo` still asks for `etcd` through the second Registry
of `requestOne`. -/
theorem shared_operand_not_deleted_witness :
    (getNeedDeletedOperands Env.reliable requestOne worldShared).1 ≠ .nilDereference ∧
    ∀ s w1, getNeedDeletedOperands Env.reliable requestOne worldShared = (.ok s, w1) →
      "etcd" ∉ s ∧
      absentOperatorsAndOperands Env.reliable requestOne worldShared
        = absentLoop Env.reliable s requestOne w1 requestOne.Requests :=
  shared_operand_not_deleted Env.reliable requestOne worldShared ⟨"registry-b", "", []⟩
    requestTwo ⟨"registry-b", "ibm-common-services", [⟨"etcd"⟩]⟩ ⟨"etcd"⟩
    (by decide) (by decide) (by decide) (by decide) (by decide) (by decide)

/-! ## The set of operands to delete -/

/-- C2, as stated, fails: `requestOne` references two Registries and has `etcd` recorded as
a member; nobody asks for `etcd` through the first Registry, so the per-Registry set of the
claim for it is `[etcd]`; but `requestTwo` asks for `etcd` through the second Registry, the
set of the code is empty, and no call on a Subscription is issued for either Registry. -/
theorem need_deleted_is_not_per_registry :
    specNeedDeleted requestOne worldShared.cluster keyA = ["etcd"] ∧
    requestOne.GetRegistryKey ⟨"registry-a", "", []⟩ = keyA ∧
    (getNeedDeletedOperands Env.reliable requestOne worldShared).1 = .ok [] ∧
    (absentOperatorsAndOperands Env.reliable requestOne worldShared).1 = .ok () ∧
    ((absentOperatorsAndOperands Env.reliable requestOne worldShared).2.2.calls.filter
      (fun c => decide (c.kind = .Subscription))) = [] := by
  decide

/-- C2, amended. When listing the Requests does not fail, `getNeedDeletedOperands` returns
one duplicate-free set, and `absentOperatorsAndOperands` iterates that same set for every
entry of the Request: a name is in it exactly when it is a recorded member name and is in
the desired-operand set of none of the Registries the Request references. A Registry's
desired-operand set is made of the entries targeting it in the Requests whose deletion
timestamp is zero, so terminating Requests and entries targeting a Registry that the
Request does not reference contribute nothing. -/
theorem need_deleted_characterised (env : Env) (requestInstance : OperandRequest) (w : World)
    (hlist : ∀ n, env.fault n ⟨.list, .OperandRequest, ⟨"", ""⟩⟩ = none)
    (hkeys : ∀ e ∈ requestInstance.Requests,
      noSlash (requestInstance.GetRegistryKey e).Namespace)
    (hstore : ∀ item ∈ w.cluster.requests, ∀ e ∈ item.Requests,
      noSlash (item.GetRegistryKey e).Namespace) :
    ∃ s w1, getNeedDeletedOperands env requestInstance w = (.ok s, w1) ∧
      w1.cluster = w.cluster ∧ s.Nodup ∧
      (∀ x, x ∈ s ↔ (∃ m ∈ requestInstance.Status.Members, m.Name = x) ∧
        ∀ e ∈ requestInstance.Requests,
          x ∉ desiredOperands w.cluster (requestInstance.GetRegistryKey e)) ∧
      absentOperatorsAndOperands env requestInstance w
        = absentLoop env s requestInstance w1 requestInstance.Requests := by
  obtain ⟨cur, w1, hcur⟩ :=
    getCurrentOperandsLoop_total env requestInstance hlist requestInstance.Requests [] w
  have hs : getNeedDeletedOperands env requestInstance w
      = (.ok (gsetDifference (memberNames [] requestInstance.Status.Members) cur), w1) := by
    unfold getNeedDeletedOperands getCurrentOperands
    rw [hcur]
  obtain ⟨hc, hnd, hmem⟩ := getNeedDeletedOperands_ok env requestInstance w w1 _ hs
  refine ⟨_, w1, hs, hc, hnd, fun x => ?_, ?_⟩
  · rw [hmem]
    constructor
    · rintro ⟨hm, hno⟩
      exact ⟨hm, fun e he hd => hno ⟨e, he, desired_collected _ _ _ hd⟩⟩
    · rintro ⟨hm, hno⟩
      refine ⟨hm, ?_⟩
      rintro ⟨e, he, hcol⟩
      exact hno e he (collected_desired _ _ _ (hkeys e he) hstore hcol)
  · unfold absentOperatorsAndOperands
    rw [hs]

/-- C2, amended, at the cluster of `requestOne` and `requestTwo`. -/
theorem need_deleted_characterised_witness :
    ∃ s w1, getNeedDeletedOperands Env.reliable requestOne worldShared = (.ok s, w1) ∧
      w1.cluster = worldShared.cluster ∧ s.Nodup ∧
      (∀ x, x ∈ s ↔ (∃ m ∈ requestOne.Status.Members, m.Name = x) ∧
        ∀ e ∈ requestOne.Requests,
          x ∉ desiredOperands worldShared.cluster (requestOne.GetRegistryKey e)) ∧
      absentOperatorsAndOperands Env.reliable requestOne worldShared
        = absentLoop Env.reliable s requestOne w1 requestOne.Requests :=
  need_deleted_characterised Env.reliable requestOne worldShared (fun _ => rfl)
    (by decide) (by decide)

/-! ## Comparing and overwriting the live spec -/

/-- C6. The Subscription spec built by `generateClusterObjects` from a definition compares
as equal to that definition under `compareSub`; hence the operand step of
`reconcileOperator`, run against a live Subscription whose spec is the generated one,
issues the lookup and nothing else: no update, and the Request and the store are
unchanged. -/
theorem generated_spec_needs_no_update (o : Operator) :
    compareSub (generateClusterObjects o).subscription.Spec o = false ∧
    ∀ (env : Env) (registryInstance : OperandRegistry) (operand : Operand)
      (requestInstance : OperandRequest) (w : World) (sub : Subscription),
      registryInstance.GetOperator operand.Name = some o →
      ¬ (o.Scope = ScopePrivate ∧ requestInstance.Namespace ≠ registryInstance.Namespace) →
      env.failure w ⟨.get, .Subscription,
        ⟨GetOperatorNamespace o.InstallMode o.Namespace, o.Name⟩⟩ = none →
      w.cluster.subscriptionAt ⟨GetOperatorNamespace o.InstallMode o.Namespace, o.Name⟩
        = some sub →
      sub.Spec = (generateClusterObjects o).subscription.Spec →
      reconcileOperatorOperand env registryInstance operand requestInstance w
        = (.ok (), requestInstance,
            w.record ⟨.get, .Subscription,
              ⟨GetOperatorNamespace o.InstallMode o.Namespace, o.Name⟩⟩) := by
  have h0 : compareSub (generateClusterObjects o).subscription.Spec o = false := by
    simp [compareSub, generateClusterObjects]
  refine ⟨h0, ?_⟩
  intro env reg operand req w sub hop hscope hf hlive hspec
  unfold reconcileOperatorOperand
  simp only [hop]
  rw [if_neg hscope, GetSubscription_byName env w _ _ _ sub hf hlive]
  simp only [hspec, h0]
  split <;> simp

/-- C6, for the `etcd` definition and its generated Subscription stored in the cluster. -/
theorem generated_spec_needs_no_update_witness :
    reconcileOperatorOperand Env.reliable registryA ⟨"etcd"⟩ requestGone
        (worldWith (generateClusterObjects etcdOperator).subscription)
      = (.ok (), requestGone,
          (worldWith (generateClusterObjects etcdOperator).subscription).record
            ⟨.get, .Subscription, ⟨"etcd-ns", "etcd"⟩⟩) :=
  (generated_spec_needs_no_update etcdOperator).2 Env.reliable registryA ⟨"etcd"⟩
    requestGone (worldWith (generateClusterObjects etcdOperator).subscription)
    (generateClusterObjects etcdOperator).subscription
    (by decide) (by decide) (by rfl) (by decide) (by rfl)

/-- C7, as stated, fails: the live spec agrees with the definition on the four catalog
fields and the definition leaves `installPlanApproval` empty, yet `compareSub` reports a
mismatch. -/
theorem compareSub_reports_empty_approval :
    compareSub liveSpec unsetOperator = true ∧
    unsetOperator.InstallPlanApproval = "" ∧
    ¬ (liveSpec.CatalogSource ≠ unsetOperator.SourceName ∨
        liveSpec.Channel ≠ unsetOperator.Channel ∨
        liveSpec.CatalogSourceNamespace ≠ unsetOperator.SourceNamespace ∨
        liveSpec.Package ≠ unsetOperator.PackageName ∨
        (unsetOperator.InstallPlanApproval ≠ "" ∧
          liveSpec.InstallPlanApproval ≠ unsetOperator.InstallPlanApproval)) := by
  decide

/-- C7, amended. `compareSub` reports a mismatch if and only if one of the five fields
catalogSource, channel, catalogSourceNamespace, package, installPlanApproval differs, the
approval being compared also when the definition leaves it empty; for a definition with a
non-empty approval, as every definition returned by `GetOperandRegistry` is, this is the
condition of the claim. -/
theorem compareSub_iff (spec : SubscriptionSpec) (o : Operator) :
    (compareSub spec o = true ↔
      (spec.CatalogSource ≠ o.SourceName ∨ spec.Channel ≠ o.Channel ∨
        spec.CatalogSourceNamespace ≠ o.SourceNamespace ∨ spec.Package ≠ o.PackageName ∨
        spec.InstallPlanApproval ≠ o.InstallPlanApproval)) ∧
    (o.InstallPlanApproval ≠ "" →
      (compareSub spec o = true ↔
        (spec.CatalogSource ≠ o.SourceName ∨ spec.Channel ≠ o.Channel ∨
          spec.CatalogSourceNamespace ≠ o.SourceNamespace ∨ spec.Package ≠ o.PackageName ∨
          (o.InstallPlanApproval ≠ "" ∧
            spec.InstallPlanApproval ≠ o.InstallPlanApproval)))) := by
  have h : compareSub spec o = true ↔
      (spec.CatalogSource ≠ o.SourceName ∨ spec.Channel ≠ o.Channel ∨
        spec.CatalogSourceNamespace ≠ o.SourceNamespace ∨ spec.Package ≠ o.PackageName ∨
        spec.InstallPlanApproval ≠ o.InstallPlanApproval) := by
    simp [compareSub, or_assoc]
  refine ⟨h, fun hne => ?_⟩
  rw [h]
  simp [hne]

/-- C7, amended, at a drifted live spec and the `etcd` definition. -/
theorem compareSub_iff_witness :
    compareSub driftedSpec etcdOperator = true ↔
      (driftedSpec.CatalogSource ≠ etcdOperator.SourceName ∨
        driftedSpec.Channel ≠ etcdOperator.Channel ∨
        driftedSpec.CatalogSourceNamespace ≠ etcdOperator.SourceNamespace ∨
        driftedSpec.Package ≠ etcdOperator.PackageName ∨
        (etcdOperator.InstallPlanApproval ≠ "" ∧
          driftedSpec.InstallPlanApproval ≠ etcdOperator.InstallPlanApproval)) :=
  (compareSub_iff driftedSpec etcdOperator).2 (by decide)

theorem overwriteSpec_matches (spec : SubscriptionSpec) (o : Operator)
    (happroval : o.InstallPlanApproval ≠ "") :
    compareSub (overwriteSpec spec o) o = false ∧
    overwriteSpec spec o = (generateClusterObjects o).subscription.Spec := by
  have h0 : compareSub (overwriteSpec spec o) o = false := by
    simp only [overwriteSpec, compareSub]
    split <;> simp_all
  have h1 : overwriteSpec spec o = (generateClusterObjects o).subscription.Spec := by
    simp only [overwriteSpec, generateClusterObjects]
    split
    · rfl
    · rename_i h
      have : spec.InstallPlanApproval = o.InstallPlanApproval := by
        by_contra hne
        exact h ⟨happroval, hne⟩
      simp [this]
  exact ⟨h0, h1⟩

theorem defaultOperator_approval (o : Operator) :
    (defaultOperator o).InstallPlanApproval ≠ "" := by
  unfold defaultOperator
  by_cases h1 : o.Scope = "" <;> by_cases h2 : o.InstallMode = "" <;>
    by_cases h3 : o.InstallPlanApproval = "" <;> simp [h1, h2, h3, ApprovalAutomatic]

/-- Every definition of a Registry returned by `GetOperandRegistry` has an approval. -/
theorem GetOperandRegistry_approval (env : Env) (w w1 : World) (key : NamespacedName)
    (registryInstance : OperandRegistry) (name : String) (opt : Operator)
    (hreg : GetOperandRegistry env w key = (.ok registryInstance, w1))
    (hop : registryInstance.GetOperator name = some opt) :
    opt.InstallPlanApproval ≠ "" := by
  unfold GetOperandRegistry at hreg
  split at hreg
  · simp at hreg
  · simp only [Prod.mk.injEq, Except.ok.injEq] at hreg
    have hmem : opt ∈ registryInstance.Operators := List.mem_of_find?_eq_some hop
    rw [← hreg.1] at hmem
    simp only [List.mem_map] at hmem
    obtain ⟨o, _, rfl⟩ := hmem
    exact defaultOperator_approval o

theorem find_map_replace_self (l : List Subscription) (k : NamespacedName)
    (s sub : Subscription) (hk : sub.key = k)
    (h : l.find? (fun x => x.key = k) = some s) :
    (l.map (fun x => if x.key = k then sub else x)).find? (fun x => x.key = k) = some sub := by
  induction l with
  | nil => simp at h
  | cons a l ih =>
    by_cases ha : a.key = k
    · simp [List.find?_cons, ha, hk]
    · rw [List.find?_cons, decide_eq_false ha] at h
      rw [List.map_cons, if_neg ha, List.find?_cons, decide_eq_false ha]
      exact ih h

theorem updateSubscriptionObj_stored (env : Env) (w : World) (s sub : Subscription)
    (hf : env.failure w ⟨.update, .Subscription, sub.key⟩ = none)
    (hs : w.cluster.subscriptionAt sub.key = some s) :
    (updateSubscriptionObj env w sub).1 = none ∧
    (updateSubscriptionObj env w sub).2.cluster.subscriptionAt sub.key = some sub := by
  unfold updateSubscriptionObj
  rw [hf, hs]
  refine ⟨rfl, ?_⟩
  exact find_map_replace_self _ _ s sub rfl hs

/-- C8. For every definition the operand loop of `reconcileOperator` works with, that is
a definition of a Registry returned by `GetOperandRegistry`, and for every live spec: the
overwritten spec matches the definition (`compareSub` of the overwritten spec against the
same definition is false) and is the spec `generateClusterObjects` builds. So the update
converges in one pass: for every owned Subscription found with a mismatch whose update
does not fail, the operand step stores the Subscription with the overwritten spec and
records the operand as Updating; and a later step that finds this Subscription issues no
update and returns right after the lookup, the Request and the store unchanged. -/
theorem overwrite_converges (env : Env) (w w1 : World) (key : NamespacedName)
    (registryInstance : OperandRegistry) (operand : Operand) (opt : Operator)
    (hreg : GetOperandRegistry env w key = (.ok registryInstance, w1))
    (hop : registryInstance.GetOperator operand.Name = some opt) :
    (∀ spec : SubscriptionSpec,
      compareSub (overwriteSpec spec opt) opt = false ∧
      overwriteSpec spec opt = (generateClusterObjects opt).subscription.Spec) ∧
    (∀ (env1 : Env) (requestInstance : OperandRequest) (wa wb : World) (sub : Subscription),
      ¬ (opt.Scope = ScopePrivate ∧ requestInstance.Namespace ≠ registryInstance.Namespace) →
      GetSubscription env1 wa opt.Name (GetOperatorNamespace opt.InstallMode opt.Namespace)
        opt.PackageName = ((some sub, none), wb) →
      sub.Labels.has OpreqLabel = true →
      compareSub sub.Spec opt = true →
      env1.failure wb ⟨.update, .Subscription, sub.key⟩ = none →
      ∃ wc : World,
        reconcileOperatorOperand env1 registryInstance operand requestInstance wa
          = (.ok (),
             (requestInstance.SetUpdatingCondition sub.Name .ResourceTypeSub
               true).SetMemberStatus opt.Name OperatorUpdating, wc) ∧
        wc.cluster.subscriptionAt sub.key
          = some { sub with Spec := overwriteSpec sub.Spec opt } ∧
        ∀ (env2 : Env) (request2 : OperandRequest) (wd we : World),
          ¬ (opt.Scope = ScopePrivate ∧ request2.Namespace ≠ registryInstance.Namespace) →
          GetSubscription env2 wd opt.Name
            (GetOperatorNamespace opt.InstallMode opt.Namespace) opt.PackageName
            = ((some { sub with Spec := overwriteSpec sub.Spec opt }, none), we) →
          reconcileOperatorOperand env2 registryInstance operand request2 wd
            = (.ok (), request2, we) ∧ we.cluster = wd.cluster) := by
  have happroval := GetOperandRegistry_approval env w w1 key registryInstance operand.Name opt
    hreg hop
  refine ⟨fun spec => overwriteSpec_matches spec opt happroval, ?_⟩
  intro env1 req wa wb sub hscope hget howned hdiff hfail
  obtain ⟨hcl, hcases⟩ := GetSubscription_cases env1 wa opt.Name
    (GetOperatorNamespace opt.InstallMode opt.Namespace) opt.PackageName
  rw [hget] at hcl hcases
  have hstored : wb.cluster.subscriptionAt sub.key = some sub := by
    rcases hcases with ⟨s, hs, hat⟩ | ⟨e, hs, _⟩ | ⟨e, hs⟩
    · simp only [Prod.mk.injEq, Option.some.injEq, and_true] at hs
      subst hs
      rw [hcl]
      exact hat
    · simp at hs
    · simp at hs
  have hupd := updateSubscriptionObj_stored env1 wb sub
    { sub with Spec := overwriteSpec sub.Spec opt } hfail hstored
  refine ⟨(updateSubscriptionObj env1 wb { sub with Spec := overwriteSpec sub.Spec opt }).2,
    ?_, hupd.2, ?_⟩
  · unfold reconcileOperatorOperand
    simp only [hop]
    rw [if_neg hscope, hget]
    simp only [howned, hdiff, if_true]
    unfold updateSubscription
    rcases hu : updateSubscriptionObj env1 wb { sub with Spec := overwriteSpec sub.Spec opt }
      with ⟨r, wc⟩
    rw [hu] at hupd
    simp only at hupd
    rw [hupd.1]
  · intro env2 req2 wd we hscope2 hget2
    have hc2 := (GetSubscription_cases env2 wd opt.Name
      (GetOperatorNamespace opt.InstallMode opt.Namespace) opt.PackageName).1
    rw [hget2] at hc2
    refine ⟨?_, hc2⟩
    unfold reconcileOperatorOperand
    simp only [hop]
    rw [if_neg hscope2, hget2]
    simp only [(overwriteSpec_matches sub.Spec opt happroval).1]
    split <;> simp

/-- C8, at the `etcd` definition fetched with `registryA` and an owned Subscription with
a drifted spec: the step stores the overwritten spec, and a step over the result issues no
update. -/
theorem overwrite_converges_witness :
    compareSub (overwriteSpec driftedSpec etcdOperator) etcdOperator = false ∧
    (∃ wc : World,
      reconcileOperatorOperand Env.reliable registryA ⟨"etcd"⟩ requestGone
          (worldWith driftedSubscription)
        = (.ok (),
           (requestGone.SetUpdatingCondition "etcd" .ResourceTypeSub true).SetMemberStatus
             "etcd" OperatorUpdating, wc) ∧
      wc.cluster.subscriptionAt ⟨"etcd-ns", "etcd"⟩
        = some { driftedSubscription with Spec := overwriteSpec driftedSpec etcdOperator }) ∧
    reconcileOperatorOperand Env.reliable registryA ⟨"etcd"⟩ requestGone
        (worldWith { driftedSubscription with Spec := overwriteSpec driftedSpec etcdOperator })
      = (.ok (), requestGone,
          (worldWith
            { driftedSubscription with
                Spec := overwriteSpec driftedSpec etcdOperator }).record
            ⟨.get, .Subscription, ⟨"etcd-ns", "etcd"⟩⟩) := by
  have T := overwrite_converges Env.reliable (worldWith driftedSubscription) _ keyA
    registryA ⟨"etcd"⟩ etcdOperator (by rfl) (by decide)
  obtain ⟨wc, h1, h2, h3⟩ := T.2 Env.reliable requestGone (worldWith driftedSubscription) _
    driftedSubscription (by decide) (by rfl) (by decide) (by decide) (by rfl)
  exact ⟨(T.1 driftedSpec).1, ⟨wc, h1, h2⟩,
    (h3 Env.reliable requestGone
      (worldWith { driftedSubscription with Spec := overwriteSpec driftedSpec etcdOperator })
      _ (by decide) (by rfl)).1⟩

/-! ## Private operands -/

/-- C9. For a requested operand whose definition has scope private, in a Request living in
another namespace than the Registry, the operand step of `reconcileOperator` records the
out-of-scope condition for the operand, goes on with the next operand, and issues no call
at all: no lookup, no creation of a Namespace, OperatorGroup or Subscription, no update;
the store and the member list are unchanged. The condition stays recorded: whenever the
operand loop of an entry listing the operand runs to its end, the resulting Request
carries it. -/
theorem private_operand_out_of_scope (env : Env) (registryInstance : OperandRegistry)
    (operand : Operand) (requestInstance : OperandRequest) (w : World) (opt : Operator)
    (hop : registryInstance.GetOperator operand.Name = some opt)
    (hprivate : opt.Scope = ScopePrivate)
    (hns : requestInstance.Namespace ≠ registryInstance.Namespace) :
    (∃ req1 : OperandRequest,
      reconcileOperatorOperand env registryInstance operand requestInstance w
        = (.ok (), req1, w) ∧
      (⟨.ConditionOutofScope, operand.Name, .ResourceTypeSub, true⟩ : Condition)
        ∈ req1.Status.Conditions ∧
      req1.Status.Members = requestInstance.Status.Members) ∧
    (∀ (earlier later : List Operand) (req' : OperandRequest) (w' : World),
      reconcileOperatorOperands env registryInstance requestInstance w
          (earlier ++ operand :: later) = (.ok (), req', w') →
      (⟨.ConditionOutofScope, operand.Name, .ResourceTypeSub, true⟩ : Condition)
        ∈ req'.Status.Conditions) := by
  refine ⟨⟨requestInstance.SetOutofScopeCondition operand.Name .ResourceTypeSub true,
    ?_, ?_, ?_⟩, ?_⟩
  · exact reconcileOperatorOperand_private env registryInstance operand requestInstance w
      opt hop hprivate hns
  · exact setCondition_mem _ _
  · rfl
  · intro earlier later req' w' hloop
    exact (reconcileOperatorOperands_private env registryInstance requestInstance.Namespace
      hns (earlier ++ operand :: later) [] requestInstance req' w w'
      ⟨rfl, by simp⟩ hloop).2 operand (by simp) opt hop hprivate

/-- C9, for the private `etcd` definition requested from another namespace. -/
theorem private_operand_out_of_scope_witness :
    (∃ req1 : OperandRequest,
      reconcileOperatorOperand Env.reliable registryPrivate ⟨"etcd"⟩ requestElsewhere
          (worldWith etcdSubscription)
        = (.ok (), req1, worldWith etcdSubscription) ∧
      (⟨.ConditionOutofScope, "etcd", .ResourceTypeSub, true⟩ : Condition)
        ∈ req1.Status.Conditions ∧
      req1.Status.Members = requestElsewhere.Status.Members) ∧
    (∀ (earlier later : List Operand) (req' : OperandRequest) (w' : World),
      reconcileOperatorOperands Env.reliable registryPrivate requestElsewhere
          (worldWith etcdSubscription) (earlier ++ ⟨"etcd"⟩ :: later) = (.ok (), req', w') →
      (⟨.ConditionOutofScope, "etcd", .ResourceTypeSub, true⟩ : Condition)
        ∈ req'.Status.Conditions) :=
  private_operand_out_of_scope Env.reliable registryPrivate ⟨"etcd"⟩ requestElsewhere
    (worldWith etcdSubscription) privateOperator (by decide) (by decide) (by decide)

/-! ## Defaults of the Registry -/

theorem defaultOperator_defaulted (o : Operator) : Defaulted o (defaultOperator o) := by
  unfold Defaulted defaultOperator
  by_cases h1 : o.Scope = "" <;> by_cases h2 : o.InstallMode = "" <;>
    by_cases h3 : o.InstallPlanApproval = "" <;> simp [h1, h2, h3]

theorem defaultOperator_nonempty (o : Operator) :
    (defaultOperator o).Scope ≠ "" ∧ (defaultOperator o).InstallMode ≠ "" ∧
      (defaultOperator o).InstallPlanApproval ≠ "" := by
  obtain ⟨h1, h2, h3, _⟩ := defaultOperator_defaulted o
  rw [h1, h2, h3]
  refine ⟨?_, ?_, ?_⟩
  · split
    · decide
    · assumption
  · split
    · decide
    · assumption
  · split
    · decide
    · assumption

/-- C10. For a stored Registry whose fetch does not fail, `GetOperandRegistry` returns the
Registry with the same definitions in the same order, each with scope, installMode and
installPlanApproval equal to the stored value if non-empty and to private, namespace and
automatic otherwise, every other field unchanged; no returned definition has an empty
scope, installMode or installPlanApproval; the store is not written. -/
theorem registry_defaults (env : Env) (w : World) (key : NamespacedName)
    (reg : OperandRegistry)
    (hstored : w.cluster.registries.find? (fun r => r.key = key) = some reg)
    (hok : env.failure w ⟨.get, .OperandRegistry, key⟩ = none) :
    ∃ reg' : OperandRegistry,
      GetOperandRegistry env w key = (.ok reg', w.record ⟨.get, .OperandRegistry, key⟩) ∧
      reg'.Name = reg.Name ∧ reg'.Namespace = reg.Namespace ∧
      List.Forall₂ Defaulted reg.Operators reg'.Operators ∧
      (∀ o' ∈ reg'.Operators,
        o'.Scope ≠ "" ∧ o'.InstallMode ≠ "" ∧ o'.InstallPlanApproval ≠ "") ∧
      (w.record ⟨.get, .OperandRegistry, key⟩).cluster = w.cluster := by
  refine ⟨{ reg with Operators := reg.Operators.map defaultOperator }, ?_, rfl, rfl, ?_, ?_,
    rfl⟩
  · simp [GetOperandRegistry, clientGet_ok env w _ _ _ _ reg hok hstored]
  · simp only [List.forall₂_map_right_iff]
    exact List.forall₂_same.mpr (fun o _ => defaultOperator_defaulted o)
  · intro o' ho'
    simp only [List.mem_map] at ho'
    obtain ⟨o, _, rfl⟩ := ho'
    exact defaultOperator_nonempty o

/-- C10, for the Registry stored with unset fields. -/
theorem registry_defaults_witness :
    ∃ reg' : OperandRegistry,
      GetOperandRegistry Env.reliable worldUnset keyA
        = (.ok reg', worldUnset.record ⟨.get, .OperandRegistry, keyA⟩) ∧
      reg'.Name = registryUnset.Name ∧ reg'.Namespace = registryUnset.Namespace ∧
      List.Forall₂ Defaulted registryUnset.Operators reg'.Operators ∧
      (∀ o' ∈ reg'.Operators,
        o'.Scope ≠ "" ∧ o'.InstallMode ≠ "" ∧ o'.InstallPlanApproval ≠ "") ∧
      (worldUnset.record ⟨.get, .OperandRegistry, keyA⟩).cluster = worldUnset.cluster :=
  registry_defaults Env.reliable worldUnset keyA registryUnset (by decide) (by rfl)

theorem GetSubscription_calls (env : Env) (w : World) (name ns pkg : String) :
    ∀ c ∈ (GetSubscription env w name ns pkg).2.calls, c ∈ w.calls ∨ c.verb = .get := by
  have hrec : ∀ (w0 : World) (d : Call), d.verb = .get →
      (∀ c ∈ w0.calls, c ∈ w.calls ∨ c.verb = .get) →
      ∀ c ∈ (w0.record d).calls, c ∈ w.calls ∨ c.verb = .get := by
    intro w0 d hd h0 c hc
    simp only [World.record, List.mem_append, List.mem_singleton] at hc
    rcases hc with hc | rfl
    · exact h0 c hc
    · exact Or.inr hd
  have hw : ∀ c ∈ w.calls, c ∈ w.calls ∨ c.verb = .get := fun c hc => Or.inl hc
  unfold GetSubscription
  split
  · rename_i heq
    have := clientGet_world env w .Subscription w.cluster.subscriptions Subscription.key
      ⟨ns, name⟩
    rw [heq] at this
    simp only at this
    rw [this]
    exact hrec w _ rfl hw
  · rename_i w1 heq
    have h1 := clientGet_world env w .Subscription w.cluster.subscriptions Subscription.key
      ⟨ns, name⟩
    rw [heq] at h1
    simp only at h1
    split
    · rw [h1]
      exact hrec w _ rfl hw
    · have h2 := clientGet_world env w1 .Subscription w1.cluster.subscriptions
        Subscription.key ⟨ns, pkg⟩
      split
      · rename_i heq2
        rw [heq2] at h2
        simp only at h2
        rw [h2, h1]
        exact hrec _ _ rfl (hrec w _ rfl hw)
      · rename_i heq2
        rw [heq2] at h2
        simp only at h2
        rw [h2, h1]
        exact hrec _ _ rfl (hrec w _ rfl hw)

/-- C3. Let `S` be a Subscription without the ownership label, stored under `k`. Whatever
the definitions, the Request, the rest of the store and the calls that fail:
* a whole pass of `reconcileOperator`, each operand step of its orchestrator branch and
  each call of `deleteSubscription` leave `S` stored under `k` and issue no Update and no
  Delete on the Subscription under `k`;
* when the lookup of the operand step or of `deleteSubscription` finds `S`, the function
  returns success right after the lookup: the Request is unchanged, the store is unchanged
  (so no CSV is deleted either) and every call issued is a Get. -/
theorem foreign_subscription_untouched (env : Env) (k : NamespacedName) (S : Subscription)
    (hforeign : S.Labels.has OpreqLabel = false) :
    (∀ (requestInstance : OperandRequest) (w : World), Untouched k S w →
      Untouched k S (reconcileOperator env requestInstance w).2.2) ∧
    (∀ (registryInstance : OperandRegistry) (operand : Operand)
      (requestInstance : OperandRequest) (w : World), Untouched k S w →
      Untouched k S
        (reconcileOperatorOperand env registryInstance operand requestInstance w).2.2) ∧
    (∀ (operandName : String) (requestInstance : OperandRequest)
      (registryInstance : OperandRegistry) (w : World), Untouched k S w →
      Untouched k S
        (deleteSubscription env operandName requestInstance registryInstance w).2.2) ∧
    (∀ (registryInstance : OperandRegistry) (operand : Operand)
      (requestInstance : OperandRequest) (w w1 : World) (opt : Operator),
      registryInstance.GetOperator operand.Name = some opt →
      ¬ (opt.Scope = ScopePrivate ∧
          requestInstance.Namespace ≠ registryInstance.Namespace) →
      GetSubscription env w opt.Name (GetOperatorNamespace opt.InstallMode opt.Namespace)
        opt.PackageName = ((some S, none), w1) →
      reconcileOperatorOperand env registryInstance operand requestInstance w
          = (.ok (), requestInstance, w1) ∧
        w1.cluster = w.cluster ∧ ∀ c ∈ w1.calls, c ∈ w.calls ∨ c.verb = .get) ∧
    (∀ (operandName : String) (requestInstance : OperandRequest)
      (registryInstance : OperandRegistry) (w w1 : World) (op : Operator),
      registryInstance.GetOperator operandName = some op →
      GetSubscription env w operandName (GetOperatorNamespace op.InstallMode op.Namespace)
        op.PackageName = ((some S, none), w1) →
      deleteSubscription env operandName requestInstance registryInstance w
          = (.ok (), requestInstance, w1) ∧
        w1.cluster = w.cluster ∧ ∀ c ∈ w1.calls, c ∈ w.calls ∨ c.verb = .get) := by
  refine ⟨fun req w h => reconcileOperator_untouched hforeign env req w h,
    fun reg operand req w h => reconcileOperatorOperand_untouched hforeign env reg operand req w h,
    fun name req reg w h => deleteSubscription_untouched hforeign env name req reg w h,
    ?_, ?_⟩
  · intro reg operand req w w1 opt hop hscope hget
    have hc := (GetSubscription_cases env w opt.Name
      (GetOperatorNamespace opt.InstallMode opt.Namespace) opt.PackageName).1
    have hcalls := GetSubscription_calls env w opt.Name
      (GetOperatorNamespace opt.InstallMode opt.Namespace) opt.PackageName
    rw [hget] at hc hcalls
    refine ⟨?_, hc, hcalls⟩
    unfold reconcileOperatorOperand
    simp only [hop]
    rw [if_neg hscope, hget]
    simp [hforeign]
  · intro name req reg w w1 op hop hget
    have hc := (GetSubscription_cases env w name
      (GetOperatorNamespace op.InstallMode op.Namespace) op.PackageName).1
    have hcalls := GetSubscription_calls env w name
      (GetOperatorNamespace op.InstallMode op.Namespace) op.PackageName
    rw [hget] at hc hcalls
    refine ⟨?_, hc, hcalls⟩
    unfold deleteSubscription
    simp only [hop]
    rw [hget]
    simp [hforeign, IsNotFound]

/-- C3, for the drifted `etcd` Subscription without the ownership label: after a whole pass
that installs nothing and garbage-collects the recorded member `etcd`, the Subscription is
still stored and no Update or Delete was issued on it. -/
theorem foreign_subscription_untouched_witness :
    Untouched ⟨"etcd-ns", "etcd"⟩ foreignSubscription
      (reconcileOperator Env.reliable requestGone (worldWith foreignSubscription)).2.2 :=
  (foreign_subscription_untouched Env.reliable ⟨"etcd-ns", "etcd"⟩ foreignSubscription
    (by decide)).1 requestGone (worldWith foreignSubscription)
    ⟨by decide, by simp [worldWith]⟩

/-! ## Deleting an operand whose CSV is not resolved -/

theorem find_filter_self (l : List Subscription) (k : NamespacedName) :
    (l.filter (fun s => decide (s.key ≠ k))).find? (fun s => s.key = k) = none := by
  rw [List.find?_eq_none]
  intro s hs
  simp only [List.mem_filter, decide_eq_true_eq] at hs
  simpa using hs.2

theorem GetClusterServiceVersion_unresolved (env : Env) (w : World) (sub : Subscription)
    (h : Unresolved env w sub) :
    ∃ w2, GetClusterServiceVersion env w sub = (.ok none, w2) ∧ w2.cluster = w.cluster ∧
      ∀ c ∈ w2.calls, c ∈ w.calls ∨ c.verb = .get := by
  have hw : ∀ c ∈ w.calls, c ∈ w.calls ∨ c.verb = .get := fun c hc => Or.inl hc
  unfold GetClusterServiceVersion
  by_cases h1 : sub.Status.CurrentCSV = ""
  · exact ⟨w, by rw [if_pos h1], rfl, hw⟩
  · rw [if_neg h1]
    cases h2 : sub.Status.Install with
    | none => exact ⟨w, rfl, rfl, hw⟩
    | some u =>
      simp only
      rcases h with h | h | h | ⟨ipName, ip, href, hf, hfind, hc, hfl⟩
      · exact absurd h h1
      · rw [h2] at h
        exact absurd h (by simp)
      · rw [h]
        exact ⟨w, by simp, rfl, hw⟩
      · rw [href]
        simp only
        by_cases h3 : ipName = ""
        · exact ⟨w, by rw [if_pos h3], rfl, hw⟩
        · rw [if_neg h3, clientGet_ok env w _ _ _ _ ip hf hfind]
          simp only [if_neg hfl, if_pos hc]
          refine ⟨_, rfl, rfl, fun c hc' => ?_⟩
          simp only [World.record, List.mem_append, List.mem_singleton] at hc'
          rcases hc' with hc' | rfl
          · exact Or.inl hc'
          · exact Or.inr rfl

/-- C5, at the failing inputs. The owned Subscription of `etcd` references an install plan
that is still in phase `Installing`: `deleteSubscription` returns success, sweeps no custom
resource and deletes no CSV, but it deletes the Subscription, which is no longer stored
afterwards, instead of leaving the deletion to a later pass. The same happens to the owned
Subscription whose status names no CSV yet. -/
theorem pending_install_subscription_deleted :
    pendingSubscription.Labels.has OpreqLabel = true ∧
    worldPending.cluster.subscriptionAt ⟨"etcd-ns", "etcd"⟩ = some pendingSubscription ∧
    (deleteSubscription Env.reliable "etcd" requestGone registryA worldPending).1 = .ok () ∧
    (deleteSubscription Env.reliable "etcd" requestGone registryA worldPending).2.2.calls
      = [⟨.get, .Subscription, ⟨"etcd-ns", "etcd"⟩⟩,
         ⟨.get, .InstallPlan, ⟨"etcd-ns", "install-1"⟩⟩,
         ⟨.delete, .Subscription, ⟨"etcd-ns", "etcd"⟩⟩] ∧
    (deleteSubscription Env.reliable "etcd" requestGone registryA
      worldPending).2.2.cluster.subscriptionAt ⟨"etcd-ns", "etcd"⟩ = none ∧
    (deleteSubscription Env.reliable "etcd" requestGone registryA
      worldPending).2.2.cluster.csvs = worldPending.cluster.csvs ∧
    etcdSubscription.Labels.has OpreqLabel = true ∧
    etcdSubscription.Status.CurrentCSV = "" ∧
    (worldWith etcdSubscription).cluster.subscriptionAt ⟨"etcd-ns", "etcd"⟩
      = some etcdSubscription ∧
    (deleteSubscription Env.reliable "etcd" requestGone registryA
      (worldWith etcdSubscription)).1 = .ok () ∧
    (deleteSubscription Env.reliable "etcd" requestGone registryA
      (worldWith etcdSubscription)).2.2.calls
      = [⟨.get, .Subscription, ⟨"etcd-ns", "etcd"⟩⟩,
         ⟨.delete, .Subscription, ⟨"etcd-ns", "etcd"⟩⟩] ∧
    (deleteSubscription Env.reliable "etcd" requestGone registryA
      (worldWith etcdSubscription)).2.2.cluster.subscriptionAt ⟨"etcd-ns", "etcd"⟩ = none := by
  decide

/-- The extent of the defect of C4 and C5. For every owned Subscription found
by the lookup whose install plan cannot be resolved yet (empty current-CSV name, no install
reference, empty install-plan name) or whose install plan exists in a phase other than
Complete and Failed, `deleteSubscription` sweeps no custom resource and deletes no CSV:
every call before the last is a Get, and the CSVs of the store are unchanged. But the
deletion is not left to a later pass: the Delete of the Subscription is issued, and when
it does not fail the Subscription is removed from the store. -/
theorem unresolved_csv_deletes_subscription_only (env : Env) (operandName : String)
    (requestInstance : OperandRequest) (registryInstance : OperandRegistry) (w w1 : World)
    (op : Operator) (sub : Subscription)
    (hop : registryInstance.GetOperator operandName = some op)
    (hget : GetSubscription env w operandName
      (GetOperatorNamespace op.InstallMode op.Namespace) op.PackageName
        = ((some sub, none), w1))
    (howned : sub.Labels.has OpreqLabel = true)
    (hunresolved : Unresolved env w1 sub) :
    ∃ w2, GetClusterServiceVersion env w1 sub = (.ok none, w2) ∧
      (∀ c ∈ w2.calls, c ∈ w.calls ∨ c.verb = .get) ∧
      deleteSubscription env operandName requestInstance registryInstance w
        = deleteSubscriptionStep env op sub requestInstance w2 ∧
      (deleteSubscriptionStep env op sub requestInstance w2).2.2.calls
        = w2.calls ++ [⟨.delete, .Subscription, sub.key⟩] ∧
      (deleteSubscriptionStep env op sub requestInstance w2).2.2.cluster.csvs
        = w.cluster.csvs ∧
      (env.failure w2 ⟨.delete, .Subscription, sub.key⟩ = none →
        (deleteSubscriptionStep env op sub requestInstance w2).1 = .ok () ∧
        (deleteSubscriptionStep env op sub requestInstance w2).2.2.cluster.subscriptionAt
          sub.key = none) := by
  obtain ⟨w2, hcsv, hc2, hcalls2⟩ := GetClusterServiceVersion_unresolved env w1 sub hunresolved
  have hcases := GetSubscription_cases env w operandName
    (GetOperatorNamespace op.InstallMode op.Namespace) op.PackageName
  have hcalls1 := GetSubscription_calls env w operandName
    (GetOperatorNamespace op.InstallMode op.Namespace) op.PackageName
  rw [hget] at hcases hcalls1
  obtain ⟨hc1, hat⟩ := hcases
  have hstored : w.cluster.subscriptionAt sub.key = some sub := by
    rcases hat with ⟨sub', hs, hat⟩ | ⟨e, hs, _⟩ | ⟨e, hs⟩
    · simp only [Prod.mk.injEq, Option.some.injEq, and_true] at hs
      rw [← hs] at hat
      exact hat
    · simp at hs
    · simp at hs
  have hstored2 : w2.cluster.subscriptionAt sub.key = some sub := by
    rw [hc2, hc1]
    exact hstored
  refine ⟨w2, hcsv, ?_, ?_, ?_, ?_, ?_⟩
  · intro c hc
    rcases hcalls2 c hc with h | h
    · exact hcalls1 c h
    · exact Or.inr h
  · unfold deleteSubscription
    simp only [hop]
    rw [hget]
    simp only [IsNotFound, howned, hcsv]
    simp
  · unfold deleteSubscriptionStep deleteSubscriptionObj
    simp only [hstored2]
    cases env.failure w2 ⟨.delete, .Subscription, sub.key⟩ with
    | none => rfl
    | some e =>
      simp only [World.record]
      split <;> rfl
  · unfold deleteSubscriptionStep deleteSubscriptionObj
    simp only [hstored2]
    cases env.failure w2 ⟨.delete, .Subscription, sub.key⟩ with
    | none =>
      show w2.cluster.csvs = w.cluster.csvs
      rw [hc2, hc1]
    | some e =>
      simp only [World.record]
      split
      · show w2.cluster.csvs = w.cluster.csvs
        rw [hc2, hc1]
      · show w2.cluster.csvs = w.cluster.csvs
        rw [hc2, hc1]
  · intro hf
    unfold deleteSubscriptionStep deleteSubscriptionObj
    simp only [hf, hstored2]
    exact ⟨trivial, find_filter_self _ _⟩

/-- The extent of the defect, for the owned `etcd` Subscription with an empty current-CSV
name. -/
theorem unresolved_csv_deletes_subscription_only_witness :
    ∃ w2, GetClusterServiceVersion Env.reliable
        ((worldWith etcdSubscription).record ⟨.get, .Subscription, ⟨"etcd-ns", "etcd"⟩⟩)
        etcdSubscription = (.ok none, w2) ∧
      (∀ c ∈ w2.calls, c ∈ (worldWith etcdSubscription).calls ∨ c.verb = .get) ∧
      deleteSubscription Env.reliable "etcd" requestGone registryA
          (worldWith etcdSubscription)
        = deleteSubscriptionStep Env.reliable etcdOperator etcdSubscription requestGone w2 ∧
      (deleteSubscriptionStep Env.reliable etcdOperator etcdSubscription requestGone
          w2).2.2.calls
        = w2.calls ++ [⟨.delete, .Subscription, etcdSubscription.key⟩] ∧
      (deleteSubscriptionStep Env.reliable etcdOperator etcdSubscription requestGone
          w2).2.2.cluster.csvs
        = (worldWith etcdSubscription).cluster.csvs ∧
      (Env.reliable.failure w2 ⟨.delete, .Subscription, etcdSubscription.key⟩ = none →
        (deleteSubscriptionStep Env.reliable etcdOperator etcdSubscription requestGone
          w2).1 = .ok () ∧
        (deleteSubscriptionStep Env.reliable etcdOperator etcdSubscription requestGone
          w2).2.2.cluster.subscriptionAt etcdSubscription.key = none) :=
  unresolved_csv_deletes_subscription_only Env.reliable "etcd" requestGone registryA
    (worldWith etcdSubscription) _ etcdOperator etcdSubscription
    (by decide) (by rfl) (by decide) (Or.inl (by decide))

/-! ## The do-not-uninstall label -/

/-- C4, at the failing input: the owned Subscription of `etcd` carries the do-not-uninstall
label with value `true` and its status names no CSV yet; `deleteSubscription` deletes it,
and so does the whole pass of `reconcileOperator` for a Request that no longer lists
`etcd`. -/
theorem do_not_uninstall_ignored_without_csv :
    keptSubscription.Labels.has OpreqLabel = true ∧
    keptSubscription.Labels.value NotUninstallLabel = "true" ∧
    (worldWith keptSubscription).cluster.subscriptionAt ⟨"etcd-ns", "etcd"⟩
      = some keptSubscription ∧
    (deleteSubscription Env.reliable "etcd" requestGone registryA
      (worldWith keptSubscription)).1 = .ok () ∧
    (deleteSubscription Env.reliable "etcd" requestGone registryA
      (worldWith keptSubscription)).2.2.calls
      = [⟨.get, .Subscription, ⟨"etcd-ns", "etcd"⟩⟩,
         ⟨.delete, .Subscription, ⟨"etcd-ns", "etcd"⟩⟩] ∧
    (deleteSubscription Env.reliable "etcd" requestGone registryA
      (worldWith keptSubscription)).2.2.cluster.subscriptionAt ⟨"etcd-ns", "etcd"⟩ = none ∧
    (reconcileOperator Env.reliable requestGone (worldWith keptSubscription)).1 = .ok () ∧
    (reconcileOperator Env.reliable requestGone
      (worldWith keptSubscription)).2.2.cluster.subscriptions = [] := by
  decide

theorem fetchClusterServiceVersion_cluster (env : Env) (w : World) (ns name : String) :
    (fetchClusterServiceVersion env w ns name).2.cluster = w.cluster := by
  unfold fetchClusterServiceVersion
  have h1 := clientGet_cluster env w .ClusterServiceVersion w.cluster.csvs
    ClusterServiceVersion.key ⟨ns, name⟩
  split
  · rename_i heq
    rw [heq] at h1
    split <;> exact h1
  · rename_i heq
    rw [heq] at h1
    exact h1

theorem GetClusterServiceVersion_cluster (env : Env) (w : World) (sub : Subscription) :
    (GetClusterServiceVersion env w sub).2.cluster = w.cluster := by
  unfold GetClusterServiceVersion
  split
  · rfl
  · split
    · rfl
    · split
      · rfl
      · rename_i ipName _
        split
        · rfl
        · have h1 := clientGet_cluster env w .InstallPlan w.cluster.installPlans
            InstallPlan.key ⟨sub.Namespace, ipName⟩
          split
          · rename_i heq
            rw [heq] at h1
            split
            · exact h1
            · exact (fetchClusterServiceVersion_cluster env _ _ _).trans h1
          · rename_i heq
            rw [heq] at h1
            split
            · exact (fetchClusterServiceVersion_cluster env _ _ _).trans h1
            · split
              · exact h1
              · exact (fetchClusterServiceVersion_cluster env _ _ _).trans h1

theorem deleteAllCustomResource_cluster (env : Env) (w : World)
    (csv : ClusterServiceVersion) :
    (deleteAllCustomResource env w csv).2.cluster = w.cluster := by
  unfold deleteAllCustomResource
  split <;> rfl

theorem checkUninstallLabel_cluster (env : Env) (w : World) (name ns : String) :
    (checkUninstallLabel env w name ns).2.cluster = w.cluster := by
  unfold checkUninstallLabel
  have h1 := clientGet_cluster env w .Subscription w.cluster.subscriptions
    Subscription.key ⟨ns, name⟩
  split
  · rename_i heq
    rw [heq] at h1
    exact h1
  · rename_i heq
    rw [heq] at h1
    exact h1

theorem checkUninstallLabel_kept (env : Env) (w : World) (name ns : String)
    (sub : Subscription) (hstored : w.cluster.subscriptionAt ⟨ns, name⟩ = some sub)
    (hkeep : sub.Labels.value NotUninstallLabel = "true") :
    (checkUninstallLabel env w name ns).1 = true := by
  unfold checkUninstallLabel
  split
  · rfl
  · rename_i sub' w1 heq
    have hf := clientGet_found env w w1 _ _ _ _ _ heq
    unfold Cluster.subscriptionAt at hstored
    rw [hstored] at hf
    simp only [Option.some.injEq] at hf
    rw [← hf, hkeep]
    rfl

/-- Where the do-not-uninstall label is honoured: when the Subscription stored under the
operand's name carries the label with value `true`, `deleteSubscription` leaves the whole
store as it is, whichever calls fail, unless the lookup returns an owned Subscription for
which `GetClusterServiceVersion` resolves no CSV. -/
theorem do_not_uninstall_kept_unless_unresolved (env : Env) (operandName : String)
    (requestInstance : OperandRequest) (registryInstance : OperandRegistry) (w : World)
    (op : Operator) (sub : Subscription)
    (hop : registryInstance.GetOperator operandName = some op)
    (hstored : w.cluster.subscriptionAt
      ⟨GetOperatorNamespace op.InstallMode op.Namespace, operandName⟩ = some sub)
    (hkeep : sub.Labels.value NotUninstallLabel = "true") :
    (deleteSubscription env operandName requestInstance registryInstance w).2.2.cluster
        = w.cluster ∨
    ∃ sub' w1 w2,
      GetSubscription env w operandName (GetOperatorNamespace op.InstallMode op.Namespace)
        op.PackageName = ((some sub', none), w1) ∧
      sub'.Labels.has OpreqLabel = true ∧
      GetClusterServiceVersion env w1 sub' = (.ok none, w2) := by
  have hname : op.Name = operandName := by
    have := List.find?_some hop
    simpa using this
  unfold deleteSubscription
  simp only [hop]
  have hcases := GetSubscription_cases env w operandName
    (GetOperatorNamespace op.InstallMode op.Namespace) op.PackageName
  generalize hg : GetSubscription env w operandName
    (GetOperatorNamespace op.InstallMode op.Namespace) op.PackageName = g at hcases
  obtain ⟨⟨osub, err⟩, w1⟩ := g
  obtain ⟨hc1, hat⟩ := hcases
  simp only at hc1 hat ⊢
  split
  · exact Or.inl hc1
  · rename_i hnf
    split
    · exact Or.inl hc1
    · rename_i sub'
      split
      · exact Or.inl hc1
      · rename_i howned
        simp only [Bool.not_eq_true, Bool.not_eq_false'] at howned
        have herr : err = none := by
          rcases hat with ⟨s, hs, _⟩ | ⟨e, hs, _⟩ | ⟨e, hs⟩
          · simp only [Prod.mk.injEq] at hs
            exact hs.2
          · simp at hs
          · simp only [Prod.mk.injEq, Option.some.injEq] at hs
            rw [hs.1] at howned
            exact absurd howned (by decide)
        have hc2 := GetClusterServiceVersion_cluster env w1 sub'
        split
        · rename_i heq2
          rw [heq2] at hc2
          exact Or.inl (hc2.trans hc1)
        · rename_i heq2
          rw [heq2] at hc2
          exact Or.inl (hc2.trans hc1)
        · rename_i w2 heq2
          exact Or.inr ⟨sub', w1, w2, by rw [herr], by simpa using howned, heq2⟩
        · rename_i csv w2 heq2
          rw [heq2] at hc2
          have hc3 := deleteAllCustomResource_cluster env w2 csv
          split
          · rename_i heq3
            rw [heq3] at hc3
            exact Or.inl ((hc3.trans hc2).trans hc1)
          · rename_i w3 heq3
            rw [heq3] at hc3
            have hw3 : w3.cluster = w.cluster := (hc3.trans hc2).trans hc1
            have hc4 := checkUninstallLabel_cluster env w3 op.Name
              (GetOperatorNamespace op.InstallMode op.Namespace)
            have hk := checkUninstallLabel_kept env w3 op.Name
              (GetOperatorNamespace op.InstallMode op.Namespace) sub
              (by rw [hw3, hname]; exact hstored) hkeep
            split
            · rename_i heq4
              rw [heq4] at hc4
              exact Or.inl (hc4.trans hw3)
            · rename_i heq4
              rw [heq4] at hk
              exact absurd hk (by simp)

/-! ## The objects generated for a definition -/

/-- C11. For every operator definition `o`, `generateClusterObjects o` yields a
Subscription named `o.Name`, placed in the cluster sentinel namespace when `o.InstallMode`
is cluster and in `o.Namespace` otherwise, whose Channel, Package, CatalogSource,
CatalogSourceNamespace and InstallPlanApproval are those of `o`; a Namespace object named
`o.Namespace`; and the ownership label set to `true` on the Namespace, the OperatorGroup
and the Subscription. -/
theorem generated_objects (o : Operator) :
    (generateClusterObjects o).subscription.Name = o.Name ∧
    (generateClusterObjects o).subscription.Namespace
      = (if o.InstallMode = InstallModeCluster then ClusterOperatorNamespace
         else o.Namespace) ∧
    (generateClusterObjects o).subscription.Spec.Channel = o.Channel ∧
    (generateClusterObjects o).subscription.Spec.Package = o.PackageName ∧
    (generateClusterObjects o).subscription.Spec.CatalogSource = o.SourceName ∧
    (generateClusterObjects o).subscription.Spec.CatalogSourceNamespace = o.SourceNamespace ∧
    (generateClusterObjects o).subscription.Spec.InstallPlanApproval
      = o.InstallPlanApproval ∧
    (generateClusterObjects o).namespace_.Name = o.Namespace ∧
    (generateClusterObjects o).namespace_.Labels.lookup OpreqLabel = some "true" ∧
    (generateClusterObjects o).operatorGroup.Labels.lookup OpreqLabel = some "true" ∧
    (generateClusterObjects o).subscription.Labels.lookup OpreqLabel = some "true" := by
  simp [generateClusterObjects, generateOperatorGroup, GetOperatorNamespace]

/-- C12. For every namespace `n` and target-namespace list `t`, `generateOperatorGroup` places
the OperatorGroup in `n`; its TargetNamespaces are `[n]` when the list is unset (nil) and
the list itself, unchanged, when it is set, also when it is set and empty. -/
theorem operator_group_targets (n : String) (t : List String) :
    (generateOperatorGroup n none).Namespace = n ∧
    (generateOperatorGroup n (some t)).Namespace = n ∧
    (generateOperatorGroup n none).TargetNamespaces = [n] ∧
    (generateOperatorGroup n (some t)).TargetNamespaces = t ∧
    (generateOperatorGroup n (some [])).TargetNamespaces = [] := by
  simp [generateOperatorGroup]


/-! ## A Request without entries -/

theorem patchFindOperandRegistry_world (env : Env) (req : OperandRequest) (w : World)
    (v : String) :
    (patchFindOperandRegistry env req w v).2.calls
      = w.calls ++ [⟨.patch, .OperandRequest, req.key⟩] ∧
    (patchFindOperandRegistry env req w v).2.cluster.subscriptions = w.cluster.subscriptions ∧
    (patchFindOperandRegistry env req w v).2.cluster.operatorGroups
      = w.cluster.operatorGroups ∧
    (patchFindOperandRegistry env req w v).2.cluster.namespaces = w.cluster.namespaces ∧
    (patchFindOperandRegistry env req w v).2.cluster.csvs = w.cluster.csvs := by
  unfold patchFindOperandRegistry clientPatch
  cases env.failure w ⟨.patch, .OperandRequest, req.key⟩ with
  | some e => simp [World.record]
  | none =>
    cases List.find? (fun r => decide (r.key = req.key)) w.cluster.requests with
    | none => simp [World.record]
    | some r => simp

/-- After the patch the instance is the one passed in, or the stored Request with the
annotation set: its entries are those of one of the two. -/
theorem patchFindOperandRegistry_requests (env : Env) (req : OperandRequest) (w : World)
    (v : String) :
    (patchFindOperandRegistry env req w v).1.Requests = req.Requests ∨
    ∃ r, w.cluster.requests.find? (fun r => r.key = req.key) = some r ∧
      (patchFindOperandRegistry env req w v).1.Requests = r.Requests := by
  unfold patchFindOperandRegistry clientPatch
  cases env.failure w ⟨.patch, .OperandRequest, req.key⟩ with
  | some e => simp
  | none =>
    cases hfind : List.find? (fun r => decide (r.key = req.key)) w.cluster.requests with
    | none => simp
    | some r => exact Or.inr ⟨r, rfl, rfl⟩

/-- C17, as stated, fails. The Request being reconciled has no entries, while the Request
stored under its key still has the entry of `registry-a` and records `etcd` as a member.
The patch of the marker annotation succeeds and leaves the instance with the stored
entries and status, so the garbage collection runs over them: the CSV and the Subscription
of `etcd` are deleted. -/
theorem empty_request_deletes_for_stored_entries :
    requestEmpty.Requests = [] ∧
    worldInstalled.cluster.requests.find? (fun r => r.key = requestEmpty.key)
      = some requestGone ∧
    worldInstalled.cluster.subscriptionAt ⟨"etcd-ns", "etcd"⟩ = some pendingSubscription ∧
    worldInstalled.cluster.csvAt ⟨"etcd-ns", "etcd.v1"⟩ = some ⟨"etcd.v1", "etcd-ns"⟩ ∧
    (reconcileOperator Env.reliable requestEmpty worldInstalled).1 = .ok () ∧
    (reconcileOperator Env.reliable requestEmpty worldInstalled).2.2.cluster.subscriptionAt
      ⟨"etcd-ns", "etcd"⟩ = none ∧
    (reconcileOperator Env.reliable requestEmpty worldInstalled).2.2.cluster.csvAt
      ⟨"etcd-ns", "etcd.v1"⟩ = none ∧
    (⟨.delete, .Subscription, ⟨"etcd-ns", "etcd"⟩⟩ : Call)
      ∈ (reconcileOperator Env.reliable requestEmpty worldInstalled).2.2.calls := by
  decide

/-- C17, amended. For every Request whose list of entries is empty, whatever its recorded
member list and the calls that fail, and for every store in which the Request stored under
the same key, if there is one, has no entries either (as when the store holds the Request
being reconciled): `reconcileOperator` returns success; the only call it issues is the
patch of the marker annotation on the Request, so no Namespace, OperatorGroup,
Subscription or CSV is created, updated or deleted (nothing is installed and nothing is
garbage-collected); and the resulting member list is empty. -/
theorem empty_request_is_noop (env : Env) (requestInstance : OperandRequest) (w : World)
    (hempty : requestInstance.Requests = [])
    (hstored : ∀ r, w.cluster.requests.find? (fun r => r.key = requestInstance.key) = some r →
      r.Requests = []) :
    (reconcileOperator env requestInstance w).1 = .ok () ∧
    (reconcileOperator env requestInstance w).2.2.calls
      = w.calls ++ [⟨.patch, .OperandRequest, requestInstance.key⟩] ∧
    (reconcileOperator env requestInstance w).2.2.cluster.namespaces = w.cluster.namespaces ∧
    (reconcileOperator env requestInstance w).2.2.cluster.operatorGroups
      = w.cluster.operatorGroups ∧
    (reconcileOperator env requestInstance w).2.2.cluster.subscriptions
      = w.cluster.subscriptions ∧
    (reconcileOperator env requestInstance w).2.2.cluster.csvs = w.cluster.csvs ∧
    (reconcileOperator env requestInstance w).2.1.Status.Members = [] := by
  obtain ⟨h3, h4, h5, h6, h7⟩ :=
    patchFindOperandRegistry_world env requestInstance w "false"
  have hr : (patchFindOperandRegistry env requestInstance w "false").1.Requests = [] := by
    rcases patchFindOperandRegistry_requests env requestInstance w "false" with h | ⟨r, hf, h⟩
    · rw [h, hempty]
    · rw [h]
      exact hstored r hf
  have hbody : reconcileOperatorBody env requestInstance w
      = (.ok (), (patchFindOperandRegistry env requestInstance w "false").1,
          (patchFindOperandRegistry env requestInstance w "false").2) := by
    unfold reconcileOperatorBody
    rw [hempty]
    simp only [reconcileOperatorRequests]
    unfold absentOperatorsAndOperands getNeedDeletedOperands getCurrentOperands
    simp only [hr, getCurrentOperandsLoop, absentLoop]
  unfold reconcileOperator
  rw [hbody]
  refine ⟨rfl, h3, h6, h5, h4, h7, ?_⟩
  simp [OperandRequest.UpdateClusterPhase, OperandRequest.FreshMemberStatus, hr]

/-- C17, amended, for the Request without entries that still records `etcd` as a member,
in a store that holds this Request and the installed `etcd` Subscription. -/
theorem empty_request_is_noop_witness :
    (reconcileOperator Env.reliable requestEmpty worldEmpty).1 = .ok () ∧
    (reconcileOperator Env.reliable requestEmpty worldEmpty).2.2.calls
      = worldEmpty.calls ++ [⟨.patch, .OperandRequest, requestEmpty.key⟩] ∧
    (reconcileOperator Env.reliable requestEmpty worldEmpty).2.2.cluster.namespaces
      = worldEmpty.cluster.namespaces ∧
    (reconcileOperator Env.reliable requestEmpty worldEmpty).2.2.cluster.operatorGroups
      = worldEmpty.cluster.operatorGroups ∧
    (reconcileOperator Env.reliable requestEmpty worldEmpty).2.2.cluster.subscriptions
      = worldEmpty.cluster.subscriptions ∧
    (reconcileOperator Env.reliable requestEmpty worldEmpty).2.2.cluster.csvs
      = worldEmpty.cluster.csvs ∧
    (reconcileOperator Env.reliable requestEmpty worldEmpty).2.1.Status.Members = [] :=
  empty_request_is_noop Env.reliable requestEmpty worldEmpty (by decide)
    (fun r h => by
      have h2 : some requestEmpty = some r := h
      cases h2
      rfl)

/-! ## Looking a Subscription up -/

theorem clientGet_absent {α : Type} (env : Env) (w : World) (kind : Kind) (objs : List α)
    (keyOf : α → NamespacedName) (key : NamespacedName)
    (hf : env.failure w ⟨.get, kind, key⟩ = none)
    (ho : objs.find? (fun x => keyOf x = key) = none) :
    clientGet env w kind objs keyOf key = (.error .NotFound, w.record ⟨.get, kind, key⟩) := by
  simp [clientGet, hf, ho]

theorem clientGet_fails {α : Type} (env : Env) (w : World) (kind : Kind) (objs : List α)
    (keyOf : α → NamespacedName) (key : NamespacedName) (e : ApiError)
    (hf : env.failure w ⟨.get, kind, key⟩ = some e) :
    clientGet env w kind objs keyOf key = (.error e, w.record ⟨.get, kind, key⟩) := by
  simp [clientGet, hf]

/-- C18. `GetSubscription`, for every store, name, namespace and package name:
* when the lookup by name does not fail and a Subscription is stored under
  (namespace, name), it is returned, after that one lookup;
* when neither lookup fails and none is stored under (namespace, name), the Subscription
  stored under (namespace, packageName) is returned when there is one, and the error is
  `NotFound` when there is none;
* when neither lookup fails, the error is `NotFound` if and only if no Subscription is
  stored under either key;
* a failure of the first lookup other than `NotFound` is returned as it is, with a nil
  Subscription, and the fallback is not attempted: the only call issued is the first. -/
theorem subscription_lookup (env : Env) (w : World) (name ns pkg : String) :
    (env.failure w ⟨.get, .Subscription, ⟨ns, name⟩⟩ = none →
      ∀ sub, w.cluster.subscriptionAt ⟨ns, name⟩ = some sub →
        GetSubscription env w name ns pkg
          = ((some sub, none), w.record ⟨.get, .Subscription, ⟨ns, name⟩⟩)) ∧
    (env.failure w ⟨.get, .Subscription, ⟨ns, name⟩⟩ = none →
      env.failure (w.record ⟨.get, .Subscription, ⟨ns, name⟩⟩)
        ⟨.get, .Subscription, ⟨ns, pkg⟩⟩ = none →
      w.cluster.subscriptionAt ⟨ns, name⟩ = none →
      (∀ sub, w.cluster.subscriptionAt ⟨ns, pkg⟩ = some sub →
        GetSubscription env w name ns pkg
          = ((some sub, none),
              (w.record ⟨.get, .Subscription, ⟨ns, name⟩⟩).record
                ⟨.get, .Subscription, ⟨ns, pkg⟩⟩)) ∧
      (w.cluster.subscriptionAt ⟨ns, pkg⟩ = none →
        (GetSubscription env w name ns pkg).1.2 = some (.single (.api .NotFound)))) ∧
    (env.failure w ⟨.get, .Subscription, ⟨ns, name⟩⟩ = none →
      env.failure (w.record ⟨.get, .Subscription, ⟨ns, name⟩⟩)
        ⟨.get, .Subscription, ⟨ns, pkg⟩⟩ = none →
      (IsNotFound (GetSubscription env w name ns pkg).1.2 = true ↔
        w.cluster.subscriptionAt ⟨ns, name⟩ = none ∧
          w.cluster.subscriptionAt ⟨ns, pkg⟩ = none)) ∧
    (∀ e, env.failure w ⟨.get, .Subscription, ⟨ns, name⟩⟩ = some e → e ≠ .NotFound →
      GetSubscription env w name ns pkg
        = ((none, some (.single (.api e))),
            w.record ⟨.get, .Subscription, ⟨ns, name⟩⟩)) := by
  have hfirst : env.failure w ⟨.get, .Subscription, ⟨ns, name⟩⟩ = none →
      ∀ sub, w.cluster.subscriptionAt ⟨ns, name⟩ = some sub →
        GetSubscription env w name ns pkg
          = ((some sub, none), w.record ⟨.get, .Subscription, ⟨ns, name⟩⟩) :=
    fun hf sub hs => GetSubscription_byName env w name ns pkg sub hf hs
  have hsecond : env.failure w ⟨.get, .Subscription, ⟨ns, name⟩⟩ = none →
      env.failure (w.record ⟨.get, .Subscription, ⟨ns, name⟩⟩)
        ⟨.get, .Subscription, ⟨ns, pkg⟩⟩ = none →
      w.cluster.subscriptionAt ⟨ns, name⟩ = none →
      (∀ sub, w.cluster.subscriptionAt ⟨ns, pkg⟩ = some sub →
        GetSubscription env w name ns pkg
          = ((some sub, none),
              (w.record ⟨.get, .Subscription, ⟨ns, name⟩⟩).record
                ⟨.get, .Subscription, ⟨ns, pkg⟩⟩)) ∧
      (w.cluster.subscriptionAt ⟨ns, pkg⟩ = none →
        (GetSubscription env w name ns pkg).1.2 = some (.single (.api .NotFound))) := by
    intro hf1 hf2 hnone
    unfold Cluster.subscriptionAt at hnone
    have h1 := clientGet_absent env w .Subscription w.cluster.subscriptions
      Subscription.key ⟨ns, name⟩ hf1 hnone
    constructor
    · intro sub hs
      unfold Cluster.subscriptionAt at hs
      have h2 := clientGet_ok env (w.record ⟨.get, .Subscription, ⟨ns, name⟩⟩)
        .Subscription w.cluster.subscriptions Subscription.key ⟨ns, pkg⟩ sub hf2 hs
      unfold GetSubscription
      rw [h1]
      simp only [IsNotFound, Bool.not_true, Bool.false_eq_true, if_false]
      rw [show (w.record ⟨.get, .Subscription, ⟨ns, name⟩⟩).cluster.subscriptions
        = w.cluster.subscriptions from rfl, h2]
    · intro hs
      unfold Cluster.subscriptionAt at hs
      have h2 := clientGet_absent env (w.record ⟨.get, .Subscription, ⟨ns, name⟩⟩)
        .Subscription w.cluster.subscriptions Subscription.key ⟨ns, pkg⟩ hf2 hs
      unfold GetSubscription
      rw [h1]
      simp only [IsNotFound, Bool.not_true, Bool.false_eq_true, if_false]
      rw [show (w.record ⟨.get, .Subscription, ⟨ns, name⟩⟩).cluster.subscriptions
        = w.cluster.subscriptions from rfl, h2]
  refine ⟨hfirst, hsecond, ?_, ?_⟩
  · intro hf1 hf2
    cases h1 : w.cluster.subscriptionAt ⟨ns, name⟩ with
    | some sub =>
      rw [hfirst hf1 sub h1]
      simp [IsNotFound]
    | none =>
      obtain ⟨ha, hb⟩ := hsecond hf1 hf2 h1
      cases h2 : w.cluster.subscriptionAt ⟨ns, pkg⟩ with
      | some sub =>
        rw [ha sub h2]
        simp [IsNotFound]
      | none =>
        rw [hb h2]
        simp [IsNotFound]
  · intro e hf hne
    unfold GetSubscription
    rw [clientGet_fails env w _ _ _ _ e hf]
    cases e <;> simp_all [IsNotFound]

/-- C18, for the owned `etcd` Subscription stored under its name. -/
theorem subscription_lookup_witness :
    GetSubscription Env.reliable (worldWith etcdSubscription) "etcd" "etcd-ns" "etcd-pkg"
      = ((some etcdSubscription, none),
          (worldWith etcdSubscription).record ⟨.get, .Subscription, ⟨"etcd-ns", "etcd"⟩⟩) :=
  (subscription_lookup Env.reliable (worldWith etcdSubscription) "etcd" "etcd-ns"
    "etcd-pkg").1 (by rfl) etcdSubscription (by decide)

/-! ## The order of the deletions -/

theorem csv_find_filter_self (l : List ClusterServiceVersion) (k : NamespacedName) :
    (l.filter (fun s => decide (s.key ≠ k))).find? (fun s => s.key = k) = none := by
  rw [List.find?_eq_none]
  intro s hs
  simp only [List.mem_filter, decide_eq_true_eq] at hs
  simpa using hs.2

theorem deleteCsvObj_facts (env : Env) (w : World) (csv : ClusterServiceVersion) :
    (deleteCsvObj env w csv).2.calls
      = w.calls ++ [⟨.delete, .ClusterServiceVersion, csv.key⟩] ∧
    (deleteCsvObj env w csv).2.cluster.subscriptions = w.cluster.subscriptions ∧
    ((deleteCsvObj env w csv).1 = none →
      (deleteCsvObj env w csv).2.cluster.csvAt csv.key = none) := by
  unfold deleteCsvObj
  cases env.failure w ⟨.delete, .ClusterServiceVersion, csv.key⟩ with
  | some e => simp [World.record]
  | none =>
    cases h : w.cluster.csvAt csv.key with
    | none => simp [World.record]
    | some c =>
      refine ⟨rfl, rfl, fun _ => ?_⟩
      exact csv_find_filter_self _ _

theorem deleteSubscriptionObj_calls (env : Env) (w : World) (sub : Subscription) :
    (deleteSubscriptionObj env w sub).2.calls
      = w.calls ++ [⟨.delete, .Subscription, sub.key⟩] := by
  unfold deleteSubscriptionObj
  cases env.failure w ⟨.delete, .Subscription, sub.key⟩ with
  | some e => rfl
  | none =>
    cases h : w.cluster.subscriptionAt sub.key with
    | none => rfl
    | some c => rfl

/-- C15. In `deleteSubscription`, when the lookup found an owned Subscription, a CSV was
resolved, the custom-resource sweep succeeded and no opt-out applies:
* if deleting the CSV fails, an error wrapping that failure is returned, the only call
  issued after the opt-out test is the CSV Delete, and the Subscriptions of the store are
  unchanged;
* if the CSV is deleted, it is no longer stored, the Delete of the Subscription is the call
  issued right after the Delete of the CSV, a `NotFound` from it yields success, any other
  failure of it is returned as an error, and its success yields success. -/
theorem csv_deleted_before_subscription (env : Env) (operandName : String)
    (requestInstance : OperandRequest) (registryInstance : OperandRegistry)
    (w w1 w2 w3 w4 : World) (op : Operator) (sub : Subscription)
    (csv : ClusterServiceVersion)
    (hop : registryInstance.GetOperator operandName = some op)
    (hget : GetSubscription env w operandName
      (GetOperatorNamespace op.InstallMode op.Namespace) op.PackageName
        = ((some sub, none), w1))
    (howned : sub.Labels.has OpreqLabel = true)
    (hcsv : GetClusterServiceVersion env w1 sub = (.ok (some csv), w2))
    (hsweep : deleteAllCustomResource env w2 csv = (none, w3))
    (hopt : checkUninstallLabel env w3 op.Name
      (GetOperatorNamespace op.InstallMode op.Namespace) = (false, w4)) :
    (∀ e w5, deleteCsvObj env w4 csv = (some e, w5) →
      deleteSubscription env operandName requestInstance registryInstance w
        = (.error (.single (.wrap e "failed to delete the ClusterServiceVersion")),
            (requestInstance.SetDeletingCondition csv.Name .ResourceTypeCsv
              true).SetDeletingCondition csv.Name .ResourceTypeCsv false, w5) ∧
      w5.calls = w4.calls ++ [⟨.delete, .ClusterServiceVersion, csv.key⟩] ∧
      w5.cluster.subscriptions = w.cluster.subscriptions) ∧
    (∀ w5, deleteCsvObj env w4 csv = (none, w5) →
      w5.cluster.csvAt csv.key = none ∧
      deleteSubscription env operandName requestInstance registryInstance w
        = deleteSubscriptionStep env op sub
            (requestInstance.SetDeletingCondition csv.Name .ResourceTypeCsv true) w5 ∧
      (deleteSubscription env operandName requestInstance registryInstance w).2.2.calls
        = w4.calls ++ [⟨.delete, .ClusterServiceVersion, csv.key⟩,
            ⟨.delete, .Subscription, sub.key⟩] ∧
      (∀ e w6, deleteSubscriptionObj env w5 sub = (some e, w6) →
        (e = .NotFound →
          (deleteSubscription env operandName requestInstance registryInstance w).1
            = .ok ()) ∧
        (e ≠ .NotFound →
          (deleteSubscription env operandName requestInstance registryInstance w).1
            = .error (.single (.wrap e "failed to delete subscription")))) ∧
      (∀ w6, deleteSubscriptionObj env w5 sub = (none, w6) →
        (deleteSubscription env operandName requestInstance registryInstance w).1
          = .ok ())) := by
  have hA : ∀ e w5, deleteCsvObj env w4 csv = (some e, w5) →
      deleteSubscription env operandName requestInstance registryInstance w
        = (.error (.single (.wrap e "failed to delete the ClusterServiceVersion")),
            (requestInstance.SetDeletingCondition csv.Name .ResourceTypeCsv
              true).SetDeletingCondition csv.Name .ResourceTypeCsv false, w5) := by
    intro e w5 hdel
    unfold deleteSubscription
    simp only [hop]
    rw [hget]
    simp only [IsNotFound, howned, hcsv, hsweep, hopt, hdel]
    simp
  have hB : ∀ w5, deleteCsvObj env w4 csv = (none, w5) →
      deleteSubscription env operandName requestInstance registryInstance w
        = deleteSubscriptionStep env op sub
            (requestInstance.SetDeletingCondition csv.Name .ResourceTypeCsv true) w5 := by
    intro w5 hdel
    unfold deleteSubscription
    simp only [hop]
    rw [hget]
    simp only [IsNotFound, howned, hcsv, hsweep, hopt, hdel]
    simp
  have hc1 := (GetSubscription_cases env w operandName
    (GetOperatorNamespace op.InstallMode op.Namespace) op.PackageName).1
  have hc2 := GetClusterServiceVersion_cluster env w1 sub
  have hc3 := deleteAllCustomResource_cluster env w2 csv
  have hc4 := checkUninstallLabel_cluster env w3 op.Name
    (GetOperatorNamespace op.InstallMode op.Namespace)
  rw [hget] at hc1
  rw [hcsv] at hc2
  rw [hsweep] at hc3
  rw [hopt] at hc4
  simp only at hc1 hc2 hc3 hc4
  have hw4 : w4.cluster = w.cluster := ((hc4.trans hc3).trans hc2).trans hc1
  obtain ⟨hd1, hd2, hd3⟩ := deleteCsvObj_facts env w4 csv
  constructor
  · intro e w5 hdel
    rw [hdel] at hd1 hd2
    exact ⟨hA e w5 hdel, hd1, by rw [hd2, hw4]⟩
  · intro w5 hdel
    rw [hdel] at hd1 hd3
    simp only at hd1 hd3
    have hstep : deleteSubscription env operandName requestInstance registryInstance w
        = deleteSubscriptionStep env op sub
            (requestInstance.SetDeletingCondition csv.Name .ResourceTypeCsv true) w5 :=
      hB w5 hdel
    have hcalls := deleteSubscriptionObj_calls env w5 sub
    refine ⟨hd3 trivial, hstep, ?_, ?_, ?_⟩
    · rw [hstep]
      unfold deleteSubscriptionStep
      simp only
      split
      · rename_i heq
        rw [heq] at hcalls
        split
        · simp only
          rw [hcalls, hd1, List.append_assoc]
          rfl
        · simp only
          rw [hcalls, hd1, List.append_assoc]
          rfl
      · rename_i heq
        rw [heq] at hcalls
        simp only
        rw [hcalls, hd1, List.append_assoc]
        rfl
    · intro e w6 hsub
      rw [hstep]
      unfold deleteSubscriptionStep
      simp only [hsub]
      constructor
      · rintro rfl
        simp [IsNotFound]
      · intro hne
        cases e <;> simp_all [IsNotFound]
    · intro w6 hsub
      rw [hstep]
      unfold deleteSubscriptionStep
      simp only [hsub]

/-- C15, for the installed `etcd` Subscription: its CSV is deleted, then the Subscription,
and the call succeeds. -/
theorem csv_deleted_before_subscription_witness :
    (deleteSubscription Env.reliable "etcd" requestGone registryA worldInstalled).1 = .ok () :=
  ((csv_deleted_before_subscription Env.reliable "etcd" requestGone registryA worldInstalled
    _ _ _ _ etcdOperator pendingSubscription ⟨"etcd.v1", "etcd-ns"⟩
    (by decide) (by rfl) (by decide) (by rfl) (by rfl) (by rfl)).2 _ (by rfl)).2.2.2.2 _
      (by rfl)

/-! ## A failing lookup in `deleteSubscription` -/

/-- C16, at the failing inputs. When the lookup by name fails with an internal error,
`GetSubscription` returns a nil Subscription and `deleteSubscription` dereferences it; so
does the whole pass of `reconcileOperator` for a Request that no longer lists `etcd`. When
the lookup by name reports `NotFound` and the fallback lookup by package name fails with an
internal error, `deleteSubscription` returns success and the error is lost. -/
theorem failed_lookup_not_returned :
    (GetSubscription (Env.failing ⟨.get, .Subscription, ⟨"etcd-ns", "etcd"⟩⟩ .Internal)
      worldInstalled "etcd" "etcd-ns" "etcd-pkg").1
      = (none, some (.single (.api .Internal))) ∧
    (deleteSubscription (Env.failing ⟨.get, .Subscription, ⟨"etcd-ns", "etcd"⟩⟩ .Internal)
      "etcd" requestGone registryA worldInstalled).1 = .nilDereference ∧
    (reconcileOperator (Env.failing ⟨.get, .Subscription, ⟨"etcd-ns", "etcd"⟩⟩ .Internal)
      requestGone worldInstalled).1 = .nilDereference ∧
    (GetSubscription (Env.failing ⟨.get, .Subscription, ⟨"etcd-ns", "etcd-pkg"⟩⟩ .Internal)
      (worldWith jenkinsSubscription) "etcd" "etcd-ns" "etcd-pkg").1
      = (some emptySubscription, some (.single (.api .Internal))) ∧
    deleteSubscription (Env.failing ⟨.get, .Subscription, ⟨"etcd-ns", "etcd-pkg"⟩⟩ .Internal)
        "etcd" requestGone registryA (worldWith jenkinsSubscription)
      = (.ok (), requestGone,
          ((worldWith jenkinsSubscription).record
            ⟨.get, .Subscription, ⟨"etcd-ns", "etcd"⟩⟩).record
            ⟨.get, .Subscription, ⟨"etcd-ns", "etcd-pkg"⟩⟩) := by
  decide

/-! ## A failing creation -/

theorem SetMemberStatus_recorded (r : OperandRequest) (name phase : String) :
    ∃ m ∈ (r.SetMemberStatus name phase).Status.Members, m.Name = name ∧ m.Phase = phase := by
  unfold OperandRequest.SetMemberStatus
  simp only
  split
  · rename_i h
    simp only [List.any_eq_true, decide_eq_true_eq] at h
    obtain ⟨d, hd, hn⟩ := h
    refine ⟨{ d with Phase := phase }, ?_, hn, rfl⟩
    simp only [List.mem_map]
    exact ⟨d, hd, by simp [hn]⟩
  · exact ⟨⟨name, phase⟩, by simp, rfl, rfl⟩

theorem reconcileOperatorOperands_append (env : Env) (reg : OperandRegistry)
    (xs ys : List Operand) (req req1 : OperandRequest) (w w1 : World)
    (h : reconcileOperatorOperands env reg req w xs = (.ok (), req1, w1)) :
    reconcileOperatorOperands env reg req w (xs ++ ys)
      = reconcileOperatorOperands env reg req1 w1 ys := by
  induction xs generalizing req w with
  | nil =>
    simp only [reconcileOperatorOperands, Prod.mk.injEq, true_and] at h
    obtain ⟨rfl, rfl⟩ := h
    rfl
  | cons x rest ih =>
    simp only [reconcileOperatorOperands, List.cons_append] at h ⊢
    split
    · rename_i heq
      rw [heq] at h
      exact ih _ _ h
    · rename_i heq
      rw [heq] at h
      simp at h
    · rename_i heq
      rw [heq] at h
      simp at h

theorem reconcileOperatorRequests_append (env : Env)
    (xs ys : List Request) (req req1 : OperandRequest) (w w1 : World)
    (h : reconcileOperatorRequests env req w xs = (.ok (), req1, w1)) :
    reconcileOperatorRequests env req w (xs ++ ys)
      = reconcileOperatorRequests env req1 w1 ys := by
  induction xs generalizing req w with
  | nil =>
    simp only [reconcileOperatorRequests, Prod.mk.injEq, true_and] at h
    obtain ⟨rfl, rfl⟩ := h
    rfl
  | cons x rest ih =>
    simp only [reconcileOperatorRequests, List.cons_append] at h ⊢
    rcases hreg : GetOperandRegistry env w (req.GetRegistryKey x) with ⟨r, w2⟩
    rw [hreg] at h
    cases r with
    | error e =>
      simp only at h
      by_cases hnf : IsNotFound (some (GoError.single (OpError.api e))) = true
      · rw [if_pos hnf] at h
        simp at h
      · rw [if_neg hnf] at h
        simp at h
    | ok reg =>
      simp only at h ⊢
      rcases hops : reconcileOperatorOperands env reg req w2 x.Operands with ⟨r2, req2, w3⟩
      rw [hops] at h
      cases r2 with
      | ok u =>
        simp only at h ⊢
        exact ih _ _ h
      | error e => simp at h
      | nilDereference => simp at h

theorem reconcileOperator_of_loop_error (env : Env) (req reqF : OperandRequest)
    (w wF : World) (e : GoError)
    (h : reconcileOperatorRequests env req w req.Requests = (.error e, reqF, wF)) :
    reconcileOperator env req w
      = (.error e, (reqF.FreshMemberStatus).UpdateClusterPhase env, wF) := by
  unfold reconcileOperator reconcileOperatorBody
  rw [h]

/-- C13, as stated, fails: `requestPair` asks for `etcd` and then `jenkins`; creating the
Subscription of `etcd` fails with an internal error. `reconcileOperator` records `etcd` as
Failed and returns the error, and the pass ends there: no call is issued for `jenkins`,
which is not installed, although a pass without the failure installs it. -/
theorem create_failure_stops_later_operands :
    (reconcileOperator
      (Env.failing ⟨.create, .Subscription, ⟨"etcd-ns", "etcd"⟩⟩ .Internal)
      requestPair worldPair).1 = .error (.single (.api .Internal)) ∧
    (reconcileOperator
      (Env.failing ⟨.create, .Subscription, ⟨"etcd-ns", "etcd"⟩⟩ .Internal)
      requestPair worldPair).2.1.Status.Members = [⟨"etcd", OperatorFailed⟩] ∧
    ((reconcileOperator
      (Env.failing ⟨.create, .Subscription, ⟨"etcd-ns", "etcd"⟩⟩ .Internal)
      requestPair worldPair).2.2.calls.filter
        (fun c => decide (c.key.Namespace = "jenkins-ns" ∨ c.key.Name = "jenkins-ns"))) = [] ∧
    (reconcileOperator
      (Env.failing ⟨.create, .Subscription, ⟨"etcd-ns", "etcd"⟩⟩ .Internal)
      requestPair worldPair).2.2.cluster.subscriptions = [] ∧
    (reconcileOperator Env.reliable requestPair worldPair).2.2.cluster.subscriptionAt
      ⟨"jenkins-ns", "jenkins"⟩ = some (generateClusterObjects jenkinsOperator).subscription := by
  decide

theorem IsAlreadyExists_of_ne (a : ApiError) (h : a ≠ .AlreadyExists) :
    IsAlreadyExists a = false := by
  cases a <;> simp_all [IsAlreadyExists]

theorem createSubscription_reaches (env : Env) (cr : OperandRequest) (opt : Operator)
    (w wS : World) (h : ReachesSubscriptionCreate env opt w wS) :
    createSubscription env cr opt w
      = createSubscriptionStep env cr (generateClusterObjects opt).subscription wS := by
  unfold createSubscription
  rcases h with ⟨hns, rfl⟩ | ⟨hns, existOG, w2, hlist, h⟩
  · simp only [afterNamespaceStep]
    simp [hns]
  · simp only [afterNamespaceStep] at hlist
    simp only [hlist]
    rcases h with ⟨hne, rfl⟩ | ⟨rfl, hog | hog⟩
    · have : existOG.length ≠ 0 := by simpa using hne
      simp [hns, this]
    · simp [hns, hog]
    · simp [hns, hog, IsAlreadyExists]

theorem createSubscription_listFails (env : Env) (cr : OperandRequest) (opt : Operator)
    (w w2 : World) (a : ApiError)
    (hns : GetOperatorNamespace opt.InstallMode opt.Namespace ≠ ClusterOperatorNamespace)
    (hlist : listOperatorGroups env (afterNamespaceStep env opt w)
      (generateClusterObjects opt).operatorGroup.Namespace = (.error a, w2)) :
    createSubscription env cr opt w = (some (.single (.api a)), cr, w2) := by
  unfold createSubscription
  simp only [afterNamespaceStep] at hlist
  simp only [hlist]
  simp [hns]

theorem createSubscription_groupFails (env : Env) (cr : OperandRequest) (opt : Operator)
    (w w2 w3 : World) (a : ApiError)
    (hns : GetOperatorNamespace opt.InstallMode opt.Namespace ≠ ClusterOperatorNamespace)
    (hlist : listOperatorGroups env (afterNamespaceStep env opt w)
      (generateClusterObjects opt).operatorGroup.Namespace = (.ok [], w2))
    (hog : createOperatorGroupObj env w2 (generateClusterObjects opt).operatorGroup
      = (some a, w3))
    (ha : a ≠ .AlreadyExists) :
    createSubscription env cr opt w = (some (.single (.api a)), cr, w3) := by
  unfold createSubscription
  simp only [afterNamespaceStep] at hlist
  simp only [hlist, hog, IsAlreadyExists_of_ne a ha]
  simp [hns]

theorem createSubscriptionStep_fails (env : Env) (cr : OperandRequest) (sub : Subscription)
    (w w1 : World) (a : ApiError)
    (h : createSubscriptionObj env w sub = (some a, w1)) (ha : a ≠ .AlreadyExists) :
    createSubscriptionStep env cr sub w
      = (some (.single (.api a)),
          (cr.SetCreatingCondition sub.Name .ResourceTypeSub true).SetCreatingCondition
            sub.Name .ResourceTypeSub false, w1) := by
  unfold createSubscriptionStep
  simp only [h, IsAlreadyExists_of_ne a ha]
  simp

theorem createSubscriptionStep_succeeds (env : Env) (cr : OperandRequest)
    (sub : Subscription) (w w1 : World) (r : Option ApiError)
    (h : createSubscriptionObj env w sub = (r, w1))
    (hr : r = none ∨ r = some .AlreadyExists) :
    createSubscriptionStep env cr sub w
      = (none, cr.SetCreatingCondition sub.Name .ResourceTypeSub true, w1) := by
  unfold createSubscriptionStep
  rcases hr with rfl | rfl
  · simp only [h]
  · simp only [h, IsAlreadyExists]
    simp

theorem reconcileOperatorOperand_createFails (env : Env) (reg : OperandRegistry)
    (operand : Operand) (req req1 : OperandRequest) (w w1 w2 : World) (opt : Operator)
    (osub : Option Subscription) (err e : GoError)
    (hop : reg.GetOperator operand.Name = some opt)
    (hscope : ¬ (opt.Scope = ScopePrivate ∧ req.Namespace ≠ reg.Namespace))
    (hget : GetSubscription env w opt.Name (GetOperatorNamespace opt.InstallMode opt.Namespace)
      opt.PackageName = ((osub, some err), w1))
    (hnf : IsNotFound (some err) = true)
    (hcreate : createSubscription env req opt w1 = (some e, req1, w2)) :
    reconcileOperatorOperand env reg operand req w
      = (.error e, req1.SetMemberStatus opt.Name OperatorFailed, w2) := by
  unfold reconcileOperatorOperand
  simp only [hop]
  rw [if_neg hscope, hget]
  simp only [hnf, hcreate, if_true]

theorem reconcileOperatorOperand_created (env : Env) (reg : OperandRegistry)
    (operand : Operand) (req req1 : OperandRequest) (w w1 w2 : World) (opt : Operator)
    (osub : Option Subscription) (err : GoError)
    (hop : reg.GetOperator operand.Name = some opt)
    (hscope : ¬ (opt.Scope = ScopePrivate ∧ req.Namespace ≠ reg.Namespace))
    (hget : GetSubscription env w opt.Name (GetOperatorNamespace opt.InstallMode opt.Namespace)
      opt.PackageName = ((osub, some err), w1))
    (hnf : IsNotFound (some err) = true)
    (hcreate : createSubscription env req opt w1 = (none, req1, w2)) :
    reconcileOperatorOperand env reg operand req w
      = (.ok (), req1.SetMemberStatus opt.Name OperatorInstalling, w2) := by
  unfold reconcileOperatorOperand
  simp only [hop]
  rw [if_neg hscope, hget]
  simp only [hnf, hcreate, if_true]

theorem reconcileOperator_of_step_error (env : Env) (requestStart : OperandRequest)
    (wStart : World) (reg : OperandRegistry) (operand : Operand)
    (req reqF : OperandRequest) (w wF : World) (e : GoError)
    (hreached : ReachedAt env requestStart wStart reg operand req w)
    (hstep : reconcileOperatorOperand env reg operand req w = (.error e, reqF, wF)) :
    reconcileOperator env requestStart wStart
      = (.error e, (reqF.FreshMemberStatus).UpdateClusterPhase env, wF) := by
  obtain ⟨req0, w0, w0', earlierE, laterE, entry, earlier, later, hreqs, hearlierE, hreg,
    hops, hearlier⟩ := hreached
  apply reconcileOperator_of_loop_error
  rw [hreqs, reconcileOperatorRequests_append env _ _ _ _ _ _ hearlierE]
  simp only [reconcileOperatorRequests, hreg, hops]
  rw [reconcileOperatorOperands_append env reg _ _ _ _ _ _ hearlier]
  simp only [reconcileOperatorOperands, hstep]

/-- C13, amended. Take the step of a requested operand that the pass of `reconcileOperator`
gets to and whose lookup reports `NotFound`, so that `createSubscription` runs. When the
listing of the OperatorGroups fails, when the creation of the OperatorGroup fails with an
error other than AlreadyExists, or when the creation of the Subscription fails with an
error other than AlreadyExists, the step records phase Failed for the operand and returns
the error, and `reconcileOperator` returns that error in the world the failed call left:
no later operand of the Request, in the same or a later entry, is reconciled in that pass,
and the garbage collection is not run. When the creation of the Subscription succeeds or
answers AlreadyExists, after an OperatorGroup creation that was not needed, succeeded or
answered AlreadyExists, the step goes on with the next operand, the operand recorded as
Installing in the Request it hands on. -/
theorem create_failure_aborts_pass (env : Env) (requestStart : OperandRequest)
    (wStart : World) (registryInstance : OperandRegistry) (operand : Operand)
    (requestInstance : OperandRequest) (w w1 : World) (opt : Operator)
    (osub : Option Subscription) (err : GoError)
    (hreached : ReachedAt env requestStart wStart registryInstance operand requestInstance w)
    (hop : registryInstance.GetOperator operand.Name = some opt)
    (hscope : ¬ (opt.Scope = ScopePrivate ∧
      requestInstance.Namespace ≠ registryInstance.Namespace))
    (hget : GetSubscription env w opt.Name
      (GetOperatorNamespace opt.InstallMode opt.Namespace) opt.PackageName
        = ((osub, some err), w1))
    (hnf : IsNotFound (some err) = true) :
    (∀ (a : ApiError) (w2 : World),
      GetOperatorNamespace opt.InstallMode opt.Namespace ≠ ClusterOperatorNamespace →
      listOperatorGroups env (afterNamespaceStep env opt w1)
        (generateClusterObjects opt).operatorGroup.Namespace = (.error a, w2) →
      reconcileOperatorOperand env registryInstance operand requestInstance w
        = (.error (.single (.api a)),
            requestInstance.SetMemberStatus opt.Name OperatorFailed, w2) ∧
      reconcileOperator env requestStart wStart
        = (.error (.single (.api a)),
            ((requestInstance.SetMemberStatus opt.Name
              OperatorFailed).FreshMemberStatus).UpdateClusterPhase env, w2)) ∧
    (∀ (a : ApiError) (w2 w3 : World),
      GetOperatorNamespace opt.InstallMode opt.Namespace ≠ ClusterOperatorNamespace →
      listOperatorGroups env (afterNamespaceStep env opt w1)
        (generateClusterObjects opt).operatorGroup.Namespace = (.ok [], w2) →
      createOperatorGroupObj env w2 (generateClusterObjects opt).operatorGroup
        = (some a, w3) →
      a ≠ .AlreadyExists →
      reconcileOperatorOperand env registryInstance operand requestInstance w
        = (.error (.single (.api a)),
            requestInstance.SetMemberStatus opt.Name OperatorFailed, w3) ∧
      reconcileOperator env requestStart wStart
        = (.error (.single (.api a)),
            ((requestInstance.SetMemberStatus opt.Name
              OperatorFailed).FreshMemberStatus).UpdateClusterPhase env, w3)) ∧
    (∀ (a : ApiError) (wS w2 : World),
      ReachesSubscriptionCreate env opt w1 wS →
      createSubscriptionObj env wS (generateClusterObjects opt).subscription
        = (some a, w2) →
      a ≠ .AlreadyExists →
      reconcileOperatorOperand env registryInstance operand requestInstance w
        = (.error (.single (.api a)),
            ((requestInstance.SetCreatingCondition
                (generateClusterObjects opt).subscription.Name .ResourceTypeSub
                true).SetCreatingCondition
                (generateClusterObjects opt).subscription.Name .ResourceTypeSub
                false).SetMemberStatus opt.Name OperatorFailed, w2) ∧
      reconcileOperator env requestStart wStart
        = (.error (.single (.api a)),
            ((((requestInstance.SetCreatingCondition
                (generateClusterObjects opt).subscription.Name .ResourceTypeSub
                true).SetCreatingCondition
                (generateClusterObjects opt).subscription.Name .ResourceTypeSub
                false).SetMemberStatus opt.Name
              OperatorFailed).FreshMemberStatus).UpdateClusterPhase env, w2)) ∧
    (∀ (r : Option ApiError) (wS w2 : World),
      ReachesSubscriptionCreate env opt w1 wS →
      createSubscriptionObj env wS (generateClusterObjects opt).subscription = (r, w2) →
      r = none ∨ r = some .AlreadyExists →
      reconcileOperatorOperand env registryInstance operand requestInstance w
        = (.ok (),
            (requestInstance.SetCreatingCondition
              (generateClusterObjects opt).subscription.Name .ResourceTypeSub
              true).SetMemberStatus opt.Name OperatorInstalling, w2)) ∧
    (∀ (r : OperandRequest) (phase : String),
      ∃ m ∈ (r.SetMemberStatus opt.Name phase).Status.Members,
        m.Name = opt.Name ∧ m.Phase = phase) := by
  refine ⟨?_, ?_, ?_, ?_, fun r phase => SetMemberStatus_recorded r opt.Name phase⟩
  · intro a w2 hns hlist
    have hstep := reconcileOperatorOperand_createFails env registryInstance operand
      requestInstance _ w w1 w2 opt osub err _ hop hscope hget hnf
      (createSubscription_listFails env requestInstance opt w1 w2 a hns hlist)
    exact ⟨hstep, reconcileOperator_of_step_error env requestStart wStart registryInstance
      operand requestInstance _ w w2 _ hreached hstep⟩
  · intro a w2 w3 hns hlist hog ha
    have hstep := reconcileOperatorOperand_createFails env registryInstance operand
      requestInstance _ w w1 w3 opt osub err _ hop hscope hget hnf
      (createSubscription_groupFails env requestInstance opt w1 w2 w3 a hns hlist hog ha)
    exact ⟨hstep, reconcileOperator_of_step_error env requestStart wStart registryInstance
      operand requestInstance _ w w3 _ hreached hstep⟩
  · intro a wS w2 hreach hsub ha
    have hstep := reconcileOperatorOperand_createFails env registryInstance operand
      requestInstance _ w w1 w2 opt osub err _ hop hscope hget hnf
      ((createSubscription_reaches env requestInstance opt w1 wS hreach).trans
        (createSubscriptionStep_fails env requestInstance _ wS w2 a hsub ha))
    exact ⟨hstep, reconcileOperator_of_step_error env requestStart wStart registryInstance
      operand requestInstance _ w w2 _ hreached hstep⟩
  · intro r wS w2 hreach hsub hr
    exact reconcileOperatorOperand_created env registryInstance operand
      requestInstance _ w w1 w2 opt osub err hop hscope hget hnf
      ((createSubscription_reaches env requestInstance opt w1 wS hreach).trans
        (createSubscriptionStep_succeeds env requestInstance _ wS w2 r hsub hr))

/-- C13, amended, for `requestPair`, whose first operand is `etcd`: once with the creation
of the Subscription failing, once with the creation of the OperatorGroup failing. -/
theorem create_failure_aborts_pass_witness :
    (reconcileOperator
      (Env.failing ⟨.create, .Subscription, ⟨"etcd-ns", "etcd"⟩⟩ .Internal)
      requestPair worldPair).1 = .error (.single (.api .Internal)) ∧
    (reconcileOperator
      (Env.failing ⟨.create, .OperatorGroup,
        (generateClusterObjects etcdOperator).operatorGroup.key⟩ .Conflict)
      requestPair worldPair).1 = .error (.single (.api .Conflict)) :=
  ⟨congrArg Prod.fst
    ((create_failure_aborts_pass
      (Env.failing ⟨.create, .Subscription, ⟨"etcd-ns", "etcd"⟩⟩ .Internal)
      requestPair worldPair registryBoth ⟨"etcd"⟩ requestPair _ _ etcdOperator
      (some emptySubscription) (.single (.api .NotFound))
      ⟨requestPair, worldPair, _, [], [], ⟨"registry-a", "", [⟨"etcd"⟩, ⟨"jenkins"⟩]⟩, [],
        [⟨"jenkins"⟩], rfl, rfl, rfl, rfl, rfl⟩
      (by decide) (by decide) (by rfl) (by rfl)).2.2.1 .Internal _ _
      (Or.inr ⟨by decide, [], _, by rfl, Or.inr ⟨rfl, Or.inl (by rfl)⟩⟩)
      (by rfl) (by decide)).2,
   congrArg Prod.fst
    ((create_failure_aborts_pass
      (Env.failing ⟨.create, .OperatorGroup,
        (generateClusterObjects etcdOperator).operatorGroup.key⟩ .Conflict)
      requestPair worldPair registryBoth ⟨"etcd"⟩ requestPair _ _ etcdOperator
      (some emptySubscription) (.single (.api .NotFound))
      ⟨requestPair, worldPair, _, [], [], ⟨"registry-a", "", [⟨"etcd"⟩, ⟨"jenkins"⟩]⟩, [],
        [⟨"jenkins"⟩], rfl, rfl, rfl, rfl, rfl⟩
      (by decide) (by decide) (by rfl) (by rfl)).2.1 .Conflict _ _
      (by decide) (by rfl) (by rfl) (by decide)).2⟩

/-! ## Collecting the failures of the deletions -/

theorem multiErrAdd_append (merr : List OpError) (e : GoError) :
    multiErrAdd merr e = merr ++ multiErrAdd [] e := by
  cases e <;> simp [multiErrAdd]

theorem attemptAll_length (env : Env) (reg : OperandRegistry) (names : List String)
    (req : OperandRequest) (w : World) :
    (attemptAll env reg req w names).1.length = names.length := by
  induction names generalizing req w with
  | nil => rfl
  | cons o rest ih => simp [attemptAll, ih]

theorem deleteOperands_eq_attemptAll (env : Env) (reg : OperandRegistry)
    (names : List String) (merr : List OpError) (req : OperandRequest) (w : World)
    (hno : ∀ r ∈ (attemptAll env reg req w names).1, r ≠ .nilDereference) :
    deleteOperands env reg merr req w names
      = (.ok (merr ++ failuresOf (attemptAll env reg req w names).1),
          (attemptAll env reg req w names).2) := by
  induction names generalizing merr req w with
  | nil => simp [deleteOperands, attemptAll, failuresOf]
  | cons o rest ih =>
    simp only [attemptAll, List.mem_cons, forall_eq_or_imp] at hno
    obtain ⟨h1, h2⟩ := hno
    simp only [deleteOperands, attemptAll]
    rcases hds : deleteSubscription env o req reg w with ⟨r, req1, w1⟩
    rw [hds] at h1 h2
    simp only at h1 h2 ⊢
    cases r with
    | ok u =>
      simp only [failuresOf]
      exact ih _ _ _ h2
    | error e =>
      simp only [failuresOf]
      rw [ih _ _ _ h2, multiErrAdd_append, List.append_assoc]
    | nilDereference => exact absurd rfl h1

theorem fetchClusterServiceVersion_error (env : Env) (w : World) (ns name : String)
    (e : GoError) (h : (fetchClusterServiceVersion env w ns name).1 = .error e) :
    ∃ x, e = .single x := by
  unfold fetchClusterServiceVersion at h
  split at h
  · split at h
    · simp at h
    · simp only [Result.error.injEq] at h
      exact ⟨_, h.symm⟩
  · simp at h

theorem GetClusterServiceVersion_error (env : Env) (w : World) (sub : Subscription)
    (e : GoError) (h : (GetClusterServiceVersion env w sub).1 = .error e) :
    ∃ x, e = .single x := by
  unfold GetClusterServiceVersion at h
  split at h
  · simp at h
  · split at h
    · simp at h
    · split at h
      · simp at h
      · split at h
        · simp at h
        · split at h
          · split at h
            · simp only [Result.error.injEq] at h
              exact ⟨_, h.symm⟩
            · exact fetchClusterServiceVersion_error env _ _ _ e h
          · split at h
            · exact fetchClusterServiceVersion_error env _ _ _ e h
            · split at h
              · simp at h
              · exact fetchClusterServiceVersion_error env _ _ _ e h

theorem deleteSubscriptionStep_error (env : Env) (op : Operator) (sub : Subscription)
    (req : OperandRequest) (w : World) (e : GoError)
    (h : (deleteSubscriptionStep env op sub req w).1 = .error e) : ∃ x, e = .single x := by
  unfold deleteSubscriptionStep at h
  simp only at h
  split at h
  · split at h
    · simp at h
    · simp only [Result.error.injEq] at h
      exact ⟨_, h.symm⟩
  · simp at h

theorem deleteAllCustomResource_error (env : Env) (w : World) (csv : ClusterServiceVersion)
    (e : GoError) (h : (deleteAllCustomResource env w csv).1 = some e) :
    ∃ x, e = .single x := by
  unfold deleteAllCustomResource at h
  split at h
  · simp only [Option.some.injEq] at h
    exact ⟨_, h.symm⟩
  · simp at h

theorem deleteSubscription_error (env : Env) (operandName : String) (req : OperandRequest)
    (reg : OperandRegistry) (w : World) (e : GoError)
    (h : (deleteSubscription env operandName req reg w).1 = .error e) :
    ∃ x, e = .single x := by
  unfold deleteSubscription at h
  split at h
  · simp at h
  · rename_i op _
    simp only at h
    split at h
    · simp at h
    · split at h
      · simp at h
      · rename_i sub _
        split at h
        · simp at h
        · have hcsv := GetClusterServiceVersion_error env
            (GetSubscription env w operandName
              (GetOperatorNamespace op.InstallMode op.Namespace) op.PackageName).2 sub
          split at h
          · simp at h
          · rename_i e' w2 heq
            simp only [Result.error.injEq] at h
            rw [heq] at hcsv
            exact hcsv e (by rw [h])
          · exact deleteSubscriptionStep_error env _ _ _ _ e h
          · rename_i csv w2 heq
            have hsw := deleteAllCustomResource_error env w2 csv
            split at h
            · rename_i e' w3 heq3
              simp only [Result.error.injEq] at h
              rw [heq3] at hsw
              exact hsw e (by rw [h])
            · split at h
              · simp at h
              · split at h
                · simp only [Result.error.injEq] at h
                  exact ⟨_, h.symm⟩
                · exact deleteSubscriptionStep_error env _ _ _ _ e h

theorem attemptAll_errors_single (env : Env) (reg : OperandRegistry) (names : List String)
    (req : OperandRequest) (w : World) :
    ∀ e, Result.error e ∈ (attemptAll env reg req w names).1 → ∃ x, e = .single x := by
  induction names generalizing req w with
  | nil => simp [attemptAll]
  | cons o rest ih =>
    intro e he
    simp only [attemptAll, List.mem_cons] at he
    rcases he with he | he
    · exact deleteSubscription_error env o req reg w e he.symm
    · exact ih _ _ e he

theorem failuresOf_eq_nil (outcomes : List (Result Unit))
    (hsingle : ∀ e, Result.error e ∈ outcomes → ∃ x, e = .single x) :
    failuresOf outcomes = [] ↔ ∀ e, Result.error e ∉ outcomes := by
  induction outcomes with
  | nil => simp [failuresOf]
  | cons r rest ih =>
    have hrest : ∀ e, Result.error e ∈ rest → ∃ x, e = .single x :=
      fun e he => hsingle e (List.mem_cons_of_mem _ he)
    cases r with
    | ok u =>
      simp only [failuresOf, ih hrest, List.mem_cons, not_or]
      constructor
      · intro h e
        exact ⟨by simp, h e⟩
      · intro h e
        exact (h e).2
    | nilDereference =>
      simp only [failuresOf, ih hrest, List.mem_cons, not_or]
      constructor
      · intro h e
        exact ⟨by simp, h e⟩
      · intro h e
        exact (h e).2
    | error e =>
      obtain ⟨x, rfl⟩ := hsingle e (List.mem_cons_self _ _)
      simp only [failuresOf, multiErrAdd, List.nil_append, List.singleton_append]
      constructor
      · intro h
        exact absurd h (by simp)
      · intro h
        exact absurd (List.mem_cons_self _ _) (h (.single x))

/-- C14, as stated, fails: `requestBoth` references two Registries, the first defining
`etcd`, the second `jenkins`; both are to be deleted, and the Delete of the `etcd`
Subscription fails. `absentOperatorsAndOperands` returns the collected error after the
first Registry: the second Registry is never fetched, no call is issued on the `jenkins`
Subscription, and it stays stored, although without the failure it is deleted. -/
theorem failure_stops_later_registries :
    (getNeedDeletedOperands
      (Env.failing ⟨.delete, .Subscription, ⟨"etcd-ns", "etcd"⟩⟩ .Internal)
      requestBoth worldBoth).1 = .ok ["etcd", "jenkins"] ∧
    (absentOperatorsAndOperands
      (Env.failing ⟨.delete, .Subscription, ⟨"etcd-ns", "etcd"⟩⟩ .Internal)
      requestBoth worldBoth).1
      = .error (.multi [.wrap .Internal "failed to delete subscription"]) ∧
    ((absentOperatorsAndOperands
      (Env.failing ⟨.delete, .Subscription, ⟨"etcd-ns", "etcd"⟩⟩ .Internal)
      requestBoth worldBoth).2.2.calls.filter
        (fun c => decide (c.key.Name = "registry-j" ∨ c.key.Namespace = "jenkins-ns"))) = [] ∧
    (absentOperatorsAndOperands
      (Env.failing ⟨.delete, .Subscription, ⟨"etcd-ns", "etcd"⟩⟩ .Internal)
      requestBoth worldBoth).2.2.cluster.subscriptionAt ⟨"jenkins-ns", "jenkins"⟩
      = some jenkinsSubscription ∧
    (absentOperatorsAndOperands Env.reliable requestBoth
      worldBoth).2.2.cluster.subscriptionAt ⟨"jenkins-ns", "jenkins"⟩ = none := by
  decide

/-- C14, amended. For a Registry that the loop of `absentOperatorsAndOperands` processes,
and as long as no attempt dereferences nil, `deleteSubscription` is attempted for every
operand of the set, whatever the outcome of the others (`attemptAll` has as many outcomes
as the set has operands, and the loop ends in the state `attemptAll` ends in); the
failures are collected in order, and there is none if and only if no attempt failed. If
at least one attempt failed, `absentOperatorsAndOperands` returns an error made of exactly
the failures of that Registry and does not process the later Registries; otherwise it goes
on with the next Registry. -/
theorem failures_collected_per_registry (env : Env) (registryInstance : OperandRegistry)
    (names : List String) (requestInstance : OperandRequest) (w : World)
    (hno : ∀ r ∈ (attemptAll env registryInstance requestInstance w names).1,
      r ≠ .nilDereference) :
    (attemptAll env registryInstance requestInstance w names).1.length = names.length ∧
    deleteOperands env registryInstance [] requestInstance w names
      = (.ok (failuresOf (attemptAll env registryInstance requestInstance w names).1),
          (attemptAll env registryInstance requestInstance w names).2) ∧
    (failuresOf (attemptAll env registryInstance requestInstance w names).1 = [] ↔
      ∀ e, Result.error e ∉ (attemptAll env registryInstance requestInstance w names).1) ∧
    (∀ (entry : Request) (rest : List Request) (w0 w1 : World) (cfg : OperandConfig),
      GetOperandRegistry env w0 (requestInstance.GetRegistryKey entry)
        = (.ok registryInstance, w1) →
      GetOperandConfig env w1 (requestInstance.GetRegistryKey entry) = (.ok cfg, w) →
      (failuresOf (attemptAll env registryInstance requestInstance w names).1 ≠ [] →
        absentLoop env names requestInstance w0 (entry :: rest)
          = (.error
              (.multi (failuresOf (attemptAll env registryInstance requestInstance w names).1)),
              (attemptAll env registryInstance requestInstance w names).2)) ∧
      (failuresOf (attemptAll env registryInstance requestInstance w names).1 = [] →
        absentLoop env names requestInstance w0 (entry :: rest)
          = absentLoop env names
              (attemptAll env registryInstance requestInstance w names).2.1
              (attemptAll env registryInstance requestInstance w names).2.2 rest)) := by
  have hdel := deleteOperands_eq_attemptAll env registryInstance names [] requestInstance w hno
  simp only [List.nil_append] at hdel
  refine ⟨attemptAll_length env registryInstance names requestInstance w, hdel,
    failuresOf_eq_nil _ (attemptAll_errors_single env registryInstance names requestInstance w),
    ?_⟩
  intro entry rest w0 w1 cfg hreg hcfg
  constructor
  · intro hne
    simp only [absentLoop, hreg, hcfg, hdel]
    rw [if_pos (by simpa using hne)]
  · intro hnil
    simp only [absentLoop, hreg, hcfg, hdel]
    rw [if_neg (by simp [hnil])]

/-- C14, amended, for the two operands of `requestBoth` and the first Registry, with the
Delete of the `etcd` Subscription failing. -/
theorem failures_collected_per_registry_witness :
    (attemptAll (Env.failing ⟨.delete, .Subscription, ⟨"etcd-ns", "etcd"⟩⟩ .Internal)
      registryA requestBoth worldBoth ["etcd", "jenkins"]).1.length = 2 ∧
    deleteOperands (Env.failing ⟨.delete, .Subscription, ⟨"etcd-ns", "etcd"⟩⟩ .Internal)
        registryA [] requestBoth worldBoth ["etcd", "jenkins"]
      = (.ok (failuresOf
          (attemptAll (Env.failing ⟨.delete, .Subscription, ⟨"etcd-ns", "etcd"⟩⟩ .Internal)
            registryA requestBoth worldBoth ["etcd", "jenkins"]).1),
          (attemptAll (Env.failing ⟨.delete, .Subscription, ⟨"etcd-ns", "etcd"⟩⟩ .Internal)
            registryA requestBoth worldBoth ["etcd", "jenkins"]).2) :=
  ⟨(failures_collected_per_registry
      (Env.failing ⟨.delete, .Subscription, ⟨"etcd-ns", "etcd"⟩⟩ .Internal)
      registryA ["etcd", "jenkins"] requestBoth worldBoth (by decide)).1,
   (failures_collected_per_registry
      (Env.failing ⟨.delete, .Subscription, ⟨"etcd-ns", "etcd"⟩⟩ .Internal)
      registryA ["etcd", "jenkins"] requestBoth worldBoth (by decide)).2.1⟩

end ODLM
